import Mathlib

/-! # RailwaySystem: seat allocation, availability and cancellation

A shallow embedding of the booking handlers of `Backend/routes/bookings.js`
(create, list, cancel) and of the availability handler of
`Backend/routes/trains.js`.

The relational store is a record of row lists.  Every `db.query` call of a
handler is numbered in program order (0, 1, 2, ...), and the parameter
`failAt` names the call that rejects, if any: the handler's `catch` block
then answers 500 and whatever was written before stays in the store, since
the handlers open no transaction.

Conventions of the embedding:
* `SUM(total_passengers)` is `NULL` when no row matches and otherwise the sum,
  which the driver hands to the handler as a string of digits;
* counts and seat counters are integers, on which JavaScript arithmetic is
  exact (they are far below `2 ^ 53`); the one product that need not be an
  integer, `passengers.length * train.fare`, is a product of IEEE 754 doubles,
  and a double is modelled by its rational value;
* `Date.now()`, `Math.random()` and the insertion timestamp of the database
  are inputs of the handler (`Env`).
-/

namespace RailwaySystem

/-! ## Data model -/

/-- Status column of a `bookings` row. -/
inductive BookingStatus
  | confirmed
  | waiting
  | cancelled
  deriving DecidableEq, Repr

/-- Status column of a `passengers` row. -/
inductive PassengerStatus
  | confirmed
  | waiting
  deriving DecidableEq, Repr

/-- Row of table `trains` (the columns the handlers read). `fare` is the value of
the DECIMAL column, which the driver hands over as a string. -/
structure Train where
  id : Nat
  total_seats : Nat
  fare : ℚ
  train_number : String := ""
  train_name : String := ""
  source_station : String := ""
  destination_station : String := ""
  deriving DecidableEq, Repr

/-- Row of table `bookings`. `seat_numbers` is `NULL` until the final `UPDATE`;
`total_amount` is the number the handler passes to the `INSERT`. -/
structure Booking where
  id : Nat
  pnr_number : String
  user_id : Nat
  train_id : Nat
  journey_date : String
  total_passengers : Nat
  total_amount : ℚ
  status : BookingStatus
  seat_numbers : Option (List String)
  booking_date : Nat
  deriving DecidableEq, Repr

/-- Row of table `passengers`. -/
structure Passenger where
  id : Nat
  booking_id : Nat
  name : Option String
  age : Option Nat
  gender : Option String
  seat_number : Option String
  status : PassengerStatus
  deriving DecidableEq, Repr

/-- The database: rows of the three tables and the two auto-increment counters. -/
structure Store where
  trains : List Train
  bookings : List Booking
  passengers : List Passenger
  nextBookingId : Nat
  nextPassengerId : Nat
  deriving DecidableEq, Repr

/-- One element of `req.body.passengers`; a field may be absent. -/
structure PassengerInput where
  name : Option String
  age : Option Nat
  gender : Option String
  deriving DecidableEq, Repr

/-- The shapes `req.body.passengers` can take. -/
inductive PassengersField
  | falsy
  | nonArray
  | array (ps : List PassengerInput)
  deriving DecidableEq, Repr

/-- Body of `POST /bookings`. -/
structure BookingRequest where
  trainId : Option Nat
  journeyDate : Option String
  passengers : PassengersField
  deriving DecidableEq, Repr

/-- Inputs of a handler that do not come from the request. -/
structure Env where
  now : Nat
  random : Fin 1000
  timestamp : Nat
  failAt : Option Nat
  deriving DecidableEq, Repr

/-- The `booking` object of the 201 response. -/
structure BookingResult where
  pnrNumber : String
  bookingId : Nat
  status : BookingStatus
  confirmedPassengers : Int
  waitingPassengers : Int
  seatNumbers : List String
  totalAmount : ℚ
  deriving DecidableEq, Repr

/-- Body of the availability response. -/
structure Availability where
  train : Train
  availableSeats : Int
  totalSeats : Nat
  deriving DecidableEq, Repr

/-- What a handler sends: `res.status(code).json(...)`. -/
inductive Response (α : Type)
  | success (code : Nat) (body : α)
  | failure (code : Nat) (message : String)
  deriving DecidableEq, Repr

/-- HTTP status code of a response. -/
def Response.code {α : Type} : Response α → Nat
  | .success c _ => c
  | .failure c _ => c

/-- Body of a success response. -/
def Response.body? {α : Type} : Response α → Option α
  | .success _ b => some b
  | .failure _ _ => none

/-- Whether a response is a success response. -/
def Response.isSuccess {α : Type} : Response α → Bool
  | .success _ _ => true
  | .failure _ _ => false

/-! ## Queries -/

/-- `SELECT * FROM trains WHERE id = ?`. -/
def Store.selectTrain (s : Store) (trainId : Nat) : List Train :=
  s.trains.filter (fun t => decide (t.id = trainId))

/-- Rows matched by
`WHERE train_id = ? AND journey_date = ? AND status = "confirmed"`. -/
def Store.confirmedRows (s : Store) (trainId : Nat) (date : String) : List Booking :=
  s.bookings.filter (fun b =>
    decide (b.train_id = trainId) && decide (b.journey_date = date)
      && decide (b.status = BookingStatus.confirmed))

/-- `SELECT SUM(total_passengers) ...`: `NULL` when no row matches. -/
def Store.sumConfirmed (s : Store) (trainId : Nat) (date : String) : Option Nat :=
  match s.confirmedRows trainId date with
  | [] => none
  | rows => some (rows.map (fun b => b.total_passengers)).sum

/-- `INSERT INTO bookings (...)`; the new row takes the next auto-increment id. -/
def Store.insertBooking (s : Store) (b : Booking) : Store :=
  { s with bookings := s.bookings ++ [{ b with id := s.nextBookingId }],
           nextBookingId := s.nextBookingId + 1 }

/-- `INSERT INTO passengers (...)`. -/
def Store.insertPassenger (s : Store) (p : Passenger) : Store :=
  { s with passengers := s.passengers ++ [{ p with id := s.nextPassengerId }],
           nextPassengerId := s.nextPassengerId + 1 }

/-- `UPDATE bookings SET seat_numbers = ? WHERE id = ?`. -/
def Store.updateSeatNumbers (s : Store) (bookingId : Nat) (seats : List String) : Store :=
  { s with bookings := s.bookings.map (fun b =>
      if b.id = bookingId then { b with seat_numbers := some seats } else b) }

/-- `UPDATE bookings SET status = "cancelled" WHERE id = ?`. -/
def Store.setCancelled (s : Store) (bookingId : Nat) : Store :=
  { s with bookings := s.bookings.map (fun b =>
      if b.id = bookingId then { b with status := BookingStatus.cancelled } else b) }

/-- `SELECT * FROM bookings WHERE id = ? AND user_id = ?`. -/
def Store.selectOwned (s : Store) (bookingId userId : Nat) : List Booking :=
  s.bookings.filter (fun b => decide (b.id = bookingId) && decide (b.user_id = userId))

/-! ## JavaScript values

`mysql2` returns the `SUM(...)` of the capacity query, a DECIMAL, as a string
(the pool of `config/db.js` does not set `decimalNumbers`) and a `NULL` sum as
`null`.  So `bookedSeats` is the number 0 or a string of digits.  The subtraction
in `availableSeats` converts it to a number; `bookedSeats + 1` is the number 1
in the first case and the string with `1` appended in the second, and the first
`seatCounter++` converts that string to a number.  `train.fare`, a DECIMAL too,
arrives as a string as well and the product `passengers.length * train.fare` is
a product of doubles. -/

/-- Value of a decimal digit character. -/
def digitValue (c : Char) : Nat :=
  c.toNat - 48

/-- Reads a list of decimal digit characters, most significant first. -/
def readDigits (acc : Nat) (cs : List Char) : Nat :=
  cs.foldl (fun a c => 10 * a + digitValue c) acc

/-- The number the first `seatCounter++` yields: `0 + 1` for a `NULL` sum; for a
sum `b`, the number written with the digits of `b` followed by the digit 1. -/
def seatCounterStart : Option Nat → Nat
  | none => 0 + 1
  | some b => readDigits 0 (toString b ++ "1").data

/-- `⌊log₂ n⌋` for `n ≥ 1`, by halving at most `fuel` times. -/
def log2Fuel : Nat → Nat → Nat
  | 0, _ => 0
  | fuel + 1, n => if n < 2 then 0 else log2Fuel fuel (n / 2) + 1

/-- `⌊log₂ (a / b)⌋` for positive `a` and `b`. -/
def floorLog2 (a b : Nat) : Int :=
  let k : Int := (log2Fuel a a : Int) - (log2Fuel b b : Int)
  if a * 2 ^ (-k).toNat < b * 2 ^ k.toNat then k - 1 else k

/-- The integer nearest to `a / b`, the even one of the two at a tie. -/
def roundHalfEven (a b : Nat) : Nat :=
  let q := a / b
  let r := a % b
  if 2 * r < b then q else if b < 2 * r then q + 1 else if q % 2 = 0 then q else q + 1

/-- The double nearest to `sign * a / b` (round to nearest, ties to even): a
53-bit integer times a power of two with exponent at least -1074. Overflow to
infinity is left out: a DECIMAL has at most 65 digits and an array fewer than
`2 ^ 32` elements, so the values of the handlers stay far below `2 ^ 1024`. -/
def nearestDouble (sign : Int) (a b : Nat) : ℚ :=
  if a = 0 then 0
  else
    let e : Int := max (floorLog2 a b - 52) (-1074)
    let m : Nat := roundHalfEven (a * 2 ^ (-e).toNat) (b * 2 ^ e.toNat)
    mkRat (sign * ((m * 2 ^ e.toNat : Nat) : Int)) (2 ^ (-e).toNat)

/-- The number a numeric string converts to: the double nearest to its value. -/
def toDouble (q : ℚ) : ℚ :=
  nearestDouble q.num.sign q.num.natAbs q.den

/-- `passengers.length * train.fare`: the fare is converted to a double and the
exact product of the two doubles is rounded to a double. -/
def jsProduct (n : Nat) (fare : ℚ) : ℚ :=
  nearestDouble (toDouble fare).num.sign (n * (toDouble fare).num.natAbs) (toDouble fare).den

/-! ## `POST /bookings` -/

/-- The template literal that formats a seat label from the counter. -/
def seatLabel (seatCounter : Nat) : String :=
  "S" ++ toString seatCounter

/-- The passenger loop of the handler, from index `i` on: `seatCounter` and
`seatNumbers` are the loop's variables, insert number `i` is query `3 + i`.
Returns the store and, unless an insert failed, the final `seatNumbers`. -/
def addPassengers (failAt : Option Nat) (bookingId : Nat) (availableSeats : Int) :
    List PassengerInput → Nat → Nat → List String → Store → Store × Option (List String)
  | [], _, _, seatNumbers, s => (s, some seatNumbers)
  | passenger :: rest, i, seatCounter, seatNumbers, s =>
    if (i : Int) < availableSeats then
      if failAt = some (3 + i) then (s, none)
      else
        addPassengers failAt bookingId availableSeats rest (i + 1) (seatCounter + 1)
          (seatNumbers ++ [seatLabel seatCounter])
          (s.insertPassenger
            { id := 0, booking_id := bookingId, name := passenger.name, age := passenger.age,
              gender := passenger.gender, seat_number := some (seatLabel seatCounter),
              status := PassengerStatus.confirmed })
    else
      if failAt = some (3 + i) then (s, none)
      else
        addPassengers failAt bookingId availableSeats rest (i + 1) seatCounter seatNumbers
          (s.insertPassenger
            { id := 0, booking_id := bookingId, name := passenger.name, age := passenger.age,
              gender := passenger.gender, seat_number := none,
              status := PassengerStatus.waiting })

/-- The aggregate status written to the row and returned. -/
def aggregateStatus (availableSeats : Int) (passengerCount : Nat) : BookingStatus :=
  if availableSeats ≥ (passengerCount : Int) then BookingStatus.confirmed
  else BookingStatus.waiting

/-- The number `bookedSeats` (in `trains.js`: `confirmedSeats`) stands for in a
subtraction: the sum, or 0 for `NULL`. -/
def Store.bookedSeats (s : Store) (trainId : Nat) (date : String) : Nat :=
  (s.sumConfirmed trainId date).getD 0

/-- The number the first `seatCounter++` yields in a request for the train and
date. -/
def Store.seatStart (s : Store) (trainId : Nat) (date : String) : Nat :=
  seatCounterStart (s.sumConfirmed trainId date)

/-- The part of the handler after the train row was found. -/
def bookOnTrain (s : Store) (env : Env) (userId trainId : Nat) (journeyDate : String)
    (passengers : List PassengerInput) (train : Train) : Store × Response BookingResult :=
  if env.failAt = some 1 then (s, .failure 500 "Booking failed")
  else
    -- `bookedSeats` as the subtraction reads it: a number
    let bookedSeats : Nat := s.bookedSeats trainId journeyDate
    let availableSeats : Int := (train.total_seats : Int) - (bookedSeats : Int)
    let pnrNumber : String := "PNR" ++ toString env.now ++ toString env.random.val
    let totalAmount : ℚ := jsProduct passengers.length train.fare
    -- `bookedSeats + 1` as the first `seatCounter++` reads it
    let seatCounter : Nat := s.seatStart trainId journeyDate
    if env.failAt = some 2 then (s, .failure 500 "Booking failed")
    else
      let bookingId : Nat := s.nextBookingId
      let s1 : Store := s.insertBooking
        { id := 0, pnr_number := pnrNumber, user_id := userId, train_id := trainId,
          journey_date := journeyDate, total_passengers := passengers.length,
          total_amount := totalAmount,
          status := aggregateStatus availableSeats passengers.length,
          seat_numbers := none, booking_date := env.timestamp }
      match addPassengers env.failAt bookingId availableSeats passengers 0 seatCounter [] s1 with
      | (s2, none) => (s2, .failure 500 "Booking failed")
      | (s2, some seatNumbers) =>
        if env.failAt = some (3 + passengers.length) then (s2, .failure 500 "Booking failed")
        else
          (s2.updateSeatNumbers bookingId seatNumbers,
            .success 201
              { pnrNumber := pnrNumber, bookingId := bookingId,
                status := aggregateStatus availableSeats passengers.length,
                confirmedPassengers := min (passengers.length : Int) availableSeats,
                waitingPassengers := max 0 ((passengers.length : Int) - availableSeats),
                seatNumbers := seatNumbers, totalAmount := totalAmount })

/-- Handler of `POST /bookings` for the authenticated user `userId`. -/
def createBooking (s : Store) (env : Env) (userId : Nat) (req : BookingRequest) :
    Store × Response BookingResult :=
  match req.trainId, req.journeyDate, req.passengers with
  | some trainId, some journeyDate, PassengersField.array passengers =>
    if trainId = 0 ∨ journeyDate = "" ∨ passengers.length = 0 then
      (s, .failure 400 "Invalid booking data")
    else if env.failAt = some 0 then (s, .failure 500 "Booking failed")
    else
      match s.selectTrain trainId with
      | [] => (s, .failure 404 "Train not found")
      | train :: _ => bookOnTrain s env userId trainId journeyDate passengers train
  | _, _, _ => (s, .failure 400 "Invalid booking data")

/-! ## `POST /bookings/:id/cancel` -/

/-- Handler of `POST /bookings/:id/cancel` for the authenticated user `userId`. -/
def cancel (s : Store) (failAt : Option Nat) (userId bookingId : Nat) : Store × Response Unit :=
  if failAt = some 0 then (s, .failure 500 "Failed to cancel booking")
  else
    match s.selectOwned bookingId userId with
    | [] => (s, .failure 404 "Booking not found")
    | _ :: _ =>
      if failAt = some 1 then (s, .failure 500 "Failed to cancel booking")
      else (s.setCancelled bookingId, .success 200 ())

/-! ## `GET /bookings/my-bookings` -/

/-- One row of the listing: `b.*`, the four train columns and the two counts. -/
structure BookingListing where
  booking : Booking
  train_number : String
  train_name : String
  source_station : String
  destination_station : String
  confirmed_seats : Nat
  waiting_seats : Nat
  deriving DecidableEq, Repr

/-- `SELECT COUNT(*) FROM passengers p WHERE p.booking_id = b.id AND p.status = ...`. -/
def Store.countPassengers (s : Store) (bookingId : Nat) (status : PassengerStatus) : Nat :=
  (s.passengers.filter (fun p =>
    decide (p.booking_id = bookingId) && decide (p.status = status))).length

/-- `FROM bookings b JOIN trains t ON b.train_id = t.id WHERE b.user_id = ?` with the
selected columns, before ordering. -/
def Store.joinedRows (s : Store) (userId : Nat) : List BookingListing :=
  (s.bookings.filter (fun b => decide (b.user_id = userId))).flatMap (fun b =>
    (s.trains.filter (fun t => decide (b.train_id = t.id))).map (fun t =>
      { booking := b, train_number := t.train_number, train_name := t.train_name,
        source_station := t.source_station, destination_station := t.destination_station,
        confirmed_seats := s.countPassengers b.id PassengerStatus.confirmed,
        waiting_seats := s.countPassengers b.id PassengerStatus.waiting }))

/-- The order of `ORDER BY b.booking_date DESC`. -/
def newerFirst (a b : BookingListing) : Prop :=
  b.booking.booking_date ≤ a.booking.booking_date

instance : DecidableRel newerFirst :=
  fun a b => inferInstanceAs (Decidable (b.booking.booking_date ≤ a.booking.booking_date))

instance : IsTotal BookingListing newerFirst :=
  ⟨fun a b => Nat.le_total b.booking.booking_date a.booking.booking_date⟩

instance : IsTrans BookingListing newerFirst :=
  ⟨fun _ _ _ hab hbc => Nat.le_trans hbc hab⟩

/-- Handler of `GET /bookings/my-bookings` for the authenticated user `userId`. -/
def listForUser (s : Store) (failAt : Option Nat) (userId : Nat) :
    Response (List BookingListing) :=
  if failAt = some 0 then .failure 500 "Failed to fetch bookings"
  else .success 200 (List.insertionSort newerFirst (s.joinedRows userId))

/-! ## `GET /trains/:id/availability` -/

/-- Handler of `GET /trains/:id/availability?date=...`. -/
def availability (s : Store) (failAt : Option Nat) (trainId : Nat) (date : Option String) :
    Response Availability :=
  match date with
  | none => .failure 400 "Date parameter is required"
  | some date =>
    if date = "" then .failure 400 "Date parameter is required"
    else if failAt = some 0 then .failure 500 "Failed to check availability"
    else
      match s.selectTrain trainId with
      | [] => .failure 404 "Train not found"
      | train :: _ =>
        if failAt = some 1 then .failure 500 "Failed to check availability"
        else
          let confirmedSeats : Nat := s.bookedSeats trainId date
          let availableSeats : Int := max 0 ((train.total_seats : Int) - (confirmedSeats : Int))
          .success 200
            { train := train, availableSeats := availableSeats, totalSeats := train.total_seats }

/-! ## Interleaved requests

Each `await db.query(...)` of a handler is a point where the handler of another
request can run.  `bookAfterRead` is the booking code from the point where
`bookedSeats` has been read; the value it is given may be older than the store
its writes go to. -/

/-- The part of the `POST /bookings` handler after the sum was read: the answer
`totalBooked` of the `SUM` query is a parameter, the writes go to `s`. -/
def bookAfterRead (s : Store) (env : Env) (userId trainId : Nat) (journeyDate : String)
    (passengers : List PassengerInput) (train : Train) (totalBooked : Option Nat) :
    Store × Response BookingResult :=
  -- `bookedSeats` as the subtraction reads it: a number
  let bookedSeats : Nat := totalBooked.getD 0
  let availableSeats : Int := (train.total_seats : Int) - (bookedSeats : Int)
  let pnrNumber : String := "PNR" ++ toString env.now ++ toString env.random.val
  let totalAmount : ℚ := jsProduct passengers.length train.fare
  -- `bookedSeats + 1` as the first `seatCounter++` reads it
  let seatCounter : Nat := seatCounterStart totalBooked
  if env.failAt = some 2 then (s, .failure 500 "Booking failed")
  else
    let bookingId : Nat := s.nextBookingId
    let s1 : Store := s.insertBooking
      { id := 0, pnr_number := pnrNumber, user_id := userId, train_id := trainId,
        journey_date := journeyDate, total_passengers := passengers.length,
        total_amount := totalAmount,
        status := aggregateStatus availableSeats passengers.length,
        seat_numbers := none, booking_date := env.timestamp }
    match addPassengers env.failAt bookingId availableSeats passengers 0 seatCounter [] s1 with
    | (s2, none) => (s2, .failure 500 "Booking failed")
    | (s2, some seatNumbers) =>
      if env.failAt = some (3 + passengers.length) then (s2, .failure 500 "Booking failed")
      else
        (s2.updateSeatNumbers bookingId seatNumbers,
          .success 201
            { pnrNumber := pnrNumber, bookingId := bookingId,
              status := aggregateStatus availableSeats passengers.length,
              confirmedPassengers := min (passengers.length : Int) availableSeats,
              waitingPassengers := max 0 ((passengers.length : Int) - availableSeats),
              seatNumbers := seatNumbers, totalAmount := totalAmount })

/-- Two requests for the same train and date, interleaved so that both capacity
reads are answered from `s` before either handler writes: the first handler then
does its writes on `s`, the second on the store the first left, each with the
sum it read. Returns the two responses and the final store. -/
def bothReadThenWrite (s : Store) (envA envB : Env) (userA userB trainId : Nat)
    (journeyDate : String) (passengersA passengersB : List PassengerInput) (train : Train) :
    Response BookingResult × Response BookingResult × Store :=
  let totalBooked : Option Nat := s.sumConfirmed trainId journeyDate
  let a := bookAfterRead s envA userA trainId journeyDate passengersA train totalBooked
  let b := bookAfterRead a.1 envB userB trainId journeyDate passengersB train totalBooked
  (a.2, b.2, b.1)

/-- A train with one seat and fare 100. -/
def train1 : Train :=
  { id := 1, total_seats := 1, fare := 100 }

/-! ## Vocabulary of the statements -/

/-- The `passengers` row the loop writes `m` steps after a step that had index
`i`, counter value `seatCounter` and next row id `pid`, provided the counter was
advanced at every step in between (which it is while `i + m < availableSeats`). -/
def passengerRow (bookingId : Nat) (availableSeats : Int) (i seatCounter pid m : Nat)
    (p : PassengerInput) : Passenger :=
  { id := pid + m, booking_id := bookingId, name := p.name, age := p.age, gender := p.gender,
    seat_number :=
      if ((i + m : Nat) : Int) < availableSeats then some (seatLabel (seatCounter + m)) else none,
    status :=
      if ((i + m : Nat) : Int) < availableSeats then PassengerStatus.confirmed
      else PassengerStatus.waiting }

/-- The `bookings` row inserted by the handler (before the seat-number update). -/
def bookingRow (s : Store) (env : Env) (userId trainId : Nat) (journeyDate : String)
    (passengers : List PassengerInput) (train : Train) : Booking :=
  { id := s.nextBookingId,
    pnr_number := "PNR" ++ toString env.now ++ toString env.random.val,
    user_id := userId, train_id := trainId, journey_date := journeyDate,
    total_passengers := passengers.length,
    total_amount := jsProduct passengers.length train.fare,
    status := aggregateStatus ((train.total_seats : Int) - (s.bookedSeats trainId journeyDate : Int))
      passengers.length,
    seat_numbers := none, booking_date := env.timestamp }

/-- The seat labels `S(c)`, `S(c+1)`, ..., `S(c+k-1)`. -/
def seatRange (c k : Nat) : List String :=
  (List.range' c k).map seatLabel

/-- What `availableSeats` evaluates to in `POST /bookings` (it can be negative). -/
def Store.seatsLeft (s : Store) (train : Train) (trainId : Nat) (date : String) : Int :=
  (train.total_seats : Int) - (s.bookedSeats trainId date : Int)

/-- The store after the booking insert and the first `m` passenger inserts. -/
def partialStore (s : Store) (env : Env) (userId trainId : Nat) (journeyDate : String)
    (passengers : List PassengerInput) (train : Train) (m : Nat) : Store :=
  { trains := s.trains,
    bookings := s.bookings ++ [bookingRow s env userId trainId journeyDate passengers train],
    passengers := s.passengers ++
      (passengers.take m).mapIdx (fun j p =>
        passengerRow s.nextBookingId (s.seatsLeft train trainId journeyDate) 0
          (s.seatStart trainId journeyDate) s.nextPassengerId j p),
    nextBookingId := s.nextBookingId + 1,
    nextPassengerId := s.nextPassengerId + m }

/-- The seat labels a request for `n` passengers is given. -/
def issuedSeats (s : Store) (train : Train) (trainId : Nat) (date : String) (n : Nat) :
    List String :=
  seatRange (s.seatStart trainId date) (min n (s.seatsLeft train trainId date).toNat)

/-- The `booking` object of the 201 response, in closed form. -/
def bookingResult (s : Store) (env : Env) (trainId : Nat) (journeyDate : String)
    (passengers : List PassengerInput) (train : Train) : BookingResult :=
  { pnrNumber := "PNR" ++ toString env.now ++ toString env.random.val,
    bookingId := s.nextBookingId,
    status := aggregateStatus (s.seatsLeft train trainId journeyDate) passengers.length,
    confirmedPassengers := min (passengers.length : Int) (s.seatsLeft train trainId journeyDate),
    waitingPassengers :=
      max 0 ((passengers.length : Int) - s.seatsLeft train trainId journeyDate),
    seatNumbers := issuedSeats s train trainId journeyDate passengers.length,
    totalAmount := jsProduct passengers.length train.fare }

/-- A request body that passes the validation of `POST /bookings`. -/
def validRequest (trainId : Nat) (journeyDate : String) (passengers : List PassengerInput) :
    BookingRequest :=
  { trainId := some trainId, journeyDate := some journeyDate,
    passengers := PassengersField.array passengers }

/-- The passenger rows of a request whose inserts all succeed. -/
def newRows (s : Store) (train : Train) (trainId : Nat) (date : String)
    (passengers : List PassengerInput) : List Passenger :=
  passengers.mapIdx (fun j p =>
    passengerRow s.nextBookingId (s.seatsLeft train trainId date) 0
      (s.seatStart trainId date) s.nextPassengerId j p)

/-- The effect of the seat-number update on one `bookings` row. -/
def setSeats (bookingId : Nat) (seats : List String) (b : Booking) : Booking :=
  if b.id = bookingId then { b with seat_numbers := some seats } else b

/-- What one `bookings` row adds to the confirmed sum of a train and date. -/
def contribution (trainId : Nat) (date : String) (b : Booking) : Nat :=
  if b.train_id = trainId ∧ b.journey_date = date ∧ b.status = BookingStatus.confirmed
  then b.total_passengers else 0

/-- The effect of the cancel update on one `bookings` row. -/
def cancelRow (bookingId : Nat) (b : Booking) : Booking :=
  if b.id = bookingId then { b with status := BookingStatus.cancelled } else b

/-! ## Concrete inputs -/

/-- A train with three seats and fare 100. -/
def train3 : Train :=
  { id := 1, total_seats := 3, fare := 100 }

/-- A train with two seats and fare 100. -/
def train2 : Train :=
  { id := 1, total_seats := 2, fare := 100 }

/-- A train with five seats and fare 100. -/
def train5 : Train :=
  { id := 1, total_seats := 5, fare := 100 }

/-- A train with three seats and fare 0.10. -/
def trainTenth : Train :=
  { id := 1, total_seats := 3, fare := mkRat 1 10 }

/-- A passenger record with all fields present. -/
def traveller : PassengerInput :=
  { name := some "Asha", age := some 30, gender := some "F" }

/-- A passenger record without a name. -/
def nameless : PassengerInput :=
  { name := none, age := some 30, gender := some "F" }

/-- An environment in which no query fails. -/
def quietEnv : Env :=
  { now := 1700000000000, random := 7, timestamp := 0, failAt := none }

/-- An environment in which query number `k` of the handler fails. -/
def faultyEnv (k : Nat) : Env :=
  { now := 1700000000000, random := 7, timestamp := 0, failAt := some k }

/-- A request for `n` passengers on train 1 on one fixed date. -/
def request (n : Nat) : BookingRequest :=
  validRequest 1 "2025-01-01" (List.replicate n traveller)

/-! ## Sequences of calls -/

/-- One call of the booking API. -/
inductive Op
  | create (env : Env) (userId : Nat) (req : BookingRequest)
  | cancel (userId bookingId : Nat)
  deriving DecidableEq, Repr

/-- The store after one call (no storage failure in `cancel`). -/
def step (s : Store) : Op → Store
  | .create env userId req => (createBooking s env userId req).1
  | .cancel userId bookingId => (cancel s none userId bookingId).1

/-- The store after a sequence of calls executed one at a time. -/
def run (s : Store) (ops : List Op) : Store :=
  ops.foldl step s

/-- Whether a call is a `createBooking`. -/
def Op.isCreate : Op → Bool
  | .create _ _ _ => true
  | .cancel _ _ => false

/-- A database with the given trains and no booking yet. -/
def emptyStore (trains : List Train) : Store :=
  { trains := trains, bookings := [], passengers := [], nextBookingId := 1, nextPassengerId := 1 }

/-- The store after one passenger was booked on the three-seat train. -/
def bookedOnce : Store :=
  run (emptyStore [train3]) [Op.create quietEnv 7 (request 1)]

/-- Two confirmed bookings of two passengers each on the three-seat train: the
confirmed sum (4) exceeds the capacity, as after two interleaved requests. -/
def overbooked : Store :=
  { trains := [train3],
    bookings :=
      [{ id := 1, pnr_number := "PNR17000000000001", user_id := 7, train_id := 1,
         journey_date := "2025-01-01", total_passengers := 2, total_amount := 200,
         status := BookingStatus.confirmed, seat_numbers := some ["S1", "S2"],
         booking_date := 0 },
       { id := 2, pnr_number := "PNR17000000000002", user_id := 8, train_id := 1,
         journey_date := "2025-01-01", total_passengers := 2, total_amount := 200,
         status := BookingStatus.confirmed, seat_numbers := some ["S1", "S2"],
         booking_date := 0 }],
    passengers :=
      [{ id := 1, booking_id := 1, name := some "A", age := some 30, gender := some "F",
         seat_number := some "S1", status := PassengerStatus.confirmed },
       { id := 2, booking_id := 1, name := some "B", age := some 31, gender := some "M",
         seat_number := some "S2", status := PassengerStatus.confirmed },
       { id := 3, booking_id := 2, name := some "C", age := some 32, gender := some "F",
         seat_number := some "S1", status := PassengerStatus.confirmed },
       { id := 4, booking_id := 2, name := some "D", age := some 33, gender := some "M",
         seat_number := some "S2", status := PassengerStatus.confirmed }],
    nextBookingId := 3,
    nextPassengerId := 5 }

/-- A confirmed booking of two passengers on the three-seat train. -/
def firstBooking : Booking :=
  { id := 1, pnr_number := "PNR17000000000007", user_id := 7, train_id := 1,
    journey_date := "2025-01-01", total_passengers := 2, total_amount := 200,
    status := BookingStatus.confirmed, seat_numbers := some ["S1", "S2"], booking_date := 0 }

/-- The store after `firstBooking` and a later request for two passengers, which
found one seat left and is waiting. -/
def fullTrain : Store :=
  { trains := [train3],
    bookings :=
      [firstBooking,
       { id := 2, pnr_number := "PNR17000000000017", user_id := 8, train_id := 1,
         journey_date := "2025-01-01", total_passengers := 2, total_amount := 200,
         status := BookingStatus.waiting, seat_numbers := some ["S21"], booking_date := 1 }],
    passengers :=
      [{ id := 1, booking_id := 1, name := some "A", age := some 30, gender := some "F",
         seat_number := some "S1", status := PassengerStatus.confirmed },
       { id := 2, booking_id := 1, name := some "B", age := some 31, gender := some "M",
         seat_number := some "S2", status := PassengerStatus.confirmed },
       { id := 3, booking_id := 2, name := some "C", age := some 32, gender := some "F",
         seat_number := some "S21", status := PassengerStatus.confirmed },
       { id := 4, booking_id := 2, name := some "D", age := some 33, gender := some "M",
         seat_number := none, status := PassengerStatus.waiting }],
    nextBookingId := 3,
    nextPassengerId := 5 }

/-- The second row of `fullTrain`: the waiting booking of user 8. -/
def secondBooking : Booking :=
  { id := 2, pnr_number := "PNR17000000000017", user_id := 8, train_id := 1,
    journey_date := "2025-01-01", total_passengers := 2, total_amount := 200,
    status := BookingStatus.waiting, seat_numbers := some ["S21"], booking_date := 1 }

/-- For every train and date, the confirmed sum is at most the capacity of the
train row the handlers read for that id. -/
def CapacityRespected (s : Store) : Prop :=
  ∀ (trainId : Nat) (date : String) (train : Train),
    (s.selectTrain trainId).head? = some train →
    s.bookedSeats trainId date ≤ train.total_seats

/-- Every booking row has an id below the next auto-increment value. -/
def IdsBelowNext (s : Store) : Prop :=
  ∀ b ∈ s.bookings, b.id < s.nextBookingId

instance (s : Store) : Decidable (IdsBelowNext s) := by
  unfold IdsBelowNext; infer_instance

/-- Every passenger and booking row of `s` is in the same place in `s'`; a booking
row may differ in its status only, and then the new status is cancelled. -/
def RowsKept (s s' : Store) : Prop :=
  (∀ (i : Nat) (p : Passenger), s.passengers[i]? = some p → s'.passengers[i]? = some p) ∧
  (∀ (i : Nat) (b : Booking), s.bookings[i]? = some b →
    ∃ b' : Booking, s'.bookings[i]? = some b' ∧ b' = { b with status := b'.status } ∧
      (b'.status = b.status ∨ b'.status = BookingStatus.cancelled))

/-- Whether a call made on `s` answers with a success response. -/
def stepSucceeds (s : Store) : Op → Bool
  | .create env userId req => (createBooking s env userId req).2.isSuccess
  | .cancel userId bookingId => (cancel s none userId bookingId).2.isSuccess

/-- Whether every call of a sequence, made one after the other from `s`, answers
with a success response. -/
def runSucceeds : Store → List Op → Bool
  | _, [] => true
  | s, op :: rest => stepSucceeds s op && runSucceeds (step s op) rest

/-- Number of passenger rows that reference a booking id. -/
def Store.passengerCount (s : Store) (bookingId : Nat) : Nat :=
  (s.passengers.filter (fun p => decide (p.booking_id = bookingId))).length

/-- The ids in use are below the next booking id and every booking row has as
many passenger rows as its `total_passengers` says. -/
def CountsMatch (s : Store) : Prop :=
  (∀ p ∈ s.passengers, p.booking_id < s.nextBookingId) ∧
  (∀ b ∈ s.bookings, b.id < s.nextBookingId) ∧
  (∀ b ∈ s.bookings, s.passengerCount b.id = b.total_passengers)

/-- The confirmed sum of a train and date over the first `i` booking rows only,
that is, over the bookings created before the one in row `i`. -/
def Store.confirmedBefore (s : Store) (i : Nat) (trainId : Nat) (date : String) : Nat :=
  ({ s with bookings := s.bookings.take i } : Store).bookedSeats trainId date

/-- Every confirmed booking row either has no seat list yet or holds the labels
that follow the seats of the confirmed bookings created before it. -/
def SeatRangesConsecutive (s : Store) : Prop :=
  ∀ (i : Nat) (b : Booking), s.bookings[i]? = some b → b.status = BookingStatus.confirmed →
    b.seat_numbers = none ∨
    b.seat_numbers
      = some (seatRange (s.confirmedBefore i b.train_id b.journey_date + 1) b.total_passengers)

/-- Seat list of a booking row (`NULL` read as no seat). -/
def Booking.seats (b : Booking) : List String :=
  b.seat_numbers.getD []

/-- No two distinct confirmed bookings of one train and date share a seat number. -/
def SeatsUnique (s : Store) : Prop :=
  ∀ b₁ ∈ s.bookings, ∀ b₂ ∈ s.bookings,
    b₁.id ≠ b₂.id → b₁.train_id = b₂.train_id → b₁.journey_date = b₂.journey_date →
    b₁.status = BookingStatus.confirmed → b₂.status = BookingStatus.confirmed →
    ∀ x ∈ b₁.seats, x ∉ b₂.seats

instance (s : Store) : Decidable (SeatsUnique s) := by
  unfold SeatsUnique; infer_instance

/-- The seat list of any booking is disjoint from that of every other confirmed
booking of the same train and date. -/
def SeatsDisjointFromConfirmed (s : Store) : Prop :=
  ∀ b₁ ∈ s.bookings, ∀ b₂ ∈ s.bookings,
    b₁.id ≠ b₂.id → b₁.train_id = b₂.train_id → b₁.journey_date = b₂.journey_date →
    b₂.status = BookingStatus.confirmed →
    ∀ x ∈ b₁.seats, x ∉ b₂.seats

instance (s : Store) : Decidable (SeatsDisjointFromConfirmed s) := by
  unfold SeatsDisjointFromConfirmed; infer_instance

end RailwaySystem


namespace RailwaySystem

/-! ## Seat labels -/

theorem digitValue_digitChar (m : Nat) (h : m < 10) : digitValue (Nat.digitChar m) = m := by
  interval_cases m <;> rfl

theorem readDigits_toDigitsCore (fuel : Nat) :
    ∀ (n : Nat) (ds : List Char), n < fuel →
      readDigits 0 (Nat.toDigitsCore 10 fuel n ds) = readDigits n ds := by
  induction fuel with
  | zero => intro n ds h; omega
  | succ fuel ih =>
    intro n ds h
    unfold Nat.toDigitsCore
    by_cases h0 : n / 10 = 0
    · have hn : n < 10 := by omega
      simp only [h0, if_true]
      simp only [readDigits, List.foldl_cons, Nat.mul_zero, Nat.zero_add]
      rw [digitValue_digitChar _ (Nat.mod_lt _ (by decide)), Nat.mod_eq_of_lt hn]
    · simp only [h0, if_false]
      rw [ih (n / 10) _ (by omega)]
      simp only [readDigits, List.foldl_cons]
      rw [digitValue_digitChar _ (Nat.mod_lt _ (by decide))]
      congr 1
      omega

theorem readDigits_repr (n : Nat) : readDigits 0 (Nat.repr n).data = n := by
  simp only [Nat.repr, Nat.toDigits, List.asString]
  rw [readDigits_toDigitsCore (n + 1) n [] (by omega)]
  rfl

theorem seatLabel_injective : Function.Injective seatLabel := by
  intro a b h
  have hd : (seatLabel a).data = (seatLabel b).data := by rw [h]
  simp only [seatLabel, String.data_append, List.append_cancel_left_eq, toString] at hd
  have := congrArg (readDigits 0) hd
  rwa [readDigits_repr, readDigits_repr] at this

theorem seatLabel_inj {a b : Nat} : seatLabel a = seatLabel b ↔ a = b :=
  seatLabel_injective.eq_iff

/-! ## The counter start and the double product -/

/-- The digits of `b` followed by the digit 1 are read as `10 * b + 1`. -/
theorem seatCounterStart_some (b : Nat) : seatCounterStart (some b) = 10 * b + 1 := by
  have h : readDigits 0 ((Nat.repr b).data ++ ['1'])
      = 10 * readDigits 0 (Nat.repr b).data + 1 := by
    simp only [readDigits, List.foldl_append, List.foldl_cons, List.foldl_nil]
    rfl
  rw [readDigits_repr] at h
  exact h

theorem log2Fuel_spec (fuel : Nat) :
    ∀ n : Nat, 1 ≤ n → n ≤ fuel →
      2 ^ log2Fuel fuel n ≤ n ∧ n < 2 ^ (log2Fuel fuel n + 1) := by
  induction fuel with
  | zero => intro n h1 h2; omega
  | succ fuel ih =>
    intro n h1 h2
    unfold log2Fuel
    by_cases h : n < 2
    · rw [if_pos h]
      constructor
      · simpa using h1
      · simpa using h
    · rw [if_neg h]
      obtain ⟨ha, hb⟩ := ih (n / 2) (by omega) (by omega)
      constructor
      · rw [pow_succ]; omega
      · rw [pow_succ]; omega

theorem log2Fuel_le (a : Nat) (h1 : 1 ≤ a) (h : a < 2 ^ 53) : log2Fuel a a ≤ 52 := by
  obtain ⟨ha, _⟩ := log2Fuel_spec a a h1 le_rfl
  by_contra hc
  have : 2 ^ 53 ≤ 2 ^ log2Fuel a a := Nat.pow_le_pow_right (by decide) (by omega)
  omega

theorem floorLog2_one (a : Nat) (h1 : 1 ≤ a) : floorLog2 a 1 = (log2Fuel a a : Int) := by
  obtain ⟨ha, _⟩ := log2Fuel_spec a a h1 le_rfl
  have h0 : log2Fuel 1 1 = 0 := by decide
  simp only [floorLog2, h0, Nat.cast_zero, sub_zero, Int.toNat_ofNat, one_mul]
  have : (-(log2Fuel a a : Int)).toNat = 0 := by omega
  rw [this, pow_zero, mul_one, if_neg (by omega)]

theorem roundHalfEven_one (a : Nat) : roundHalfEven a 1 = a := by
  simp [roundHalfEven, Nat.mod_one]

/-- A whole number below `2 ^ 53` is a double. -/
theorem nearestDouble_nat (sign : Int) (a : Nat) (h : a < 2 ^ 53) :
    nearestDouble sign a 1 = sign * (a : ℚ) := by
  unfold nearestDouble
  by_cases h0 : a = 0
  · simp [h0]
  · rw [if_neg h0]
    have h1 : 1 ≤ a := by omega
    have hle := log2Fuel_le a h1 h
    rw [floorLog2_one a h1]
    have he : max ((log2Fuel a a : Int) - 52) (-1074) = (log2Fuel a a : Int) - 52 := by omega
    simp only [he]
    have ht : ((log2Fuel a a : Int) - 52).toNat = 0 := by omega
    rw [ht, pow_zero, mul_one, mul_one, roundHalfEven_one]
    rw [Rat.mkRat_eq_div]
    have hp : ((2 ^ (-((log2Fuel a a : Int) - 52)).toNat : Nat) : ℚ) ≠ 0 := by positivity
    push_cast
    push_cast at hp
    field_simp
    ring

theorem toDouble_nat (f : Nat) (h : f < 2 ^ 53) : toDouble (f : ℚ) = f := by
  unfold toDouble
  simp only [Rat.num_natCast, Rat.den_natCast, Int.natAbs_ofNat]
  rw [nearestDouble_nat _ _ h]
  rcases Nat.eq_zero_or_pos f with h0 | h0
  · simp [h0]
  · rw [Int.sign_eq_one_of_pos (by exact_mod_cast h0)]
    simp

/-- For a whole-number fare `f` with `n * f < 2 ^ 53` the double product is the
exact product. -/
theorem jsProduct_nat (n f : Nat) (h : n * f < 2 ^ 53) : jsProduct n (f : ℚ) = (n : ℚ) * f := by
  rcases Nat.eq_zero_or_pos n with hn | hn
  · subst hn
    simp [jsProduct, nearestDouble]
  · have hf : f < 2 ^ 53 := lt_of_le_of_lt (Nat.le_mul_of_pos_left f hn) h
    unfold jsProduct
    rw [toDouble_nat f hf]
    simp only [Rat.num_natCast, Rat.den_natCast, Int.natAbs_ofNat]
    rw [nearestDouble_nat _ _ h]
    rcases Nat.eq_zero_or_pos f with h0 | h0
    · simp [h0]
    · rw [Int.sign_eq_one_of_pos (by exact_mod_cast h0)]
      push_cast
      ring

/-! ## The passenger loop -/

theorem passengerRow_succ_lt (bid : Nat) (a : Int) (i c pid : Nat) :
    (fun m p => passengerRow bid a i c pid (m + 1) p)
      = passengerRow bid a (i + 1) (c + 1) (pid + 1) := by
  funext m p
  have e1 : i + 1 + m = i + (m + 1) := by omega
  have e2 : c + 1 + m = c + (m + 1) := by omega
  have e3 : pid + 1 + m = pid + (m + 1) := by omega
  simp only [passengerRow, e1, e2, e3]

theorem passengerRow_succ_ge (bid : Nat) (a : Int) (i c pid : Nat) (h : ¬ (i : Int) < a) :
    (fun m p => passengerRow bid a i c pid (m + 1) p)
      = passengerRow bid a (i + 1) c (pid + 1) := by
  funext m p
  have h1 : ¬ (((i + 1 + m : Nat) : Int) < a) := by omega
  have h2 : ¬ (((i + (m + 1) : Nat) : Int) < a) := by omega
  have e3 : pid + 1 + m = pid + (m + 1) := by omega
  simp only [passengerRow, h1, h2, if_false, e3]

theorem passengerRow_zero_lt (bid : Nat) (a : Int) (i c pid : Nat) (p : PassengerInput)
    (h : (i : Int) < a) :
    passengerRow bid a i c pid 0 p =
      { id := pid, booking_id := bid, name := p.name, age := p.age, gender := p.gender,
        seat_number := some (seatLabel c), status := PassengerStatus.confirmed } := by
  simp [passengerRow, h]

theorem passengerRow_zero_ge (bid : Nat) (a : Int) (i c pid : Nat) (p : PassengerInput)
    (h : ¬ (i : Int) < a) :
    passengerRow bid a i c pid 0 p =
      { id := pid, booking_id := bid, name := p.name, age := p.age, gender := p.gender,
        seat_number := none, status := PassengerStatus.waiting } := by
  simp [passengerRow, h]

/-- The loop when no insert fails: one row per passenger, in input order, and
one consecutive label per seated passenger. -/
theorem addPassengers_ok (failAt : Option Nat) (bid : Nat) (a : Int) (ps : List PassengerInput) :
    ∀ (i c : Nat) (acc : List String) (s : Store),
      (∀ m, m < ps.length → failAt ≠ some (3 + (i + m))) →
      addPassengers failAt bid a ps i c acc s =
        ({ s with
            passengers := s.passengers ++
              ps.mapIdx (fun m p => passengerRow bid a i c s.nextPassengerId m p),
            nextPassengerId := s.nextPassengerId + ps.length },
          some (acc ++ seatRange c (min (i + ps.length) a.toNat - i))) := by
  induction ps with
  | nil =>
    intro i c acc s _
    simp [addPassengers, seatRange]
  | cons p rest ih =>
    intro i c acc s hf
    have hf0 : failAt ≠ some (3 + i) := by
      have := hf 0 (by simp)
      simpa using this
    have hf1 : ∀ m, m < rest.length → failAt ≠ some (3 + (i + 1 + m)) := by
      intro m hm
      have := hf (m + 1) (by simp; omega)
      have e : i + (m + 1) = i + 1 + m := by omega
      rwa [e] at this
    unfold addPassengers
    by_cases hlt : (i : Int) < a
    · have hk : min (i + (p :: rest).length) a.toNat - i
          = (min (i + 1 + rest.length) a.toNat - (i + 1)) + 1 := by
        simp only [List.length_cons]; omega
      simp only [hlt, if_true, hf0, if_false]
      rw [ih _ _ _ _ hf1, hk]
      simp only [Store.insertPassenger, List.mapIdx_cons, seatRange, List.range'_succ,
        List.map_cons, List.append_assoc, List.singleton_append, List.length_cons,
        passengerRow_succ_lt bid a i c _, passengerRow_zero_lt bid a i c _ p hlt]
      refine Prod.ext ?_ rfl
      simp only [Store.mk.injEq, true_and]
      omega
    · have hk : min (i + (p :: rest).length) a.toNat - i = 0 := by
        simp only [List.length_cons]; omega
      have hk2 : min (i + 1 + rest.length) a.toNat - (i + 1) = 0 := by omega
      simp only [hlt, if_false, hf0]
      rw [ih _ _ _ _ hf1, hk, hk2]
      simp only [Store.insertPassenger, List.mapIdx_cons, seatRange, List.range'_zero,
        List.map_nil, List.append_nil, List.append_assoc, List.singleton_append,
        List.length_cons, passengerRow_succ_ge bid a i c _ hlt,
        passengerRow_zero_ge bid a i c _ p hlt]
      refine Prod.ext ?_ rfl
      simp only [Store.mk.injEq, true_and]
      omega

/-- The loop when insert number `m` fails: the rows of the passengers before
position `m` were written and stay. -/
theorem addPassengers_fail (failAt : Option Nat) (bid : Nat) (a : Int) (ps : List PassengerInput) :
    ∀ (m i c : Nat) (acc : List String) (s : Store),
      m < ps.length → failAt = some (3 + (i + m)) →
      addPassengers failAt bid a ps i c acc s =
        ({ s with
            passengers := s.passengers ++
              (ps.take m).mapIdx (fun j p => passengerRow bid a i c s.nextPassengerId j p),
            nextPassengerId := s.nextPassengerId + m },
          none) := by
  induction ps with
  | nil => intro m i c acc s hm; simp at hm
  | cons p rest ih =>
    intro m i c acc s hm hf
    unfold addPassengers
    cases m with
    | zero =>
      simp only [Nat.add_zero] at hf
      simp [hf]
    | succ m =>
      have hf0 : failAt ≠ some (3 + i) := by
        rw [hf]; simp
      have hf1 : failAt = some (3 + (i + 1 + m)) := by
        rw [hf]; congr 2; omega
      have hm1 : m < rest.length := by simpa using hm
      by_cases hlt : (i : Int) < a
      · simp only [hlt, if_true, hf0, if_false]
        rw [ih m _ _ _ _ hm1 hf1]
        simp only [Store.insertPassenger, List.take_succ_cons, List.mapIdx_cons,
          List.append_assoc, List.singleton_append,
          passengerRow_succ_lt bid a i c _, passengerRow_zero_lt bid a i c _ p hlt]
        refine Prod.ext ?_ rfl
        simp only [Store.mk.injEq, true_and]
        omega
      · simp only [hlt, if_false, hf0]
        rw [ih m _ _ _ _ hm1 hf1]
        simp only [Store.insertPassenger, List.take_succ_cons, List.mapIdx_cons,
          List.append_assoc, List.singleton_append,
          passengerRow_succ_ge bid a i c _ hlt, passengerRow_zero_ge bid a i c _ p hlt]
        refine Prod.ext ?_ rfl
        simp only [Store.mk.injEq, true_and]
        omega

/-! ## Closed forms of `POST /bookings` -/

/-- No storage failure: all writes are done and the response is 201. -/
theorem bookOnTrain_ok (s : Store) (env : Env) (userId trainId : Nat) (date : String)
    (ps : List PassengerInput) (train : Train)
    (hf : ∀ k, 1 ≤ k → k ≤ 3 + ps.length → env.failAt ≠ some k) :
    bookOnTrain s env userId trainId date ps train =
      ((partialStore s env userId trainId date ps train ps.length).updateSeatNumbers
          s.nextBookingId (issuedSeats s train trainId date ps.length),
        Response.success 201 (bookingResult s env trainId date ps train)) := by
  have h1 := hf 1 (by omega) (by omega)
  have h2 := hf 2 (by omega) (by omega)
  have h3 := hf (3 + ps.length) (by omega) (by omega)
  have hl : ∀ m, m < ps.length → env.failAt ≠ some (3 + (0 + m)) := by
    intro m hm
    exact hf _ (by omega) (by omega)
  unfold bookOnTrain
  simp only [h1, h2, h3, if_false]
  rw [addPassengers_ok _ _ _ _ _ _ _ _ hl]
  simp [Store.insertBooking, partialStore, bookingRow, bookingResult, issuedSeats,
    Store.seatsLeft, seatRange]

/-- A failure of the capacity read or of the booking insert: nothing was written. -/
theorem bookOnTrain_fail_early (s : Store) (env : Env) (userId trainId : Nat) (date : String)
    (ps : List PassengerInput) (train : Train)
    (hf : env.failAt = some 1 ∨ env.failAt = some 2) :
    bookOnTrain s env userId trainId date ps train
      = (s, Response.failure 500 "Booking failed") := by
  unfold bookOnTrain
  rcases hf with hf | hf <;> simp [hf]

/-- A failure of passenger insert `m`: the booking row and `m` passenger rows stay. -/
theorem bookOnTrain_fail_passenger (s : Store) (env : Env) (userId trainId : Nat)
    (date : String) (ps : List PassengerInput) (train : Train) (m : Nat)
    (hm : m < ps.length) (hf : env.failAt = some (3 + m)) :
    bookOnTrain s env userId trainId date ps train
      = (partialStore s env userId trainId date ps train m,
          Response.failure 500 "Booking failed") := by
  have hf' : env.failAt = some (3 + (0 + m)) := by rw [hf, Nat.zero_add]
  have h1 : env.failAt ≠ some 1 := by rw [hf]; simp; omega
  have h2 : env.failAt ≠ some 2 := by rw [hf]; simp; omega
  unfold bookOnTrain
  simp only [h1, h2, if_false]
  rw [addPassengers_fail _ _ _ _ m 0 _ _ _ hm hf']
  simp [Store.insertBooking, partialStore, bookingRow, Store.seatsLeft]

/-- A failure of the seat-number update: the booking row (without seat list) and all
passenger rows stay. -/
theorem bookOnTrain_fail_update (s : Store) (env : Env) (userId trainId : Nat)
    (date : String) (ps : List PassengerInput) (train : Train)
    (hf : env.failAt = some (3 + ps.length)) :
    bookOnTrain s env userId trainId date ps train
      = (partialStore s env userId trainId date ps train ps.length,
          Response.failure 500 "Booking failed") := by
  have hl : ∀ m, m < ps.length → env.failAt ≠ some (3 + (0 + m)) := by
    intro m hm
    rw [hf]; simp; omega
  have h1 : env.failAt ≠ some 1 := by rw [hf]; simp; omega
  have h2 : env.failAt ≠ some 2 := by rw [hf]; simp; omega
  unfold bookOnTrain
  simp only [h1, h2, if_false]
  rw [addPassengers_ok _ _ _ _ _ _ _ _ hl]
  simp [hf, Store.insertBooking, partialStore, bookingRow, Store.seatsLeft]

/-- A request that passes validation and names an existing train reaches the
booking code. -/
theorem createBooking_valid (s : Store) (env : Env) (userId trainId : Nat) (date : String)
    (ps : List PassengerInput) (train : Train)
    (htid : trainId ≠ 0) (hdate : date ≠ "") (hps : ps ≠ [])
    (h0 : env.failAt ≠ some 0) (htrain : (s.selectTrain trainId).head? = some train) :
    createBooking s env userId (validRequest trainId date ps)
      = bookOnTrain s env userId trainId date ps train := by
  have hlen : ps.length ≠ 0 := by
    intro h; exact hps (List.length_eq_zero.mp h)
  unfold createBooking validRequest
  simp only [htid, hdate, hlen, or_self, if_false, h0]
  cases hsel : s.selectTrain trainId with
  | nil => rw [hsel] at htrain; simp at htrain
  | cons t rest =>
    rw [hsel] at htrain
    simp only [List.head?_cons, Option.some.injEq] at htrain
    rw [htrain]

/-- The 201 response and the store it comes with. -/
theorem createBooking_ok (s : Store) (env : Env) (userId trainId : Nat) (date : String)
    (ps : List PassengerInput) (train : Train)
    (htid : trainId ≠ 0) (hdate : date ≠ "") (hps : ps ≠ [])
    (htrain : (s.selectTrain trainId).head? = some train)
    (hf : ∀ k, k ≤ 3 + ps.length → env.failAt ≠ some k) :
    createBooking s env userId (validRequest trainId date ps) =
      ((partialStore s env userId trainId date ps train ps.length).updateSeatNumbers
          s.nextBookingId (issuedSeats s train trainId date ps.length),
        Response.success 201 (bookingResult s env trainId date ps train)) := by
  rw [createBooking_valid s env userId trainId date ps train htid hdate hps
    (hf 0 (by omega)) htrain]
  exact bookOnTrain_ok s env userId trainId date ps train (fun k _ hk => hf k hk)

/-- Every response of `bookOnTrain` other than the 201 one is a 500. -/
theorem bookOnTrain_success_inv (s s' : Store) (env : Env) (userId trainId : Nat)
    (date : String) (ps : List PassengerInput) (train : Train) (code : Nat)
    (res : BookingResult)
    (h : bookOnTrain s env userId trainId date ps train = (s', Response.success code res)) :
    ∀ k, 1 ≤ k → k ≤ 3 + ps.length → env.failAt ≠ some k := by
  intro k hk1 hk2 hfk
  by_cases e12 : k = 1 ∨ k = 2
  · have : env.failAt = some 1 ∨ env.failAt = some 2 := by
      rcases e12 with e | e
      · left; rw [hfk, e]
      · right; rw [hfk, e]
    rw [bookOnTrain_fail_early s env userId trainId date ps train this] at h
    simp at h
  · by_cases e3 : k = 3 + ps.length
    · rw [bookOnTrain_fail_update s env userId trainId date ps train (by rw [hfk, e3])] at h
      simp at h
    · have hm : k - 3 < ps.length := by omega
      have hfm : env.failAt = some (3 + (k - 3)) := by
        rw [hfk]; congr 1; omega
      rw [bookOnTrain_fail_passenger s env userId trainId date ps train (k - 3) hm hfm] at h
      simp at h

/-- A 201 response only comes from a valid request for an existing train, with
no storage failure on the way. -/
theorem createBooking_success_inv (s s' : Store) (env : Env) (userId : Nat)
    (req : BookingRequest) (code : Nat) (res : BookingResult)
    (h : createBooking s env userId req = (s', Response.success code res)) :
    ∃ trainId date ps train,
      req = validRequest trainId date ps ∧ trainId ≠ 0 ∧ date ≠ "" ∧ ps ≠ [] ∧
      (s.selectTrain trainId).head? = some train ∧
      (∀ k, k ≤ 3 + ps.length → env.failAt ≠ some k) := by
  obtain ⟨tid, jd, pf⟩ := req
  cases tid with
  | none => simp [createBooking] at h
  | some trainId =>
    cases jd with
    | none => simp [createBooking] at h
    | some date =>
      cases pf with
      | falsy => simp [createBooking] at h
      | nonArray => simp [createBooking] at h
      | array ps =>
        unfold createBooking at h
        simp only at h
        by_cases hv : trainId = 0 ∨ date = "" ∨ ps.length = 0
        · rw [if_pos hv] at h
          simp at h
        · rw [if_neg hv] at h
          by_cases h0 : env.failAt = some 0
          · simp [h0] at h
          · simp only [h0, if_false] at h
            cases hsel : s.selectTrain trainId with
            | nil => simp [hsel] at h
            | cons train rest =>
              simp only [hsel] at h
              have hinv := bookOnTrain_success_inv s s' env userId trainId date ps train
                code res h
              refine ⟨trainId, date, ps, train, rfl, ?_, ?_, ?_, by rw [hsel]; rfl, ?_⟩
              · intro e; exact hv (Or.inl e)
              · intro e; exact hv (Or.inr (Or.inl e))
              · intro e; exact hv (Or.inr (Or.inr (by simp [e])))
              · intro k hk
                by_cases hk0 : k = 0
                · rw [hk0]; exact h0
                · exact hinv k (by omega) hk

/-! ## Facts about the closed forms -/

theorem bookedSeats_eq_sum (s : Store) (trainId : Nat) (date : String) :
    s.bookedSeats trainId date
      = ((s.confirmedRows trainId date).map (fun b => b.total_passengers)).sum := by
  unfold Store.bookedSeats Store.sumConfirmed
  cases h : s.confirmedRows trainId date with
  | nil => simp
  | cons b rest => simp

theorem seatRange_length (c k : Nat) : (seatRange c k).length = k := by
  simp [seatRange]

theorem seatRange_getElem? (c k j : Nat) :
    (seatRange c k)[j]? = if j < k then some (seatLabel (c + j)) else none := by
  unfold seatRange
  by_cases h : j < k
  · simp [h, List.getElem?_range' _ _ h]
  · simp only [h, if_false]
    apply List.getElem?_eq_none
    simp; omega

theorem seatRange_nodup (c k : Nat) : (seatRange c k).Nodup :=
  (List.nodup_range' c k).map seatLabel_injective

theorem seatRange_eq_map_range (c k : Nat) :
    seatRange c k = (List.range k).map (fun j => "S" ++ toString (c + j)) := by
  simp [seatRange, List.range'_eq_map_range, seatLabel, Function.comp_def]

theorem mem_seatRange (c k : Nat) (x : String) :
    x ∈ seatRange c k ↔ ∃ j, c ≤ j ∧ j < c + k ∧ x = seatLabel j := by
  simp only [seatRange, List.mem_map, List.mem_range'_1]
  constructor
  · rintro ⟨j, ⟨h1, h2⟩, rfl⟩; exact ⟨j, h1, h2, rfl⟩
  · rintro ⟨j, h1, h2, rfl⟩; exact ⟨j, ⟨h1, h2⟩, rfl⟩

theorem newRows_length (s : Store) (train : Train) (trainId : Nat) (date : String)
    (ps : List PassengerInput) : (newRows s train trainId date ps).length = ps.length := by
  simp [newRows]

theorem newRows_getElem? (s : Store) (train : Train) (trainId : Nat) (date : String)
    (ps : List PassengerInput) (j : Nat) :
    (newRows s train trainId date ps)[j]? =
      ps[j]?.map (fun p =>
        passengerRow s.nextBookingId (s.seatsLeft train trainId date) 0
          (s.seatStart trainId date) s.nextPassengerId j p) := by
  simp [newRows, List.getElem?_mapIdx]

theorem partialStore_full_passengers (s : Store) (env : Env) (userId trainId : Nat)
    (date : String) (ps : List PassengerInput) (train : Train) :
    (partialStore s env userId trainId date ps train ps.length).passengers
      = s.passengers ++ newRows s train trainId date ps := by
  simp [partialStore, newRows]

theorem updateSeatNumbers_partialStore_bookings (s : Store) (env : Env) (userId trainId : Nat)
    (date : String) (ps : List PassengerInput) (train : Train) (m : Nat) (seats : List String) :
    ((partialStore s env userId trainId date ps train m).updateSeatNumbers
        s.nextBookingId seats).bookings
      = s.bookings.map (setSeats s.nextBookingId seats) ++
          [{ bookingRow s env userId trainId date ps train with seat_numbers := some seats }] := by
  simp [partialStore, Store.updateSeatNumbers, bookingRow, setSeats]

/-- Summary of a successful call: the response and the three tables afterwards. -/
theorem createBooking_spec (s : Store) (env : Env) (userId trainId : Nat) (date : String)
    (ps : List PassengerInput) (train : Train)
    (htid : trainId ≠ 0) (hdate : date ≠ "") (hps : ps ≠ [])
    (htrain : (s.selectTrain trainId).head? = some train)
    (hf : ∀ k, k ≤ 3 + ps.length → env.failAt ≠ some k) :
    (createBooking s env userId (validRequest trainId date ps)).2
        = Response.success 201 (bookingResult s env trainId date ps train) ∧
    (createBooking s env userId (validRequest trainId date ps)).1.trains = s.trains ∧
    (createBooking s env userId (validRequest trainId date ps)).1.bookings
        = s.bookings.map
            (setSeats s.nextBookingId (issuedSeats s train trainId date ps.length)) ++
          [{ bookingRow s env userId trainId date ps train with
              seat_numbers := some (issuedSeats s train trainId date ps.length) }] ∧
    (createBooking s env userId (validRequest trainId date ps)).1.passengers
        = s.passengers ++ newRows s train trainId date ps := by
  rw [createBooking_ok s env userId trainId date ps train htid hdate hps htrain hf]
  refine ⟨rfl, rfl, ?_, ?_⟩
  · exact updateSeatNumbers_partialStore_bookings s env userId trainId date ps train _ _
  · exact partialStore_full_passengers s env userId trainId date ps train

theorem failAt_none_ne (env : Env) (h : env.failAt = none) (n : Nat) :
    ∀ k, k ≤ n → env.failAt ≠ some k := by
  intro k _; rw [h]; simp

theorem newRows_row (s : Store) (train : Train) (trainId : Nat) (date : String)
    (ps : List PassengerInput) (j : Nat) (p : Passenger)
    (h : (newRows s train trainId date ps)[j]? = some p) :
    ∃ q, ps[j]? = some q ∧ j < ps.length ∧
      p.id = s.nextPassengerId + j ∧ p.booking_id = s.nextBookingId ∧
      p.name = q.name ∧ p.age = q.age ∧ p.gender = q.gender ∧
      p.seat_number =
        (if (j : Int) < s.seatsLeft train trainId date
          then some (seatLabel (s.seatStart trainId date + j)) else none) ∧
      p.status =
        (if (j : Int) < s.seatsLeft train trainId date
          then PassengerStatus.confirmed else PassengerStatus.waiting) := by
  rw [newRows_getElem?] at h
  cases hq : ps[j]? with
  | none => rw [hq] at h; simp at h
  | some q =>
    rw [hq] at h
    simp only [Option.map_some', Option.some.injEq] at h
    have hj : j < ps.length := by
      by_contra hn
      rw [List.getElem?_eq_none (by omega)] at hq
      simp at hq
    refine ⟨q, rfl, hj, ?_⟩
    subst h
    simp [passengerRow]

theorem issuedSeats_getElem? (s : Store) (train : Train) (trainId : Nat) (date : String)
    (n j : Nat) :
    (issuedSeats s train trainId date n)[j]? =
      if j < n ∧ (j : Int) < s.seatsLeft train trainId date
        then some (seatLabel (s.seatStart trainId date + j)) else none := by
  unfold issuedSeats
  rw [seatRange_getElem?]
  by_cases h : j < min n (s.seatsLeft train trainId date).toNat
  · have h' : j < n ∧ (j : Int) < s.seatsLeft train trainId date := by omega
    simp [h, h']
  · have h' : ¬ (j < n ∧ (j : Int) < s.seatsLeft train trainId date) := by omega
    simp [h, h']

theorem issuedSeats_length (s : Store) (train : Train) (trainId : Nat) (date : String)
    (n : Nat) :
    (issuedSeats s train trainId date n).length
      = min n (s.seatsLeft train trainId date).toNat := by
  simp [issuedSeats, seatRange_length]

theorem seatsLeft_eq (s : Store) (train : Train) (trainId : Nat) (date : String) :
    s.seatsLeft train trainId date = (train.total_seats : Int)
      - (((s.confirmedRows trainId date).map (fun b => b.total_passengers)).sum : Nat) := by
  rw [Store.seatsLeft, bookedSeats_eq_sum]

/-- Summary of a call that answered with a success response. -/
theorem createBooking_success_spec (s s' : Store) (env : Env) (userId : Nat)
    (req : BookingRequest) (code : Nat) (res : BookingResult)
    (trainId : Nat) (date : String) (ps : List PassengerInput) (train : Train)
    (hsucc : createBooking s env userId req = (s', Response.success code res))
    (hreq : req = validRequest trainId date ps)
    (htrain : (s.selectTrain trainId).head? = some train) :
    trainId ≠ 0 ∧ date ≠ "" ∧ ps ≠ [] ∧ code = 201 ∧
    res = bookingResult s env trainId date ps train ∧
    s'.trains = s.trains ∧
    s'.bookings
        = s.bookings.map
            (setSeats s.nextBookingId (issuedSeats s train trainId date ps.length)) ++
          [{ bookingRow s env userId trainId date ps train with
              seat_numbers := some (issuedSeats s train trainId date ps.length) }] ∧
    s'.passengers = s.passengers ++ newRows s train trainId date ps := by
  obtain ⟨tid', date', ps', train', hreq', htid, hdate, hps, htrain', hf⟩ :=
    createBooking_success_inv s s' env userId req code res hsucc
  rw [hreq] at hreq'
  simp only [validRequest, BookingRequest.mk.injEq, Option.some.injEq,
    PassengersField.array.injEq] at hreq'
  obtain ⟨e1, e2, e3⟩ := hreq'
  subst e1 e2 e3
  rw [htrain] at htrain'
  simp only [Option.some.injEq] at htrain'
  subst htrain'
  rw [hreq] at hsucc
  obtain ⟨h2, ht, hb, hp⟩ := createBooking_spec s env userId trainId date ps train htid hdate hps
    htrain hf
  rw [hsucc] at h2 ht hb hp
  simp only [Response.success.injEq] at h2
  obtain ⟨hcode, hres⟩ := h2
  subst hres
  exact ⟨htid, hdate, hps, hcode, rfl, ht, hb, hp⟩

/-! ## Claims about `createBooking` -/

/-- C1: the code at the failing input. On a three-seat train, book A (one
passenger), book B (one passenger), cancel A, book C (one passenger), one call
at a time. A reads a `NULL` sum and gets S1; B and C each read the sum `"1"`, so
each starts its counter at `"1" + 1 = "11"`: B and C are then both confirmed for
the same train and date and both hold seat S11, so seat uniqueness fails in a
reachable state. -/
theorem C1_seat_reused_after_cancel :
    (run (emptyStore [train3])
        [Op.create quietEnv 7 (request 1), Op.create quietEnv 8 (request 1), Op.cancel 7 1,
          Op.create quietEnv 9 (request 1)]).bookings.map
        (fun b => (b.id, b.train_id, b.journey_date, b.status, b.seat_numbers))
      = [(1, 1, "2025-01-01", BookingStatus.cancelled, some ["S1"]),
         (2, 1, "2025-01-01", BookingStatus.confirmed, some ["S11"]),
         (3, 1, "2025-01-01", BookingStatus.confirmed, some ["S11"])] ∧
    ¬ SeatsUnique (run (emptyStore [train3])
        [Op.create quietEnv 7 (request 1), Op.create quietEnv 8 (request 1), Op.cancel 7 1,
          Op.create quietEnv 9 (request 1)]) := by
  decide

/-- C2: when the seats left (capacity minus the confirmed sum) cover the whole
request, `createBooking` answers 201 with aggregate status confirmed, the stored
booking row is confirmed, every passenger row is confirmed with a seat number,
and the seat numbers issued are pairwise distinct, one per passenger. -/
theorem C2_enough_seats_all_confirmed (s : Store) (env : Env) (userId trainId : Nat)
    (date : String) (ps : List PassengerInput) (train : Train)
    (htid : trainId ≠ 0) (hdate : date ≠ "") (hps : ps ≠ [])
    (htrain : (s.selectTrain trainId).head? = some train) (hf : env.failAt = none)
    (havail : (ps.length : Int) ≤ (train.total_seats : Int)
      - (((s.confirmedRows trainId date).map (fun b => b.total_passengers)).sum : Nat)) :
    ∃ res row rows,
      (createBooking s env userId (validRequest trainId date ps)).2
        = Response.success 201 res ∧
      res.status = BookingStatus.confirmed ∧
      (createBooking s env userId (validRequest trainId date ps)).1.bookings.getLast?
        = some row ∧
      row.id = res.bookingId ∧ row.status = BookingStatus.confirmed ∧
      row.seat_numbers = some res.seatNumbers ∧
      (createBooking s env userId (validRequest trainId date ps)).1.passengers
        = s.passengers ++ rows ∧
      rows.length = ps.length ∧
      (∀ p ∈ rows, p.booking_id = res.bookingId ∧ p.status = PassengerStatus.confirmed ∧
        p.seat_number ≠ none) ∧
      rows.map (fun p => p.seat_number) = res.seatNumbers.map some ∧
      res.seatNumbers.length = ps.length ∧
      res.seatNumbers.Nodup := by
  rw [← seatsLeft_eq] at havail
  obtain ⟨h2, _, hb, hp⟩ := createBooking_spec s env userId trainId date ps train htid hdate hps
    htrain (failAt_none_ne env hf _)
  have hst : aggregateStatus (s.seatsLeft train trainId date) ps.length
      = BookingStatus.confirmed := by
    simp [aggregateStatus, havail]
  refine ⟨bookingResult s env trainId date ps train,
    { bookingRow s env userId trainId date ps train with
      seat_numbers := some (issuedSeats s train trainId date ps.length) },
    newRows s train trainId date ps, h2, hst, ?_, rfl, ?_, rfl, hp,
    newRows_length _ _ _ _ _, ?_, ?_, ?_, ?_⟩
  · rw [hb]; simp
  · simpa [bookingRow, Store.seatsLeft] using hst
  · intro p hp
    obtain ⟨j, hj⟩ := List.mem_iff_getElem?.mp hp
    obtain ⟨q, _, hjn, _, hbid, _, _, _, hseat, hstat⟩ := newRows_row _ _ _ _ _ _ _ hj
    have hlt : (j : Int) < s.seatsLeft train trainId date := by omega
    rw [if_pos hlt] at hseat hstat
    exact ⟨hbid, hstat, by rw [hseat]; simp⟩
  · apply List.ext_getElem?
    intro j
    simp only [List.getElem?_map, bookingResult, issuedSeats_getElem?]
    cases hj : (newRows s train trainId date ps)[j]? with
    | none =>
      have : ¬ j < ps.length := by
        intro hlt
        rw [List.getElem?_eq_none_iff, newRows_length] at hj
        omega
      simp [this]
    | some p =>
      obtain ⟨q, _, hjn, _, _, _, _, _, hseat, _⟩ := newRows_row _ _ _ _ _ _ _ hj
      have hlt : (j : Int) < s.seatsLeft train trainId date := by omega
      simp [hseat, hlt, hjn]
  · simp only [bookingResult, issuedSeats_length]
    omega
  · exact seatRange_nodup _ _

theorem C2_enough_seats_all_confirmed_witness :
    ∃ res row rows,
      (createBooking (emptyStore [train3]) quietEnv 7
          (validRequest 1 "2025-01-01" [traveller, traveller])).2
        = Response.success 201 res ∧
      res.status = BookingStatus.confirmed ∧
      (createBooking (emptyStore [train3]) quietEnv 7
          (validRequest 1 "2025-01-01" [traveller, traveller])).1.bookings.getLast?
        = some row ∧
      row.id = res.bookingId ∧ row.status = BookingStatus.confirmed ∧
      row.seat_numbers = some res.seatNumbers ∧
      (createBooking (emptyStore [train3]) quietEnv 7
          (validRequest 1 "2025-01-01" [traveller, traveller])).1.passengers
        = (emptyStore [train3]).passengers ++ rows ∧
      rows.length = [traveller, traveller].length ∧
      (∀ p ∈ rows, p.booking_id = res.bookingId ∧ p.status = PassengerStatus.confirmed ∧
        p.seat_number ≠ none) ∧
      rows.map (fun p => p.seat_number) = res.seatNumbers.map some ∧
      res.seatNumbers.length = [traveller, traveller].length ∧
      res.seatNumbers.Nodup :=
  C2_enough_seats_all_confirmed (emptyStore [train3]) quietEnv 7 1 "2025-01-01"
    [traveller, traveller] train3 (by decide) (by decide) (by decide) (by decide) rfl
    (by decide)

/-- C3: when the seats left, clamped at 0, are fewer than the passengers, the
first `availableSeats` passengers in input order are stored confirmed with the
seat numbers issued, every later passenger is stored with seat number null and
status waiting, and the aggregate status stored and returned is waiting. -/
theorem C3_short_of_seats_waitlisted (s : Store) (env : Env) (userId trainId : Nat)
    (date : String) (ps : List PassengerInput) (train : Train)
    (htid : trainId ≠ 0) (hdate : date ≠ "") (hps : ps ≠ [])
    (htrain : (s.selectTrain trainId).head? = some train) (hf : env.failAt = none)
    (hshort : max 0 ((train.total_seats : Int)
      - (((s.confirmedRows trainId date).map (fun b => b.total_passengers)).sum : Nat))
        < (ps.length : Int)) :
    ∃ res row rows,
      (createBooking s env userId (validRequest trainId date ps)).2
        = Response.success 201 res ∧
      res.status = BookingStatus.waiting ∧
      (createBooking s env userId (validRequest trainId date ps)).1.bookings.getLast?
        = some row ∧
      row.id = res.bookingId ∧ row.status = BookingStatus.waiting ∧
      row.seat_numbers = some res.seatNumbers ∧
      (createBooking s env userId (validRequest trainId date ps)).1.passengers
        = s.passengers ++ rows ∧
      rows.length = ps.length ∧
      (res.seatNumbers.length : Int) = max 0 ((train.total_seats : Int)
        - (((s.confirmedRows trainId date).map (fun b => b.total_passengers)).sum : Nat)) ∧
      (∀ j p, rows[j]? = some p →
        p.booking_id = res.bookingId ∧
        (ps[j]?.map fun q => (q.name, q.age, q.gender)) = some (p.name, p.age, p.gender) ∧
        (j < res.seatNumbers.length →
          p.status = PassengerStatus.confirmed ∧ p.seat_number ≠ none ∧
          p.seat_number = res.seatNumbers[j]?) ∧
        (res.seatNumbers.length ≤ j →
          p.status = PassengerStatus.waiting ∧ p.seat_number = none)) := by
  rw [← seatsLeft_eq] at hshort ⊢
  obtain ⟨h2, _, hb, hp⟩ := createBooking_spec s env userId trainId date ps train htid hdate hps
    htrain (failAt_none_ne env hf _)
  have hlt : s.seatsLeft train trainId date < (ps.length : Int) := by omega
  have hst : aggregateStatus (s.seatsLeft train trainId date) ps.length
      = BookingStatus.waiting := by
    simp [aggregateStatus, hlt]
  have hlen : (issuedSeats s train trainId date ps.length).length
      = (s.seatsLeft train trainId date).toNat := by
    rw [issuedSeats_length]; omega
  refine ⟨bookingResult s env trainId date ps train,
    { bookingRow s env userId trainId date ps train with
      seat_numbers := some (issuedSeats s train trainId date ps.length) },
    newRows s train trainId date ps, h2, hst, ?_, rfl, ?_, rfl, hp,
    newRows_length _ _ _ _ _, ?_, ?_⟩
  · rw [hb]; simp
  · simpa [bookingRow, Store.seatsLeft] using hst
  · simp only [bookingResult, hlen]
    omega
  · intro j p hj
    obtain ⟨q, hq, hjn, _, hbid, hn, ha, hg, hseat, hstat⟩ := newRows_row _ _ _ _ _ _ _ hj
    simp only [bookingResult, hlen]
    refine ⟨hbid, ?_, ?_, ?_⟩
    · simp [hq, hn, ha, hg]
    · intro hjl
      have hlt' : (j : Int) < s.seatsLeft train trainId date := by omega
      rw [if_pos hlt'] at hseat hstat
      refine ⟨hstat, by rw [hseat]; simp, ?_⟩
      rw [hseat, issuedSeats_getElem?, if_pos ⟨hjn, hlt'⟩]
    · intro hjl
      have hlt' : ¬ (j : Int) < s.seatsLeft train trainId date := by omega
      rw [if_neg hlt'] at hseat hstat
      exact ⟨hstat, hseat⟩

theorem C3_short_of_seats_waitlisted_witness :
    ∃ res row rows,
      (createBooking (emptyStore [train2]) quietEnv 7
          (validRequest 1 "2025-01-01" [traveller, traveller, traveller])).2
        = Response.success 201 res ∧
      res.status = BookingStatus.waiting ∧
      (createBooking (emptyStore [train2]) quietEnv 7
          (validRequest 1 "2025-01-01" [traveller, traveller, traveller])).1.bookings.getLast?
        = some row ∧
      row.id = res.bookingId ∧ row.status = BookingStatus.waiting ∧
      row.seat_numbers = some res.seatNumbers ∧
      (createBooking (emptyStore [train2]) quietEnv 7
          (validRequest 1 "2025-01-01" [traveller, traveller, traveller])).1.passengers
        = (emptyStore [train2]).passengers ++ rows ∧
      rows.length = [traveller, traveller, traveller].length ∧
      (res.seatNumbers.length : Int) = max 0 ((train2.total_seats : Int)
        - ((((emptyStore [train2]).confirmedRows 1 "2025-01-01").map
            (fun b => b.total_passengers)).sum : Nat)) ∧
      (∀ j p, rows[j]? = some p →
        p.booking_id = res.bookingId ∧
        (([traveller, traveller, traveller] : List PassengerInput)[j]?.map
          fun q => (q.name, q.age, q.gender)) = some (p.name, p.age, p.gender) ∧
        (j < res.seatNumbers.length →
          p.status = PassengerStatus.confirmed ∧ p.seat_number ≠ none ∧
          p.seat_number = res.seatNumbers[j]?) ∧
        (res.seatNumbers.length ≤ j →
          p.status = PassengerStatus.waiting ∧ p.seat_number = none)) :=
  C3_short_of_seats_waitlisted (emptyStore [train2]) quietEnv 7 1 "2025-01-01"
    [traveller, traveller, traveller] train2 (by decide) (by decide) (by decide) (by decide)
    rfl (by decide)

/-- C4: the code at the failing input. One passenger is booked on the three-seat
train (seat S1, so the confirmed sum is `b = 1`); the next request, for two
passengers, is answered the sum as the string `"1"`, starts its counter at
`"1" + 1 = "11"` and is confirmed with the seat list `["S11", "S12"]`, returned,
stored on the booking row and, in input order, on its two passenger rows, where
a counter seeded at `b + 1` gives `["S2", "S3"]`. For every sum `b` that is not
`NULL` the counter starts at `10 * b + 1`. -/
theorem C4_seat_labels_concatenated :
    bookedOnce.sumConfirmed 1 "2025-01-01" = some 1 ∧
    (createBooking bookedOnce quietEnv 8 (request 2)).2.body?.map
        (fun r => (r.status, r.seatNumbers))
      = some (BookingStatus.confirmed, ["S11", "S12"]) ∧
    (createBooking bookedOnce quietEnv 8 (request 2)).1.bookings.map
        (fun b => (b.id, b.status, b.seat_numbers))
      = [(1, BookingStatus.confirmed, some ["S1"]),
         (2, BookingStatus.confirmed, some ["S11", "S12"])] ∧
    (createBooking bookedOnce quietEnv 8 (request 2)).1.passengers.map
        (fun p => (p.booking_id, p.seat_number))
      = [(1, some "S1"), (2, some "S11"), (2, some "S12")] ∧
    (List.range 2).map (fun j => "S" ++ toString (bookedOnce.bookedSeats 1 "2025-01-01" + 1 + j))
      = ["S2", "S3"] ∧
    ∀ b : Nat, seatCounterStart (some b) = 10 * b + 1 := by
  refine ⟨by decide, by decide, by decide, by decide, by decide, seatCounterStart_some⟩

/-- C5 (counterexample): three passengers on the train with fare 0.10. The
amount returned and the amount passed to the booking insert are the double
0.30000000000000004 (`1351079888211149 / 2 ^ 52`), not `3 * 0.10`. -/
theorem C5_amount_not_exact :
    (createBooking (emptyStore [trainTenth]) quietEnv 7 (request 3)).2.body?.map
        (fun r => r.totalAmount)
      = some (mkRat 1351079888211149 4503599627370496) ∧
    (createBooking (emptyStore [trainTenth]) quietEnv 7 (request 3)).1.bookings.map
        (fun b => (b.total_passengers, b.total_amount))
      = [(3, mkRat 1351079888211149 4503599627370496)] ∧
    mkRat 1351079888211149 4503599627370496 ≠ mkRat 3 10 ∧
    (3 : ℚ) * trainTenth.fare = mkRat 3 10 := by
  refine ⟨by decide, by decide, by decide, ?_⟩
  norm_num [trainTenth, Rat.mkRat_eq_div]

/-- C5 (amended): for every successful `createBooking` with `n` passengers on a
train with fare `f`, the amount returned and the amount on the booking row are
one value, the double product of `n` and `f`, whatever the number of seats left;
it is `n * f` when `f` is a whole number and `n * f < 2 ^ 53`. -/
theorem C5_total_amount_double (s s' : Store) (env : Env) (userId : Nat)
    (req : BookingRequest) (code : Nat) (res : BookingResult)
    (trainId : Nat) (date : String) (ps : List PassengerInput) (train : Train)
    (hsucc : createBooking s env userId req = (s', Response.success code res))
    (hreq : req = validRequest trainId date ps)
    (htrain : (s.selectTrain trainId).head? = some train) :
    res.totalAmount = jsProduct ps.length train.fare ∧
    (∃ row, s'.bookings.getLast? = some row ∧ row.id = res.bookingId ∧
      row.total_passengers = ps.length ∧ row.total_amount = res.totalAmount) ∧
    (∀ f : Nat, train.fare = (f : ℚ) → ps.length * f < 2 ^ 53 →
      res.totalAmount = (ps.length : ℚ) * train.fare) := by
  obtain ⟨_, _, _, _, hres, _, hb, _⟩ :=
    createBooking_success_spec s s' env userId req code res trainId date ps train hsucc hreq
      htrain
  subst hres
  refine ⟨rfl, ⟨{ bookingRow s env userId trainId date ps train with
      seat_numbers := some (issuedSeats s train trainId date ps.length) },
      by rw [hb]; simp, rfl, rfl, rfl⟩, ?_⟩
  intro f hfare hlt
  show jsProduct ps.length train.fare = _
  rw [hfare]
  exact jsProduct_nat ps.length f hlt

theorem C5_total_amount_double_witness :
    (bookingResult (emptyStore [train2]) quietEnv 1 "2025-01-01"
        [traveller, traveller, traveller] train2).totalAmount
      = jsProduct [traveller, traveller, traveller].length train2.fare ∧
    (∃ row, (createBooking (emptyStore [train2]) quietEnv 7 (request 3)).1.bookings.getLast?
        = some row ∧
      row.id = (bookingResult (emptyStore [train2]) quietEnv 1 "2025-01-01"
        [traveller, traveller, traveller] train2).bookingId ∧
      row.total_passengers = [traveller, traveller, traveller].length ∧
      row.total_amount = (bookingResult (emptyStore [train2]) quietEnv 1 "2025-01-01"
        [traveller, traveller, traveller] train2).totalAmount) ∧
    (∀ f : Nat, train2.fare = (f : ℚ) → [traveller, traveller, traveller].length * f < 2 ^ 53 →
      (bookingResult (emptyStore [train2]) quietEnv 1 "2025-01-01"
        [traveller, traveller, traveller] train2).totalAmount
        = ([traveller, traveller, traveller].length : ℚ) * train2.fare) :=
  C5_total_amount_double (emptyStore [train2]) (createBooking (emptyStore [train2]) quietEnv 7
      (request 3)).1 quietEnv 7 (request 3) 201
    (bookingResult (emptyStore [train2]) quietEnv 1 "2025-01-01"
      [traveller, traveller, traveller] train2)
    1 "2025-01-01" [traveller, traveller, traveller] train2
    (Prod.ext rfl (createBooking_spec (emptyStore [train2]) quietEnv 7 1 "2025-01-01"
      [traveller, traveller, traveller] train2 (by decide) (by decide) (by decide) (by decide)
      (failAt_none_ne quietEnv rfl _)).1)
    rfl (by decide)

/-- C6: the code at the failing input. On a two-seat train with no booking, a
request for three passengers is stored waiting with seats S1 and S2, and the
next request for one passenger is confirmed with seat S1: the seat list of the
waiting booking meets that of another, confirmed booking of the same train and
date, with no cancellation involved. -/
theorem C6_waiting_booking_seat_reissued :
    (run (emptyStore [train2])
        [Op.create quietEnv 7 (request 3), Op.create quietEnv 8 (request 1)]).bookings.map
        (fun b => (b.id, b.train_id, b.journey_date, b.status, b.seat_numbers))
      = [(1, 1, "2025-01-01", BookingStatus.waiting, some ["S1", "S2"]),
         (2, 1, "2025-01-01", BookingStatus.confirmed, some ["S1"])] ∧
    ([Op.create quietEnv 7 (request 3), Op.create quietEnv 8 (request 1)].all Op.isCreate
      = true) ∧
    ¬ SeatsDisjointFromConfirmed (run (emptyStore [train2])
        [Op.create quietEnv 7 (request 3), Op.create quietEnv 8 (request 1)]) := by
  refine ⟨by decide, by decide, by decide⟩

/-- C7: the code at the failing input. With a confirmed sum of 4 on a three-seat
train, a request for one passenger issues no seat and stores one waiting row,
yet the response reports `confirmedPassengers = -1` and `waitingPassengers = 2`. -/
theorem C7_counts_off_when_overbooked :
    (createBooking overbooked quietEnv 9 (request 1)).2.body?.map
        (fun r => (r.status, r.confirmedPassengers, r.waitingPassengers, r.seatNumbers))
      = some (BookingStatus.waiting, -1, 2, []) ∧
    ((createBooking overbooked quietEnv 9 (request 1)).1.passengers.drop
        overbooked.passengers.length).map (fun p => (p.booking_id, p.seat_number, p.status))
      = [(3, none, PassengerStatus.waiting)] := by
  decide

/-- C8 (counterexample): when the insert of the second passenger fails, the
caller gets the 500 response but the booking row and the first passenger row of
the failed request are in the store. -/
theorem C8_partial_writes_remain :
    (createBooking (emptyStore [train3]) (faultyEnv 4) 7 (request 2)).2
      = Response.failure 500 "Booking failed" ∧
    (createBooking (emptyStore [train3]) (faultyEnv 4) 7 (request 2)).1
      ≠ emptyStore [train3] ∧
    (createBooking (emptyStore [train3]) (faultyEnv 4) 7 (request 2)).1.bookings.map
        (fun b => (b.id, b.status, b.seat_numbers))
      = [(1, BookingStatus.confirmed, none)] ∧
    (createBooking (emptyStore [train3]) (faultyEnv 4) 7 (request 2)).1.passengers.map
        (fun p => (p.booking_id, p.seat_number))
      = [(1, some "S1")] := by
  decide

/-- C8 (amended): a failed write gives the single 500 response and undoes
nothing. If the booking insert fails (`k = 0`), the store is the one before the
call. If the insert of passenger `k - 1` fails (`1 ≤ k ≤ n`), or the seat-number
update fails (`k = n + 1`), the booking row, with its seat list still null, and
the rows of the first `k - 1` passengers remain in the store. -/
theorem C8_failed_write_keeps_earlier_writes (s : Store) (env : Env) (userId trainId : Nat)
    (date : String) (ps : List PassengerInput) (train : Train) (k : Nat)
    (htid : trainId ≠ 0) (hdate : date ≠ "") (hps : ps ≠ [])
    (htrain : (s.selectTrain trainId).head? = some train)
    (hk : k ≤ ps.length + 1) (hf : env.failAt = some (2 + k)) :
    (createBooking s env userId (validRequest trainId date ps)).2
      = Response.failure 500 "Booking failed" ∧
    (k = 0 → (createBooking s env userId (validRequest trainId date ps)).1 = s) ∧
    (1 ≤ k →
      (createBooking s env userId (validRequest trainId date ps)).1.trains = s.trains ∧
      (createBooking s env userId (validRequest trainId date ps)).1.bookings
        = s.bookings ++ [bookingRow s env userId trainId date ps train] ∧
      (bookingRow s env userId trainId date ps train).seat_numbers = none ∧
      (createBooking s env userId (validRequest trainId date ps)).1.passengers
        = s.passengers ++ newRows s train trainId date (ps.take (k - 1))) := by
  have h0 : env.failAt ≠ some 0 := by rw [hf]; simp
  rw [createBooking_valid s env userId trainId date ps train htid hdate hps h0 htrain]
  rcases Nat.eq_zero_or_pos k with hk0 | hkpos
  · subst hk0
    rw [bookOnTrain_fail_early s env userId trainId date ps train (Or.inr hf)]
    exact ⟨rfl, fun _ => rfl, fun h => absurd h (by omega)⟩
  · by_cases hlast : k = ps.length + 1
    · have hf' : env.failAt = some (3 + ps.length) := by
        rw [hf, hlast]; congr 1; omega
      rw [bookOnTrain_fail_update s env userId trainId date ps train hf']
      refine ⟨rfl, fun h => absurd h (by omega), fun _ => ⟨rfl, rfl, rfl, ?_⟩⟩
      have e : k - 1 = ps.length := by omega
      rw [e]
      simp [partialStore, newRows]
    · have hm : k - 1 < ps.length := by omega
      have hf' : env.failAt = some (3 + (k - 1)) := by
        rw [hf]; congr 1; omega
      rw [bookOnTrain_fail_passenger s env userId trainId date ps train (k - 1) hm hf']
      refine ⟨rfl, fun h => absurd h (by omega), fun _ => ⟨rfl, rfl, rfl, ?_⟩⟩
      simp [partialStore, newRows]

theorem C8_failed_write_keeps_earlier_writes_witness :
    (createBooking (emptyStore [train3]) (faultyEnv 4) 7
        (validRequest 1 "2025-01-01" [traveller, traveller])).2
      = Response.failure 500 "Booking failed" ∧
    (2 = 0 → (createBooking (emptyStore [train3]) (faultyEnv 4) 7
        (validRequest 1 "2025-01-01" [traveller, traveller])).1 = emptyStore [train3]) ∧
    (1 ≤ 2 →
      (createBooking (emptyStore [train3]) (faultyEnv 4) 7
        (validRequest 1 "2025-01-01" [traveller, traveller])).1.trains
        = (emptyStore [train3]).trains ∧
      (createBooking (emptyStore [train3]) (faultyEnv 4) 7
        (validRequest 1 "2025-01-01" [traveller, traveller])).1.bookings
        = (emptyStore [train3]).bookings ++
          [bookingRow (emptyStore [train3]) (faultyEnv 4) 7 1 "2025-01-01"
            [traveller, traveller] train3] ∧
      (bookingRow (emptyStore [train3]) (faultyEnv 4) 7 1 "2025-01-01"
        [traveller, traveller] train3).seat_numbers = none ∧
      (createBooking (emptyStore [train3]) (faultyEnv 4) 7
        (validRequest 1 "2025-01-01" [traveller, traveller])).1.passengers
        = (emptyStore [train3]).passengers ++
          newRows (emptyStore [train3]) train3 1 "2025-01-01"
            ([traveller, traveller].take (2 - 1))) :=
  C8_failed_write_keeps_earlier_writes (emptyStore [train3]) (faultyEnv 4) 7 1 "2025-01-01"
    [traveller, traveller] train3 2 (by decide) (by decide) (by decide) (by decide)
    (by decide) rfl

/-! ## Claims about the availability query -/

/-- C9: for an existing train and a date, the availability query answers 200
with `availableSeats = max(0, total_seats - C)` and `totalSeats = total_seats`,
where `C` is the sum of `total_passengers` over the bookings with that train id,
that journey date and status confirmed (0 when there is none); so
`0 ≤ availableSeats ≤ total_seats`. -/
theorem C9_availability_value (s : Store) (trainId : Nat) (date : String) (train : Train)
    (hdate : date ≠ "") (htrain : (s.selectTrain trainId).head? = some train) :
    availability s none trainId (some date) =
      Response.success 200
        { train := train,
          availableSeats := max 0 ((train.total_seats : Int)
            - (((s.bookings.filter (fun b =>
                  decide (b.train_id = trainId) && decide (b.journey_date = date)
                    && decide (b.status = BookingStatus.confirmed))).map
                (fun b => b.total_passengers)).sum : Nat)),
          totalSeats := train.total_seats } ∧
    (0 : Int) ≤ max 0 ((train.total_seats : Int)
            - (((s.bookings.filter (fun b =>
                  decide (b.train_id = trainId) && decide (b.journey_date = date)
                    && decide (b.status = BookingStatus.confirmed))).map
                (fun b => b.total_passengers)).sum : Nat)) ∧
    max 0 ((train.total_seats : Int)
            - (((s.bookings.filter (fun b =>
                  decide (b.train_id = trainId) && decide (b.journey_date = date)
                    && decide (b.status = BookingStatus.confirmed))).map
                (fun b => b.total_passengers)).sum : Nat)) ≤ (train.total_seats : Int) := by
  refine ⟨?_, by omega, by omega⟩
  unfold availability
  simp only [hdate, if_false, reduceCtorEq]
  cases hsel : s.selectTrain trainId with
  | nil => rw [hsel] at htrain; simp at htrain
  | cons t rest =>
    rw [hsel] at htrain
    simp only [List.head?_cons, Option.some.injEq] at htrain
    subst htrain
    simp only [bookedSeats_eq_sum, Store.confirmedRows]

theorem C9_availability_value_witness :
    availability overbooked none 1 (some "2025-01-01") =
      Response.success 200
        { train := train3,
          availableSeats := max 0 ((train3.total_seats : Int)
            - (((overbooked.bookings.filter (fun b =>
                  decide (b.train_id = 1) && decide (b.journey_date = "2025-01-01")
                    && decide (b.status = BookingStatus.confirmed))).map
                (fun b => b.total_passengers)).sum : Nat)),
          totalSeats := train3.total_seats } ∧
    (0 : Int) ≤ max 0 ((train3.total_seats : Int)
            - (((overbooked.bookings.filter (fun b =>
                  decide (b.train_id = 1) && decide (b.journey_date = "2025-01-01")
                    && decide (b.status = BookingStatus.confirmed))).map
                (fun b => b.total_passengers)).sum : Nat)) ∧
    max 0 ((train3.total_seats : Int)
            - (((overbooked.bookings.filter (fun b =>
                  decide (b.train_id = 1) && decide (b.journey_date = "2025-01-01")
                    && decide (b.status = BookingStatus.confirmed))).map
                (fun b => b.total_passengers)).sum : Nat)) ≤ (train3.total_seats : Int) :=
  C9_availability_value overbooked 1 "2025-01-01" train3 (by decide) (by decide)

/-! ## Cancellation and the confirmed sum -/

theorem bookedSeats_eq_contributions (s : Store) (trainId : Nat) (date : String) :
    s.bookedSeats trainId date = (s.bookings.map (contribution trainId date)).sum := by
  rw [bookedSeats_eq_sum, Store.confirmedRows]
  induction s.bookings with
  | nil => rfl
  | cons b rest ih =>
    rw [List.filter_cons]
    by_cases h : b.train_id = trainId ∧ b.journey_date = date ∧
        b.status = BookingStatus.confirmed
    · have hb : (decide (b.train_id = trainId) && decide (b.journey_date = date)
          && decide (b.status = BookingStatus.confirmed)) = true := by
        simp [h.1, h.2.1, h.2.2]
      rw [if_pos hb]
      simp only [List.map_cons, List.sum_cons, ih, contribution, h, and_self, if_true]
    · have hb : ¬ (decide (b.train_id = trainId) && decide (b.journey_date = date)
          && decide (b.status = BookingStatus.confirmed)) = true := by
        simp only [Bool.and_eq_true, decide_eq_true_eq, and_assoc]
        exact h
      rw [if_neg hb]
      simp only [List.map_cons, List.sum_cons, ih, contribution, h, if_false, Nat.zero_add]

theorem setCancelled_bookings (s : Store) (bookingId : Nat) :
    (s.setCancelled bookingId).bookings = s.bookings.map (cancelRow bookingId) := rfl

theorem contribution_cancelRow (trainId : Nat) (date : String) (bookingId : Nat) (b : Booking) :
    contribution trainId date (cancelRow bookingId b)
      = if b.id = bookingId then 0 else contribution trainId date b := by
  by_cases h : b.id = bookingId <;> simp [cancelRow, contribution, h]

theorem map_cancelRow_of_absent (bookingId : Nat) (l : List Booking)
    (h : ∀ b ∈ l, b.id ≠ bookingId) : l.map (cancelRow bookingId) = l := by
  induction l with
  | nil => rfl
  | cons b rest ih =>
    have hb : b.id ≠ bookingId := h b (List.mem_cons_self _ _)
    have hrest : ∀ x ∈ rest, x.id ≠ bookingId := fun x hx => h x (List.mem_cons_of_mem _ hx)
    simp [cancelRow, hb, ih hrest]

/-- With unique ids, cancelling removes from every confirmed sum exactly the
contribution of the row cancelled. -/
theorem sum_contribution_cancel (trainId : Nat) (date : String) (b0 : Booking) :
    ∀ l : List Booking, (l.map (fun b => b.id)).Nodup → b0 ∈ l →
      ((l.map (cancelRow b0.id)).map (contribution trainId date)).sum
          + contribution trainId date b0
        = (l.map (contribution trainId date)).sum := by
  intro l
  induction l with
  | nil => intro _ h; simp at h
  | cons x rest ih =>
    intro hnd hmem
    simp only [List.map_cons, List.nodup_cons, List.mem_map, not_exists, not_and] at hnd
    obtain ⟨hx, hrest⟩ := hnd
    rcases List.mem_cons.mp hmem with h | h
    · subst h
      have habs : ∀ b ∈ rest, b.id ≠ b0.id := fun b hb e => hx b hb e
      simp only [List.map_cons, List.sum_cons, map_cancelRow_of_absent _ _ habs,
        contribution_cancelRow, if_true]
      omega
    · have hne : x.id ≠ b0.id := fun e => hx b0 h e.symm
      have := ih hrest h
      simp only [List.map_cons, List.sum_cons, contribution_cancelRow, hne, if_false]
      omega

theorem bookedSeats_setCancelled (s : Store) (trainId : Nat) (date : String) (b0 : Booking)
    (hids : (s.bookings.map (fun b => b.id)).Nodup) (hb : b0 ∈ s.bookings) :
    (s.setCancelled b0.id).bookedSeats trainId date + contribution trainId date b0
      = s.bookedSeats trainId date := by
  rw [bookedSeats_eq_contributions, bookedSeats_eq_contributions, setCancelled_bookings]
  exact sum_contribution_cancel trainId date b0 s.bookings hids hb

theorem cancel_owned (s : Store) (userId : Nat) (b0 : Booking)
    (hb : b0 ∈ s.bookings) (hown : b0.user_id = userId) :
    cancel s none userId b0.id = (s.setCancelled b0.id, Response.success 200 ()) := by
  unfold cancel
  have hmem : b0 ∈ s.selectOwned b0.id userId := by
    simp [Store.selectOwned, List.mem_filter, hb, hown]
  cases hsel : s.selectOwned b0.id userId with
  | nil => rw [hsel] at hmem; simp at hmem
  | cons x rest => simp

theorem availability_found (s : Store) (trainId : Nat) (date : String) (train : Train)
    (hdate : date ≠ "") (htrain : (s.selectTrain trainId).head? = some train) :
    availability s none trainId (some date) =
      Response.success 200
        { train := train,
          availableSeats := max 0 ((train.total_seats : Int) - (s.bookedSeats trainId date : Int)),
          totalSeats := train.total_seats } := by
  unfold availability
  simp only [hdate, if_false, reduceCtorEq]
  cases hsel : s.selectTrain trainId with
  | nil => rw [hsel] at htrain; simp at htrain
  | cons t rest =>
    rw [hsel] at htrain
    simp only [List.head?_cons, Option.some.injEq] at htrain
    subst htrain
    rfl

/-- The availability response depends on the store only through the train rows
and the confirmed sums. -/
theorem availability_congr (s s' : Store) (trainId : Nat) (date : Option String)
    (htrains : s'.trains = s.trains)
    (hsum : ∀ d, s'.bookedSeats trainId d = s.bookedSeats trainId d) :
    availability s' none trainId date = availability s none trainId date := by
  unfold availability
  have hsel : s'.selectTrain trainId = s.selectTrain trainId := by
    simp [Store.selectTrain, htrains]
  cases date with
  | none => rfl
  | some d => simp only [hsel, hsum d]

/-- C10: in a store whose booking ids are distinct (`id` is the key of the
table), a cancel by the owner succeeds, and
* if the booking was confirmed with `n` passengers and the confirmed sum of its
  train and date does not exceed `total_seats`, the availability query for that
  train and date answers `n` more than before, and the next `createBooking` for
  that train and date issues `min(m, a + n)` seats for `m` passengers and is
  confirmed exactly when `m ≤ a + n`, with `a` the seats left before the cancel;
* if the booking was waiting or already cancelled, every availability query
  answers as before. -/
theorem C10_cancel_frees_capacity (s : Store) (userId : Nat) (b0 : Booking)
    (hids : (s.bookings.map (fun b => b.id)).Nodup) (hb : b0 ∈ s.bookings)
    (hown : b0.user_id = userId) :
    (cancel s none userId b0.id).2 = Response.success 200 () ∧
    (b0.status = BookingStatus.confirmed →
      ∀ train, (s.selectTrain b0.train_id).head? = some train → b0.journey_date ≠ "" →
        s.bookedSeats b0.train_id b0.journey_date ≤ train.total_seats →
        (∃ av av',
          availability s none b0.train_id (some b0.journey_date) = Response.success 200 av ∧
          availability (cancel s none userId b0.id).1 none b0.train_id (some b0.journey_date)
            = Response.success 200 av' ∧
          av'.availableSeats = av.availableSeats + (b0.total_passengers : Int)) ∧
        (∀ (env : Env) (uid : Nat) (ps : List PassengerInput),
          b0.train_id ≠ 0 → ps ≠ [] → env.failAt = none →
          ∃ res,
            (createBooking (cancel s none userId b0.id).1 env uid
                (validRequest b0.train_id b0.journey_date ps)).2 = Response.success 201 res ∧
            res.seatNumbers.length
              = min ps.length
                  (train.total_seats - s.bookedSeats b0.train_id b0.journey_date
                    + b0.total_passengers) ∧
            (res.status = BookingStatus.confirmed ↔
              ps.length ≤ train.total_seats - s.bookedSeats b0.train_id b0.journey_date
                + b0.total_passengers))) ∧
    (b0.status ≠ BookingStatus.confirmed →
      ∀ trainId date,
        availability (cancel s none userId b0.id).1 none trainId date
          = availability s none trainId date) := by
  rw [cancel_owned s userId b0 hb hown]
  refine ⟨rfl, ?_, ?_⟩
  · intro hconf train htrain hdate hcap
    have hsum := bookedSeats_setCancelled s b0.train_id b0.journey_date b0 hids hb
    have hc : contribution b0.train_id b0.journey_date b0 = b0.total_passengers := by
      simp [contribution, hconf]
    rw [hc] at hsum
    have htrain' : ((s.setCancelled b0.id).selectTrain b0.train_id).head? = some train := htrain
    constructor
    · refine ⟨_, _, availability_found s _ _ train hdate htrain,
        availability_found (s.setCancelled b0.id) _ _ train hdate htrain', ?_⟩
      simp only
      omega
    · intro env uid ps htid hps hf
      obtain ⟨h2, _, _, _⟩ := createBooking_spec (s.setCancelled b0.id) env uid b0.train_id
        b0.journey_date ps train htid hdate hps htrain' (failAt_none_ne env hf _)
      refine ⟨_, h2, ?_, ?_⟩
      · simp only [bookingResult, issuedSeats_length, Store.seatsLeft]
        omega
      · simp only [bookingResult, aggregateStatus, Store.seatsLeft]
        constructor
        · intro h
          by_contra hn
          rw [if_neg (by omega)] at h
          exact absurd h (by decide)
        · intro h
          rw [if_pos (by omega)]
  · intro hnc trainId date
    apply availability_congr
    · rfl
    · intro d
      have hsum := bookedSeats_setCancelled s trainId d b0 hids hb
      have hc : contribution trainId d b0 = 0 := by
        simp [contribution, hnc]
      rw [hc, Nat.add_zero] at hsum
      exact hsum

theorem C10_cancel_frees_capacity_witness :
    (cancel fullTrain none 7 firstBooking.id).2 = Response.success 200 () ∧
    (∃ av av',
      availability fullTrain none firstBooking.train_id (some firstBooking.journey_date)
        = Response.success 200 av ∧
      availability (cancel fullTrain none 7 firstBooking.id).1 none firstBooking.train_id
          (some firstBooking.journey_date)
        = Response.success 200 av' ∧
      av'.availableSeats = av.availableSeats + (firstBooking.total_passengers : Int)) :=
  ⟨(C10_cancel_frees_capacity fullTrain 7 firstBooking (by decide) (by decide) rfl).1,
    ((C10_cancel_frees_capacity fullTrain 7 firstBooking (by decide) (by decide) rfl).2.1
      rfl train3 (by decide) (by decide) (by decide)).1⟩

/-! ## Claims about `cancel` -/

theorem selectOwned_eq_nil_iff (s : Store) (bookingId userId : Nat) :
    s.selectOwned bookingId userId = [] ↔
      ∀ b ∈ s.bookings, ¬ (b.id = bookingId ∧ b.user_id = userId) := by
  simp [Store.selectOwned, List.filter_eq_nil_iff]

/-- C11: `cancel` answers 404 exactly when no booking row has both the given id
and the caller as owner (so also when a row with that id belongs to another
user), and then the store is the one before the call. -/
theorem C11_cancel_not_found_iff (s : Store) (userId bookingId : Nat) :
    ((cancel s none userId bookingId).2 = Response.failure 404 "Booking not found" ↔
      ∀ b ∈ s.bookings, ¬ (b.id = bookingId ∧ b.user_id = userId)) ∧
    ((cancel s none userId bookingId).2.code = 404 ↔
      ∀ b ∈ s.bookings, ¬ (b.id = bookingId ∧ b.user_id = userId)) ∧
    ((cancel s none userId bookingId).2.code = 404 →
      (cancel s none userId bookingId).1 = s) := by
  rw [← selectOwned_eq_nil_iff]
  unfold cancel
  cases hsel : s.selectOwned bookingId userId with
  | nil => simp [Response.code]
  | cons b rest => simp [Response.code]

/-- C12: a successful `cancel` leaves the trains, the passenger rows and the two
id counters as they were, keeps every booking row in its place, leaves the rows
with another id untouched and changes, in a row with the given id, the status
field only (to cancelled). -/
theorem C12_cancel_changes_status_only (s s' : Store) (failAt : Option Nat)
    (userId bookingId : Nat) (code : Nat)
    (hsucc : cancel s failAt userId bookingId = (s', Response.success code ())) :
    s'.trains = s.trains ∧ s'.passengers = s.passengers ∧
    s'.nextBookingId = s.nextBookingId ∧ s'.nextPassengerId = s.nextPassengerId ∧
    s'.bookings.length = s.bookings.length ∧
    (∀ (i : Nat) (b : Booking), s.bookings[i]? = some b →
      ∃ b' : Booking, s'.bookings[i]? = some b' ∧
        b'.id = b.id ∧ b'.pnr_number = b.pnr_number ∧ b'.user_id = b.user_id ∧
        b'.train_id = b.train_id ∧ b'.journey_date = b.journey_date ∧
        b'.total_passengers = b.total_passengers ∧ b'.total_amount = b.total_amount ∧
        b'.seat_numbers = b.seat_numbers ∧ b'.booking_date = b.booking_date ∧
        (b.id = bookingId → b'.status = BookingStatus.cancelled) ∧
        (b.id ≠ bookingId → b' = b)) := by
  unfold cancel at hsucc
  by_cases h0 : failAt = some 0
  · simp [h0] at hsucc
  · rw [if_neg h0] at hsucc
    cases hsel : s.selectOwned bookingId userId with
    | nil => simp [hsel] at hsucc
    | cons x rest =>
      simp only [hsel] at hsucc
      by_cases h1 : failAt = some 1
      · simp [h1] at hsucc
      · rw [if_neg h1] at hsucc
        simp only [Prod.mk.injEq, Response.success.injEq, and_true] at hsucc
        obtain ⟨hs, _⟩ := hsucc
        subst hs
        refine ⟨rfl, rfl, rfl, rfl, by simp [Store.setCancelled], ?_⟩
        intro i b hb
        refine ⟨cancelRow bookingId b, by simp [setCancelled_bookings, hb], ?_⟩
        by_cases hid : b.id = bookingId <;> simp [cancelRow, hid]

theorem C12_cancel_changes_status_only_witness :
    (cancel fullTrain none 7 1).1.trains = fullTrain.trains ∧
    (cancel fullTrain none 7 1).1.passengers = fullTrain.passengers ∧
    (cancel fullTrain none 7 1).1.nextBookingId = fullTrain.nextBookingId ∧
    (cancel fullTrain none 7 1).1.nextPassengerId = fullTrain.nextPassengerId ∧
    (cancel fullTrain none 7 1).1.bookings.length = fullTrain.bookings.length ∧
    (∀ (i : Nat) (b : Booking), fullTrain.bookings[i]? = some b →
      ∃ b' : Booking, (cancel fullTrain none 7 1).1.bookings[i]? = some b' ∧
        b'.id = b.id ∧ b'.pnr_number = b.pnr_number ∧ b'.user_id = b.user_id ∧
        b'.train_id = b.train_id ∧ b'.journey_date = b.journey_date ∧
        b'.total_passengers = b.total_passengers ∧ b'.total_amount = b.total_amount ∧
        b'.seat_numbers = b.seat_numbers ∧ b'.booking_date = b.booking_date ∧
        (b.id = 1 → b'.status = BookingStatus.cancelled) ∧
        (b.id ≠ 1 → b' = b)) :=
  C12_cancel_changes_status_only fullTrain (cancel fullTrain none 7 1).1 none 7 1 200
    (by decide)

/-- C13: for a booking owned by the caller, `cancel` succeeds, a second `cancel`
succeeds as well and gives the same store as the first, and in that store every
row with the given id has status cancelled. -/
theorem C13_cancel_idempotent (s : Store) (userId bookingId : Nat)
    (hown : ∃ b ∈ s.bookings, b.id = bookingId ∧ b.user_id = userId) :
    (cancel s none userId bookingId).2 = Response.success 200 () ∧
    (cancel (cancel s none userId bookingId).1 none userId bookingId).2
      = Response.success 200 () ∧
    (cancel (cancel s none userId bookingId).1 none userId bookingId).1
      = (cancel s none userId bookingId).1 ∧
    (∀ b ∈ (cancel (cancel s none userId bookingId).1 none userId bookingId).1.bookings,
      b.id = bookingId → b.status = BookingStatus.cancelled) := by
  obtain ⟨b0, hb0, hid, huser⟩ := hown
  subst hid
  have h1 := cancel_owned s userId b0 hb0 huser
  have hb1 : cancelRow b0.id b0 ∈ (s.setCancelled b0.id).bookings := by
    rw [setCancelled_bookings]; exact List.mem_map_of_mem _ hb0
  have hid1 : (cancelRow b0.id b0).id = b0.id := by simp [cancelRow]
  have huser1 : (cancelRow b0.id b0).user_id = userId := by simp [cancelRow, huser]
  have h2 := cancel_owned (s.setCancelled b0.id) userId (cancelRow b0.id b0) hb1 huser1
  rw [hid1] at h2
  have hidem : (s.setCancelled b0.id).setCancelled b0.id = s.setCancelled b0.id := by
    simp only [Store.setCancelled, List.map_map, Store.mk.injEq, true_and, and_true]
    apply List.map_congr_left
    intro b _
    by_cases hb : b.id = b0.id <;> simp [hb]
  rw [h1, h2, hidem]
  refine ⟨rfl, rfl, rfl, ?_⟩
  intro b hb hbid
  rw [setCancelled_bookings] at hb
  obtain ⟨b', _, rfl⟩ := List.mem_map.mp hb
  by_cases hb' : b'.id = b0.id
  · simp [cancelRow, hb']
  · simp [cancelRow, hb'] at hbid

theorem C13_cancel_idempotent_witness :
    (cancel fullTrain none 7 1).2 = Response.success 200 () ∧
    (cancel (cancel fullTrain none 7 1).1 none 7 1).2 = Response.success 200 () ∧
    (cancel (cancel fullTrain none 7 1).1 none 7 1).1 = (cancel fullTrain none 7 1).1 ∧
    (∀ b ∈ (cancel (cancel fullTrain none 7 1).1 none 7 1).1.bookings,
      b.id = 1 → b.status = BookingStatus.cancelled) :=
  C13_cancel_idempotent fullTrain 7 1 ⟨firstBooking, by decide, rfl, rfl⟩

/-! ## Claims about the failure responses of `createBooking` -/

/-- C14: a request that passes validation and whose `trainId` matches no train
row is answered 404, and the store is the one before the call: no booking row
and no passenger row is added. -/
theorem C14_unknown_train_not_found (s : Store) (env : Env) (userId trainId : Nat)
    (date : String) (ps : List PassengerInput)
    (htid : trainId ≠ 0) (hdate : date ≠ "") (hps : ps ≠ [])
    (hf : env.failAt = none) (hnone : ∀ t ∈ s.trains, t.id ≠ trainId) :
    createBooking s env userId (validRequest trainId date ps)
      = (s, Response.failure 404 "Train not found") ∧
    (createBooking s env userId (validRequest trainId date ps)).2.code = 404 ∧
    (createBooking s env userId (validRequest trainId date ps)).1.bookings = s.bookings ∧
    (createBooking s env userId (validRequest trainId date ps)).1.passengers
      = s.passengers := by
  have hlen : ps.length ≠ 0 := by
    intro h; exact hps (List.length_eq_zero.mp h)
  have hsel : s.selectTrain trainId = [] := by
    simp only [Store.selectTrain, List.filter_eq_nil_iff, decide_eq_true_eq]
    exact hnone
  have h : createBooking s env userId (validRequest trainId date ps)
      = (s, Response.failure 404 "Train not found") := by
    unfold createBooking validRequest
    simp only [htid, hdate, hlen, or_self, if_false, hf, reduceCtorEq, hsel]
  rw [h]
  exact ⟨rfl, rfl, rfl, rfl⟩

theorem C14_unknown_train_not_found_witness :
    createBooking (emptyStore [train3]) quietEnv 7 (validRequest 2 "2025-01-01" [traveller])
      = (emptyStore [train3], Response.failure 404 "Train not found") ∧
    (createBooking (emptyStore [train3]) quietEnv 7
      (validRequest 2 "2025-01-01" [traveller])).2.code = 404 ∧
    (createBooking (emptyStore [train3]) quietEnv 7
      (validRequest 2 "2025-01-01" [traveller])).1.bookings = (emptyStore [train3]).bookings ∧
    (createBooking (emptyStore [train3]) quietEnv 7
      (validRequest 2 "2025-01-01" [traveller])).1.passengers
      = (emptyStore [train3]).passengers :=
  C14_unknown_train_not_found (emptyStore [train3]) quietEnv 7 2 "2025-01-01" [traveller]
    (by decide) (by decide) (by decide) rfl (by decide)

/-- C15: when `passengers` is missing, is not a list or is the empty list, or when
`trainId` or `journeyDate` is missing, `createBooking` answers 400 and returns the
store it was given, whatever the environment: even when the first query is set
to fail the answer is 400, so no query is issued. Hence an answer other than 400
comes from a request with a non-empty passenger list, and a success answer too. -/
theorem C15_invalid_input_rejected (s : Store) (env : Env) (userId : Nat)
    (req : BookingRequest) :
    ((req.passengers = PassengersField.falsy ∨ req.passengers = PassengersField.nonArray ∨
        req.passengers = PassengersField.array [] ∨ req.trainId = none ∨
        req.journeyDate = none) →
      createBooking s env userId req = (s, Response.failure 400 "Invalid booking data")) ∧
    ((createBooking s env userId req).2.code ≠ 400 →
      ∃ trainId date ps, req = validRequest trainId date ps ∧ ps ≠ []) := by
  obtain ⟨tid, jd, pf⟩ := req
  constructor
  · intro h
    unfold createBooking
    cases tid with
    | none => rfl
    | some trainId =>
      cases jd with
      | none => rfl
      | some date =>
        cases pf with
        | falsy => rfl
        | nonArray => rfl
        | array ps =>
          simp only [reduceCtorEq, PassengersField.array.injEq, false_or, or_false] at h
          subst h
          simp
  · intro h
    cases tid with
    | none => exact absurd rfl h
    | some trainId =>
      cases jd with
      | none => exact absurd rfl h
      | some date =>
        cases pf with
        | falsy => exact absurd rfl h
        | nonArray => exact absurd rfl h
        | array ps =>
          refine ⟨trainId, date, ps, rfl, ?_⟩
          intro hps
          subst hps
          apply h
          simp [createBooking, Response.code]

/-- C16: the code at the failing input. A request whose only passenger record
has no name, for an existing train and with no storage failure, is answered 201
(not 400), and a booking row and a passenger row with a null name are written. -/
theorem C16_missing_field_accepted :
    (createBooking (emptyStore [train3]) quietEnv 7
        (validRequest 1 "2025-01-01" [nameless])).2.code = 201 ∧
    (createBooking (emptyStore [train3]) quietEnv 7
        (validRequest 1 "2025-01-01" [nameless])).1.bookings.map
        (fun b => (b.id, b.total_passengers, b.status, b.seat_numbers))
      = [(1, 1, BookingStatus.confirmed, some ["S1"])] ∧
    (createBooking (emptyStore [train3]) quietEnv 7
        (validRequest 1 "2025-01-01" [nameless])).1.passengers
      = [{ id := 1, booking_id := 1, name := none, age := some 30, gender := some "F",
           seat_number := some "S1", status := PassengerStatus.confirmed }] := by
  refine ⟨by decide, by decide, by decide⟩

/-- C19: the code at the failing input. Two successful calls made in the same
millisecond with the same random draw return the same reservation reference,
and both booking rows are stored with it. -/
theorem C19_same_reference_twice :
    (createBooking (emptyStore [train3]) quietEnv 7 (request 1)).2.body?.map
        (fun r => (r.bookingId, r.pnrNumber)) = some (1, "PNR17000000000007") ∧
    (createBooking bookedOnce quietEnv 8 (request 1)).2.body?.map
        (fun r => (r.bookingId, r.pnrNumber)) = some (2, "PNR17000000000007") ∧
    (createBooking bookedOnce quietEnv 8 (request 1)).1.bookings.map
        (fun b => (b.id, b.pnr_number))
      = [(1, "PNR17000000000007"), (2, "PNR17000000000007")] := by
  refine ⟨by decide, by decide, by decide⟩

/-! ## The store after any `createBooking` -/

/-- The three outcomes of the booking code, whatever query is set to fail:
nothing written, the booking row and the first `m` passenger rows written, or
everything written. -/
theorem bookOnTrain_cases (s : Store) (env : Env) (userId trainId : Nat) (date : String)
    (ps : List PassengerInput) (train : Train) :
    bookOnTrain s env userId trainId date ps train
        = (s, Response.failure 500 "Booking failed") ∨
    (∃ m, m ≤ ps.length ∧
      bookOnTrain s env userId trainId date ps train
        = (partialStore s env userId trainId date ps train m,
            Response.failure 500 "Booking failed")) ∨
    bookOnTrain s env userId trainId date ps train
        = ((partialStore s env userId trainId date ps train ps.length).updateSeatNumbers
            s.nextBookingId (issuedSeats s train trainId date ps.length),
          Response.success 201 (bookingResult s env trainId date ps train)) := by
  by_cases hok : ∀ k, 1 ≤ k → k ≤ 3 + ps.length → env.failAt ≠ some k
  · exact Or.inr (Or.inr (bookOnTrain_ok s env userId trainId date ps train hok))
  · simp only [not_forall, not_not] at hok
    obtain ⟨k, hk1, hk2, hfk⟩ := hok
    by_cases e12 : k = 1 ∨ k = 2
    · left
      apply bookOnTrain_fail_early
      rcases e12 with e | e
      · left; rw [hfk, e]
      · right; rw [hfk, e]
    · right; left
      by_cases e3 : k = 3 + ps.length
      · exact ⟨ps.length, le_refl _,
          bookOnTrain_fail_update s env userId trainId date ps train (by rw [hfk, e3])⟩
      · have hm : k - 3 < ps.length := by omega
        have hfm : env.failAt = some (3 + (k - 3)) := by
          rw [hfk]; congr 1; omega
        exact ⟨k - 3, by omega,
          bookOnTrain_fail_passenger s env userId trainId date ps train (k - 3) hm hfm⟩

/-- Either `createBooking` returns the store it was given, or the request passed
validation, the train was found and the booking code ran. -/
theorem createBooking_cases (s : Store) (env : Env) (userId : Nat) (req : BookingRequest) :
    (createBooking s env userId req).1 = s ∨
    ∃ trainId date ps train,
      req = validRequest trainId date ps ∧ trainId ≠ 0 ∧ date ≠ "" ∧ ps ≠ [] ∧
      (s.selectTrain trainId).head? = some train ∧
      createBooking s env userId req = bookOnTrain s env userId trainId date ps train := by
  obtain ⟨tid, jd, pf⟩ := req
  cases tid with
  | none => left; rfl
  | some trainId =>
    cases jd with
    | none => left; rfl
    | some date =>
      cases pf with
      | falsy => left; rfl
      | nonArray => left; rfl
      | array ps =>
        by_cases hv : trainId = 0 ∨ date = "" ∨ ps.length = 0
        · left
          unfold createBooking
          simp only
          rw [if_pos hv]
        · by_cases h0 : env.failAt = some 0
          · left
            unfold createBooking
            simp only
            rw [if_neg hv, if_pos h0]
          · cases hsel : s.selectTrain trainId with
            | nil =>
              left
              unfold createBooking
              simp only
              rw [if_neg hv, if_neg h0]
              simp only [hsel]
            | cons train rest =>
              right
              have htid : trainId ≠ 0 := fun e => hv (Or.inl e)
              have hdate : date ≠ "" := fun e => hv (Or.inr (Or.inl e))
              have hps : ps ≠ [] := fun e => hv (Or.inr (Or.inr (by simp [e])))
              have htrain : (s.selectTrain trainId).head? = some train := by rw [hsel]; rfl
              exact ⟨trainId, date, ps, train, rfl, htid, hdate, hps, htrain,
                createBooking_valid s env userId trainId date ps train htid hdate hps h0 htrain⟩

theorem createBooking_trains (s : Store) (env : Env) (userId : Nat) (req : BookingRequest) :
    (createBooking s env userId req).1.trains = s.trains := by
  rcases createBooking_cases s env userId req with h | ⟨tid, date, ps, train, _, _, _, _, _, h⟩
  · rw [h]
  · rw [h]
    rcases bookOnTrain_cases s env userId tid date ps train with h | ⟨m, _, h⟩ | h <;>
      rw [h] <;> rfl

theorem contribution_setSeats (trainId : Nat) (date : String) (bookingId : Nat)
    (seats : List String) (b : Booking) :
    contribution trainId date (setSeats bookingId seats b) = contribution trainId date b := by
  by_cases h : b.id = bookingId <;> simp [setSeats, contribution, h]

theorem contribution_bookingRow (s : Store) (env : Env) (userId trainId : Nat)
    (date : String) (ps : List PassengerInput) (train : Train) (tid : Nat) (d : String) :
    contribution tid d (bookingRow s env userId trainId date ps train) =
      if trainId = tid ∧ date = d ∧ (ps.length : Int) ≤ s.seatsLeft train trainId date
      then ps.length else 0 := by
  by_cases hle : (ps.length : Int) ≤ s.seatsLeft train trainId date
  · have : (ps.length : Int) ≤ (train.total_seats : Int) - (s.bookedSeats trainId date : Int) :=
      hle
    simp [contribution, bookingRow, aggregateStatus, hle, this]
  · have : ¬ (ps.length : Int) ≤ (train.total_seats : Int) - (s.bookedSeats trainId date : Int) :=
      hle
    simp [contribution, bookingRow, aggregateStatus, hle, this]

/-- What any `createBooking` does to a confirmed sum: it adds the contribution of
the booking row it inserted, if it inserted one. -/
theorem bookedSeats_createBooking (s : Store) (env : Env) (userId : Nat)
    (req : BookingRequest) (tid : Nat) (d : String) :
    (createBooking s env userId req).1.bookedSeats tid d = s.bookedSeats tid d ∨
    ∃ trainId date ps train,
      req = validRequest trainId date ps ∧ trainId ≠ 0 ∧ date ≠ "" ∧ ps ≠ [] ∧
      (s.selectTrain trainId).head? = some train ∧
      (createBooking s env userId req).1.bookedSeats tid d
        = s.bookedSeats tid d
          + contribution tid d (bookingRow s env userId trainId date ps train) := by
  rcases createBooking_cases s env userId req with
    h | ⟨trainId, date, ps, train, hreq, htid, hdate, hps, htrain, h⟩
  · left; rw [h]
  · rcases bookOnTrain_cases s env userId trainId date ps train with hb | ⟨m, _, hb⟩ | hb
    · left; rw [h, hb]
    · right
      refine ⟨trainId, date, ps, train, hreq, htid, hdate, hps, htrain, ?_⟩
      rw [h, hb, bookedSeats_eq_contributions, bookedSeats_eq_contributions]
      simp [partialStore]
    · right
      refine ⟨trainId, date, ps, train, hreq, htid, hdate, hps, htrain, ?_⟩
      rw [h, hb, bookedSeats_eq_contributions, bookedSeats_eq_contributions,
        updateSeatNumbers_partialStore_bookings]
      simp only [List.map_append, List.map_map, List.sum_append, List.map_cons, List.map_nil,
        List.sum_cons, List.sum_nil, Nat.add_zero]
      congr 1
      · congr 1
        apply List.map_congr_left
        intro b _
        exact contribution_setSeats _ _ _ _ _

/-- Once the confirmed sum of a train and date has reached the capacity, no
`createBooking` changes it. -/
theorem bookedSeats_createBooking_of_full (s : Store) (env : Env) (userId : Nat)
    (req : BookingRequest) (tid : Nat) (d : String) (train : Train)
    (htrain : (s.selectTrain tid).head? = some train)
    (hfull : train.total_seats ≤ s.bookedSeats tid d) :
    (createBooking s env userId req).1.bookedSeats tid d = s.bookedSeats tid d := by
  rcases bookedSeats_createBooking s env userId req tid d with
    h | ⟨trainId, date, ps, train', _, _, _, hps, htrain', h⟩
  · exact h
  · rw [h, contribution_bookingRow]
    by_cases hc : trainId = tid ∧ date = d ∧ (ps.length : Int) ≤ s.seatsLeft train' trainId date
    · obtain ⟨e1, e2, hle⟩ := hc
      subst e1 e2
      rw [htrain] at htrain'
      simp only [Option.some.injEq] at htrain'
      subst htrain'
      have hpos : 0 < ps.length := List.length_pos.mpr hps
      simp only [Store.seatsLeft] at hle
      omega
    · rw [if_neg hc]; rfl

theorem selectTrain_createBooking (s : Store) (env : Env) (userId : Nat)
    (req : BookingRequest) (tid : Nat) :
    (createBooking s env userId req).1.selectTrain tid = s.selectTrain tid := by
  simp [Store.selectTrain, createBooking_trains]

/-- A run of `createBooking` calls keeps the train rows and a confirmed sum that
has reached the capacity. -/
theorem run_creates_of_full (ops : List Op) :
    ∀ (s : Store) (tid : Nat) (d : String) (train : Train),
      (∀ op ∈ ops, op.isCreate = true) →
      (s.selectTrain tid).head? = some train →
      train.total_seats ≤ s.bookedSeats tid d →
      (run s ops).selectTrain tid = s.selectTrain tid ∧
      (run s ops).bookedSeats tid d = s.bookedSeats tid d := by
  induction ops with
  | nil => intro s tid d train _ _ _; exact ⟨rfl, rfl⟩
  | cons op rest ih =>
    intro s tid d train hops htrain hfull
    have hop : op.isCreate = true := hops op (List.mem_cons_self _ _)
    have hrest : ∀ o ∈ rest, o.isCreate = true := fun o ho => hops o (List.mem_cons_of_mem _ ho)
    cases op with
    | cancel u b => simp [Op.isCreate] at hop
    | create env userId req =>
      have hsel := selectTrain_createBooking s env userId req tid
      have hsum := bookedSeats_createBooking_of_full s env userId req tid d train htrain hfull
      have := ih (createBooking s env userId req).1 tid d train hrest
        (by rw [hsel]; exact htrain) (by rw [hsum]; exact hfull)
      simp only [run, List.foldl_cons, step] at this ⊢
      rw [this.1, this.2, hsel, hsum]
      exact ⟨rfl, rfl⟩

/-- After a call that wrote everything, each confirmed sum has grown by the
contribution of the new booking row. -/
theorem bookedSeats_after_success (s : Store) (env : Env) (userId trainId : Nat)
    (date : String) (ps : List PassengerInput) (train : Train)
    (htid : trainId ≠ 0) (hdate : date ≠ "") (hps : ps ≠ [])
    (htrain : (s.selectTrain trainId).head? = some train)
    (hf : ∀ k, k ≤ 3 + ps.length → env.failAt ≠ some k) (tid : Nat) (d : String) :
    (createBooking s env userId (validRequest trainId date ps)).1.bookedSeats tid d
      = s.bookedSeats tid d
        + contribution tid d (bookingRow s env userId trainId date ps train) := by
  obtain ⟨_, _, hb, _⟩ := createBooking_spec s env userId trainId date ps train htid hdate hps
    htrain hf
  rw [bookedSeats_eq_contributions, bookedSeats_eq_contributions, hb]
  simp only [List.map_append, List.map_map, List.sum_append, List.map_cons, List.map_nil,
    List.sum_cons, List.sum_nil, Nat.add_zero]
  congr 1
  congr 1
  apply List.map_congr_left
  intro b _
  exact contribution_setSeats _ _ _ _ _

theorem bookedSeats_eq_zero (s : Store) (tid : Nat) (d : String)
    (h : ∀ b ∈ s.bookings, b.train_id = tid → b.journey_date = d →
      b.status ≠ BookingStatus.confirmed) :
    s.bookedSeats tid d = 0 := by
  rw [bookedSeats_eq_contributions]
  apply List.sum_eq_zero
  intro x hx
  obtain ⟨b, hb, rfl⟩ := List.mem_map.mp hx
  unfold contribution
  rw [if_neg]
  rintro ⟨h1, h2, h3⟩
  exact h b hb h1 h2 h3

/-- The availability answer for a train and date depends on the store only
through the train rows and the confirmed sum of that train and date. -/
theorem availability_congr_at (s s' : Store) (trainId : Nat) (date : Option String)
    (htrains : s'.trains = s.trains)
    (hsum : ∀ d, date = some d → s'.bookedSeats trainId d = s.bookedSeats trainId d) :
    availability s' none trainId date = availability s none trainId date := by
  unfold availability
  have hsel : s'.selectTrain trainId = s.selectTrain trainId := by
    simp [Store.selectTrain, htrains]
  cases date with
  | none => rfl
  | some d => simp only [hsel, hsum d rfl]

/-! ## Scenarios -/

/-- C17 (counterexample): the three-seat train with fare 0.10 and no booking.
The request for three passengers is confirmed with the three seats and the
amount 0.30000000000000004 (`1351079888211149 / 2 ^ 52`), not `3 * 0.10`; the
next request, for one passenger, is waiting with no seat. -/
theorem C17_amounts_not_exact :
    (createBooking (emptyStore [trainTenth]) quietEnv 7 (request 3)).2.body?.map
        (fun r => (r.status, r.seatNumbers, r.totalAmount))
      = some (BookingStatus.confirmed, ["S1", "S2", "S3"],
          mkRat 1351079888211149 4503599627370496) ∧
    (createBooking (createBooking (emptyStore [trainTenth]) quietEnv 7 (request 3)).1
        quietEnv 8 (request 1)).2.body?.map (fun r => (r.status, r.seatNumbers))
      = some (BookingStatus.waiting, []) ∧
    mkRat 1351079888211149 4503599627370496 ≠ mkRat 3 10 ∧
    ((trainTenth.total_seats : ℕ) : ℚ) * trainTenth.fare = mkRat 3 10 := by
  refine ⟨by decide, by decide, by decide, ?_⟩
  norm_num [trainTenth, Rat.mkRat_eq_div]

/-- C17 (amended): on a train of capacity `c ≥ 1` and fare `f` with no confirmed
booking for the date, a request for exactly `c` passengers is confirmed with `c`
seat numbers and the double product of `c` and `f` as amount; after it, and
after any further `createBooking` calls, a request for `m ≥ 1` passengers for
the same train and date gets no seat number, all its `m` passenger rows have
seat null and status waiting, its aggregate status is waiting and its amount is
the double product of `m` and `f`. When `f` is a whole number the two amounts
are `c * f` and `m * f`, provided these are below `2 ^ 53`. -/
theorem C17_full_train_then_waitlist (s : Store) (env₁ env₂ : Env) (user₁ user₂ trainId : Nat)
    (date : String) (ps₁ ps₂ : List PassengerInput) (train : Train) (ops : List Op)
    (htid : trainId ≠ 0) (hdate : date ≠ "")
    (htrain : (s.selectTrain trainId).head? = some train)
    (hc : 1 ≤ train.total_seats)
    (hempty : ∀ b ∈ s.bookings, b.train_id = trainId → b.journey_date = date →
      b.status ≠ BookingStatus.confirmed)
    (hn₁ : ps₁.length = train.total_seats) (hf₁ : env₁.failAt = none)
    (hops : ∀ op ∈ ops, op.isCreate = true)
    (hps₂ : ps₂ ≠ []) (hf₂ : env₂.failAt = none) :
    ∃ res₁ res₂ rows₂,
      (createBooking s env₁ user₁ (validRequest trainId date ps₁)).2
        = Response.success 201 res₁ ∧
      res₁.status = BookingStatus.confirmed ∧
      res₁.seatNumbers.length = train.total_seats ∧
      res₁.totalAmount = jsProduct train.total_seats train.fare ∧
      (createBooking
          (run (createBooking s env₁ user₁ (validRequest trainId date ps₁)).1 ops)
          env₂ user₂ (validRequest trainId date ps₂)).2
        = Response.success 201 res₂ ∧
      res₂.status = BookingStatus.waiting ∧
      res₂.seatNumbers = [] ∧
      res₂.totalAmount = jsProduct ps₂.length train.fare ∧
      (createBooking
          (run (createBooking s env₁ user₁ (validRequest trainId date ps₁)).1 ops)
          env₂ user₂ (validRequest trainId date ps₂)).1.passengers
        = (run (createBooking s env₁ user₁ (validRequest trainId date ps₁)).1 ops).passengers
          ++ rows₂ ∧
      rows₂.length = ps₂.length ∧
      (∀ p ∈ rows₂, p.booking_id = res₂.bookingId ∧ p.seat_number = none ∧
        p.status = PassengerStatus.waiting) ∧
      (∀ f : Nat, train.fare = (f : ℚ) →
        (train.total_seats * f < 2 ^ 53 →
          res₁.totalAmount = (train.total_seats : ℚ) * train.fare) ∧
        (ps₂.length * f < 2 ^ 53 → res₂.totalAmount = (ps₂.length : ℚ) * train.fare)) := by
  have hps₁ : ps₁ ≠ [] := by
    intro h; rw [h] at hn₁; simp at hn₁; omega
  have hb0 : s.bookedSeats trainId date = 0 := bookedSeats_eq_zero s trainId date hempty
  obtain ⟨h2, _, _, _⟩ := createBooking_spec s env₁ user₁ trainId date ps₁ train htid hdate
    hps₁ htrain (failAt_none_ne env₁ hf₁ _)
  have hsum₁ := bookedSeats_after_success s env₁ user₁ trainId date ps₁ train htid hdate
    hps₁ htrain (failAt_none_ne env₁ hf₁ _) trainId date
  rw [contribution_bookingRow, if_pos ⟨rfl, rfl, by simp only [Store.seatsLeft]; omega⟩, hb0,
    Nat.zero_add, hn₁] at hsum₁
  have hsel₁ := selectTrain_createBooking s env₁ user₁ (validRequest trainId date ps₁) trainId
  have htrain₁ : ((createBooking s env₁ user₁ (validRequest trainId date ps₁)).1.selectTrain
      trainId).head? = some train := by rw [hsel₁]; exact htrain
  obtain ⟨hselr, hsumr⟩ := run_creates_of_full ops
    (createBooking s env₁ user₁ (validRequest trainId date ps₁)).1 trainId date train hops
    htrain₁ (by rw [hsum₁])
  rw [hsum₁] at hsumr
  generalize run (createBooking s env₁ user₁ (validRequest trainId date ps₁)).1 ops = s₂
    at hselr hsumr ⊢
  have htrain₂ : (s₂.selectTrain trainId).head? = some train := by rw [hselr]; exact htrain₁
  obtain ⟨h2', _, _, hp'⟩ := createBooking_spec s₂ env₂ user₂ trainId date ps₂ train htid hdate
    hps₂ htrain₂ (failAt_none_ne env₂ hf₂ _)
  have hleft : s₂.seatsLeft train trainId date = 0 := by
    simp only [Store.seatsLeft, hsumr]; omega
  have hpos : 0 < ps₂.length := List.length_pos.mpr hps₂
  refine ⟨_, _, newRows s₂ train trainId date ps₂, h2, ?_, ?_, ?_, h2', ?_, ?_, rfl, hp',
    newRows_length _ _ _ _ _, ?_, ?_⟩
  · simp only [bookingResult, aggregateStatus, Store.seatsLeft, hb0]
    rw [if_pos (by omega)]
  · simp only [bookingResult, issuedSeats_length, Store.seatsLeft, hb0]
    omega
  · simp only [bookingResult, hn₁]
  · simp only [bookingResult, aggregateStatus, hleft]
    rw [if_neg (by omega)]
  · simp only [bookingResult, issuedSeats, hleft]
    simp [seatRange]
  · intro p hp
    obtain ⟨j, hj⟩ := List.mem_iff_getElem?.mp hp
    obtain ⟨q, _, _, _, hbid, _, _, _, hseat, hstat⟩ := newRows_row _ _ _ _ _ _ _ hj
    have hlt : ¬ (j : Int) < s₂.seatsLeft train trainId date := by rw [hleft]; omega
    rw [if_neg hlt] at hseat hstat
    exact ⟨hbid, hseat, hstat⟩
  · intro f hfare
    constructor
    · intro hlt
      simp only [bookingResult, hn₁]
      rw [hfare]
      exact jsProduct_nat _ f hlt
    · intro hlt
      simp only [bookingResult]
      rw [hfare]
      exact jsProduct_nat _ f hlt

theorem C17_full_train_then_waitlist_witness :
    ∃ res₁ res₂ rows₂,
      (createBooking (emptyStore [train2]) quietEnv 7
          (validRequest 1 "2025-01-01" [traveller, traveller])).2
        = Response.success 201 res₁ ∧
      res₁.status = BookingStatus.confirmed ∧
      res₁.seatNumbers.length = 2 ∧
      res₁.totalAmount = 200 ∧
      (createBooking
          (run (createBooking (emptyStore [train2]) quietEnv 7
            (validRequest 1 "2025-01-01" [traveller, traveller])).1 [])
          quietEnv 8 (validRequest 1 "2025-01-01" [traveller])).2
        = Response.success 201 res₂ ∧
      res₂.status = BookingStatus.waiting ∧
      res₂.seatNumbers = [] ∧
      res₂.totalAmount = 100 ∧
      (createBooking
          (run (createBooking (emptyStore [train2]) quietEnv 7
            (validRequest 1 "2025-01-01" [traveller, traveller])).1 [])
          quietEnv 8 (validRequest 1 "2025-01-01" [traveller])).1.passengers
        = (run (createBooking (emptyStore [train2]) quietEnv 7
            (validRequest 1 "2025-01-01" [traveller, traveller])).1 []).passengers
          ++ rows₂ ∧
      rows₂.length = 1 ∧
      (∀ p ∈ rows₂, p.booking_id = res₂.bookingId ∧ p.seat_number = none ∧
        p.status = PassengerStatus.waiting) := by
  obtain ⟨r₁, r₂, rows, h1, h2, h3, _, h5, h6, h7, _, h9, h10, h11, h12⟩ :=
    C17_full_train_then_waitlist (emptyStore [train2]) quietEnv quietEnv 7 8 1 "2025-01-01"
      [traveller, traveller] [traveller] train2 [] (by decide) (by decide) (by decide)
      (by decide) (by decide) rfl rfl (by simp) (by decide) rfl
  have hfare : train2.fare = ((100 : Nat) : ℚ) := by norm_num [train2]
  refine ⟨r₁, r₂, rows, h1, h2, h3, ?_, h5, h6, h7, ?_, h9, h10, h11⟩
  · rw [(h12 100 hfare).1 (by decide)]; norm_num [train2]
  · rw [(h12 100 hfare).2 (by decide)]; norm_num [train2]

/-- C18: when `1 ≤ n ≤ a`, with `a` the available seats of the train and date,
the availability query answers `a - n` after a `createBooking` of `n` passengers
for that train and date, and answers as before for every other train and for
every other date. -/
theorem C18_confirmed_booking_consumes_count (s : Store) (env : Env) (userId trainId : Nat)
    (date : String) (ps : List PassengerInput) (train : Train)
    (htid : trainId ≠ 0) (hdate : date ≠ "") (hps : ps ≠ [])
    (htrain : (s.selectTrain trainId).head? = some train) (hf : env.failAt = none)
    (hn : (ps.length : Int)
      ≤ max 0 ((train.total_seats : Int) - (s.bookedSeats trainId date : Int))) :
    (∃ av av',
      availability s none trainId (some date) = Response.success 200 av ∧
      availability (createBooking s env userId (validRequest trainId date ps)).1 none trainId
          (some date) = Response.success 200 av' ∧
      av'.availableSeats = av.availableSeats - (ps.length : Int)) ∧
    (∀ (tid : Nat) (d : Option String), (tid ≠ trainId ∨ d ≠ some date) →
      availability (createBooking s env userId (validRequest trainId date ps)).1 none tid d
        = availability s none tid d) := by
  have hpos : 0 < ps.length := List.length_pos.mpr hps
  have hsum := bookedSeats_after_success s env userId trainId date ps train htid hdate hps
    htrain (failAt_none_ne env hf _)
  have hsel := selectTrain_createBooking s env userId (validRequest trainId date ps) trainId
  constructor
  · have h1 := hsum trainId date
    rw [contribution_bookingRow, if_pos ⟨rfl, rfl, by simp only [Store.seatsLeft]; omega⟩] at h1
    refine ⟨_, _, availability_found s trainId date train hdate htrain,
      availability_found _ trainId date train hdate (by rw [hsel]; exact htrain), ?_⟩
    simp only [h1]
    omega
  · intro tid d hne
    apply availability_congr_at
    · exact createBooking_trains _ _ _ _
    · intro d' hd
      rw [hsum tid d', contribution_bookingRow, if_neg, Nat.add_zero]
      rintro ⟨e1, e2, _⟩
      rcases hne with h | h
      · exact h e1.symm
      · exact h (by rw [hd, e2])

theorem C18_confirmed_booking_consumes_count_witness :
    (createBooking (emptyStore [train5]) quietEnv 7 (request 3)).2.body?.map
        (fun r => r.seatNumbers) = some ["S1", "S2", "S3"] ∧
    (availability (createBooking (emptyStore [train5]) quietEnv 7 (request 3)).1 none 1
        (some "2025-01-01")).body?.map (fun av => av.availableSeats) = some 2 ∧
    (∃ av av',
      availability (emptyStore [train5]) none 1 (some "2025-01-01")
        = Response.success 200 av ∧
      availability (createBooking (emptyStore [train5]) quietEnv 7
          (validRequest 1 "2025-01-01" [traveller, traveller, traveller])).1 none 1
          (some "2025-01-01") = Response.success 200 av' ∧
      av'.availableSeats
        = av.availableSeats - (([traveller, traveller, traveller].length : Nat) : Int)) ∧
    (∀ (tid : Nat) (d : Option String), (tid ≠ 1 ∨ d ≠ some "2025-01-01") →
      availability (createBooking (emptyStore [train5]) quietEnv 7
          (validRequest 1 "2025-01-01" [traveller, traveller, traveller])).1 none tid d
        = availability (emptyStore [train5]) none tid d) :=
  ⟨by decide, by decide,
    C18_confirmed_booking_consumes_count (emptyStore [train5]) quietEnv 7 1 "2025-01-01"
      [traveller, traveller, traveller] train5 (by decide) (by decide) (by decide)
      (by decide) rfl (by decide)⟩

/-! ## Claims about the listing -/

/-- With distinct train ids, the join condition selects exactly the train of the
given id. -/
theorem filter_train_id_eq_singleton (k : Nat) (t : Train) :
    ∀ l : List Train, (l.map (fun x => x.id)).Nodup → t ∈ l → t.id = k →
      l.filter (fun x => decide (k = x.id)) = [t] := by
  intro l
  induction l with
  | nil => intro _ h; simp at h
  | cons x xs ih =>
    intro hnd hmem hk
    simp only [List.map_cons, List.nodup_cons, List.mem_map, not_exists, not_and] at hnd
    obtain ⟨hx, hxs⟩ := hnd
    rw [List.filter_cons]
    rcases List.mem_cons.mp hmem with h | h
    · subst h
      have hnone : xs.filter (fun x => decide (k = x.id)) = [] := by
        simp only [List.filter_eq_nil_iff, decide_eq_true_eq]
        intro y hy e
        exact hx y hy (by rw [hk, e])
      simp [hk, hnone]
    · have hne : ¬ k = x.id := by
        intro e
        exact hx t h (by rw [hk, e])
      simp only [hne, decide_False, Bool.false_eq_true, if_false]
      exact ih hxs h hk

theorem mem_joinedRows (s : Store) (userId : Nat) (r : BookingListing)
    (h : r ∈ s.joinedRows userId) :
    r.booking ∈ s.bookings ∧ r.booking.user_id = userId ∧
    (∃ t ∈ s.trains, t.id = r.booking.train_id ∧ r.train_number = t.train_number ∧
      r.train_name = t.train_name ∧ r.source_station = t.source_station ∧
      r.destination_station = t.destination_station) ∧
    r.confirmed_seats = s.countPassengers r.booking.id PassengerStatus.confirmed ∧
    r.waiting_seats = s.countPassengers r.booking.id PassengerStatus.waiting := by
  simp only [Store.joinedRows, List.mem_flatMap, List.mem_filter, List.mem_map,
    decide_eq_true_eq] at h
  obtain ⟨b, ⟨hb, hu⟩, t, ⟨ht, hid⟩, rfl⟩ := h
  exact ⟨hb, hu, ⟨t, ht, hid.symm, rfl, rfl, rfl, rfl⟩, rfl, rfl⟩

/-- With distinct train ids and a train row for every booking, the join yields one
row per booking, in table order. -/
theorem map_booking_flatMap (s : Store)
    (hkey : (s.trains.map (fun t => t.id)).Nodup) :
    ∀ l : List Booking, (∀ b ∈ l, ∃ t ∈ s.trains, t.id = b.train_id) →
      (l.flatMap (fun b =>
        (s.trains.filter (fun t => decide (b.train_id = t.id))).map (fun t =>
          ({ booking := b, train_number := t.train_number, train_name := t.train_name,
             source_station := t.source_station,
             destination_station := t.destination_station,
             confirmed_seats := s.countPassengers b.id PassengerStatus.confirmed,
             waiting_seats := s.countPassengers b.id PassengerStatus.waiting } :
            BookingListing)))).map (fun r => r.booking) = l := by
  intro l
  induction l with
  | nil => intro _; rfl
  | cons b rest ih =>
    intro h
    obtain ⟨t, ht, hid⟩ := h b (List.mem_cons_self _ _)
    have hrest := ih (fun x hx => h x (List.mem_cons_of_mem _ hx))
    rw [List.flatMap_cons, List.map_append, hrest,
      filter_train_id_eq_singleton b.train_id t s.trains hkey ht hid]
    rfl

/-- C20: when train ids are distinct and each booking of the user names an
existing train, the listing answers 200 with exactly the bookings owned by the
user (each once, none of another user), each with the display fields of its
train and with the numbers of its passenger rows of status confirmed and
waiting, ordered by `booking_date` non-increasing. -/
theorem C20_list_for_user (s : Store) (userId : Nat)
    (hkey : (s.trains.map (fun t => t.id)).Nodup)
    (hfk : ∀ b ∈ s.bookings, b.user_id = userId → ∃ t ∈ s.trains, t.id = b.train_id) :
    ∃ rows,
      listForUser s none userId = Response.success 200 rows ∧
      (rows.map (fun r => r.booking)).Perm
        (s.bookings.filter (fun b => decide (b.user_id = userId))) ∧
      (∀ r ∈ rows,
        r.booking.user_id = userId ∧
        (∃ t ∈ s.trains, t.id = r.booking.train_id ∧ r.train_number = t.train_number ∧
          r.train_name = t.train_name ∧ r.source_station = t.source_station ∧
          r.destination_station = t.destination_station) ∧
        r.confirmed_seats
          = (s.passengers.filter (fun p => decide (p.booking_id = r.booking.id)
              && decide (p.status = PassengerStatus.confirmed))).length ∧
        r.waiting_seats
          = (s.passengers.filter (fun p => decide (p.booking_id = r.booking.id)
              && decide (p.status = PassengerStatus.waiting))).length) ∧
      rows.Pairwise (fun a b => b.booking.booking_date ≤ a.booking.booking_date) := by
  refine ⟨List.insertionSort newerFirst (s.joinedRows userId), by simp [listForUser], ?_, ?_,
    List.sorted_insertionSort newerFirst _⟩
  · have hperm := (List.perm_insertionSort newerFirst (s.joinedRows userId)).map
      (fun r => r.booking)
    refine hperm.trans ?_
    have hmap := map_booking_flatMap s hkey
      (s.bookings.filter (fun b => decide (b.user_id = userId)))
      (by
        intro b hb
        simp only [List.mem_filter, decide_eq_true_eq] at hb
        exact hfk b hb.1 hb.2)
    rw [Store.joinedRows, hmap]
  · intro r hr
    have hr' : r ∈ s.joinedRows userId :=
      (List.perm_insertionSort newerFirst (s.joinedRows userId)).mem_iff.mp hr
    obtain ⟨_, hu, ht, hc, hw⟩ := mem_joinedRows s userId r hr'
    exact ⟨hu, ht, hc, hw⟩

theorem C20_list_for_user_witness :
    ∃ rows,
      listForUser fullTrain none 7 = Response.success 200 rows ∧
      (rows.map (fun r => r.booking)).Perm
        (fullTrain.bookings.filter (fun b => decide (b.user_id = 7))) ∧
      (∀ r ∈ rows,
        r.booking.user_id = 7 ∧
        (∃ t ∈ fullTrain.trains, t.id = r.booking.train_id ∧
          r.train_number = t.train_number ∧
          r.train_name = t.train_name ∧ r.source_station = t.source_station ∧
          r.destination_station = t.destination_station) ∧
        r.confirmed_seats
          = (fullTrain.passengers.filter (fun p => decide (p.booking_id = r.booking.id)
              && decide (p.status = PassengerStatus.confirmed))).length ∧
        r.waiting_seats
          = (fullTrain.passengers.filter (fun p => decide (p.booking_id = r.booking.id)
              && decide (p.status = PassengerStatus.waiting))).length) ∧
      rows.Pairwise (fun a b => b.booking.booking_date ≤ a.booking.booking_date) :=
  C20_list_for_user fullTrain 7 (by decide) (by decide)

/-! ## Claims about the allocation -/

theorem newRows_map_alloc (s : Store) (train : Train) (trainId : Nat) (date : String)
    (ps : List PassengerInput) :
    (newRows s train trainId date ps).map (fun p => (p.seat_number, p.status))
      = (List.range ps.length).map (fun (j : Nat) =>
          (if (j : Int) < s.seatsLeft train trainId date
            then some (seatLabel (s.seatStart trainId date + j)) else none,
           if (j : Int) < s.seatsLeft train trainId date
            then PassengerStatus.confirmed else PassengerStatus.waiting)) := by
  apply List.ext_getElem?
  intro j
  rw [List.getElem?_map, List.getElem?_map]
  cases hj : (newRows s train trainId date ps)[j]? with
  | none =>
    have hlen : ps.length ≤ j := by
      rw [List.getElem?_eq_none_iff, newRows_length] at hj
      exact hj
    rw [List.getElem?_eq_none (by simpa using hlen)]
    rfl
  | some p =>
    obtain ⟨q, _, hjn, _, _, _, _, _, hseat, hstat⟩ := newRows_row _ _ _ _ _ _ _ hj
    rw [List.getElem?_range hjn]
    simp only [Option.map_some', hseat, hstat]

theorem newRows_map_fields (s : Store) (train : Train) (trainId : Nat) (date : String)
    (ps : List PassengerInput) :
    (newRows s train trainId date ps).map (fun p => (p.name, p.age, p.gender))
      = ps.map (fun q => (q.name, q.age, q.gender)) := by
  apply List.ext_getElem?
  intro j
  rw [List.getElem?_map, List.getElem?_map]
  cases hj : (newRows s train trainId date ps)[j]? with
  | none =>
    have hlen : ps.length ≤ j := by
      rw [List.getElem?_eq_none_iff, newRows_length] at hj
      exact hj
    rw [List.getElem?_eq_none hlen]
    rfl
  | some p =>
    obtain ⟨q, hq, _, _, _, hn, ha, hg, _, _⟩ := newRows_row _ _ _ _ _ _ _ hj
    rw [hq]
    simp only [Option.map_some', hn, ha, hg]

/-- C21: two requests for the same train and date, made on the same store, whose
passenger lists have the same length get the same aggregate status, the same
counts, the same seat numbers and the same amount, and their passenger rows
carry the same seat number and status position by position, whatever the names,
ages and genders; the rows of each request carry the name, age and gender of its
own passengers in input order. -/
theorem C21_allocation_ignores_attributes (s : Store) (env env' : Env)
    (userId userId' trainId : Nat) (date : String) (ps ps' : List PassengerInput)
    (train : Train)
    (htid : trainId ≠ 0) (hdate : date ≠ "") (hps : ps ≠ [])
    (htrain : (s.selectTrain trainId).head? = some train)
    (hlen : ps'.length = ps.length) (hf : env.failAt = none) (hf' : env'.failAt = none) :
    ∃ res res' rows rows',
      (createBooking s env userId (validRequest trainId date ps)).2
        = Response.success 201 res ∧
      (createBooking s env' userId' (validRequest trainId date ps')).2
        = Response.success 201 res' ∧
      res'.status = res.status ∧
      res'.confirmedPassengers = res.confirmedPassengers ∧
      res'.waitingPassengers = res.waitingPassengers ∧
      res'.seatNumbers = res.seatNumbers ∧
      res'.totalAmount = res.totalAmount ∧
      (createBooking s env userId (validRequest trainId date ps)).1.passengers
        = s.passengers ++ rows ∧
      (createBooking s env' userId' (validRequest trainId date ps')).1.passengers
        = s.passengers ++ rows' ∧
      rows'.map (fun p => (p.seat_number, p.status))
        = rows.map (fun p => (p.seat_number, p.status)) ∧
      rows.map (fun p => (p.name, p.age, p.gender))
        = ps.map (fun q => (q.name, q.age, q.gender)) ∧
      rows'.map (fun p => (p.name, p.age, p.gender))
        = ps'.map (fun q => (q.name, q.age, q.gender)) := by
  have hps' : ps' ≠ [] := by
    intro h; rw [h] at hlen; exact hps (List.length_eq_zero.mp hlen.symm)
  obtain ⟨h2, _, _, hp⟩ := createBooking_spec s env userId trainId date ps train htid hdate hps
    htrain (failAt_none_ne env hf _)
  obtain ⟨h2', _, _, hp'⟩ := createBooking_spec s env' userId' trainId date ps' train htid hdate
    hps' htrain (failAt_none_ne env' hf' _)
  refine ⟨_, _, newRows s train trainId date ps, newRows s train trainId date ps', h2, h2',
    ?_, ?_, ?_, ?_, ?_, hp, hp', ?_, newRows_map_fields _ _ _ _ _, newRows_map_fields _ _ _ _ _⟩
  · simp only [bookingResult, hlen]
  · simp only [bookingResult, hlen]
  · simp only [bookingResult, hlen]
  · simp only [bookingResult, hlen]
  · simp only [bookingResult, hlen]
  · rw [newRows_map_alloc, newRows_map_alloc, hlen]

theorem C21_allocation_ignores_attributes_witness :
    ∃ res res' rows rows',
      (createBooking (emptyStore [train2]) quietEnv 7
          (validRequest 1 "2025-01-01" [traveller, traveller, nameless])).2
        = Response.success 201 res ∧
      (createBooking (emptyStore [train2]) quietEnv 8
          (validRequest 1 "2025-01-01" [nameless, traveller, traveller])).2
        = Response.success 201 res' ∧
      res'.status = res.status ∧
      res'.confirmedPassengers = res.confirmedPassengers ∧
      res'.waitingPassengers = res.waitingPassengers ∧
      res'.seatNumbers = res.seatNumbers ∧
      res'.totalAmount = res.totalAmount ∧
      (createBooking (emptyStore [train2]) quietEnv 7
          (validRequest 1 "2025-01-01" [traveller, traveller, nameless])).1.passengers
        = (emptyStore [train2]).passengers ++ rows ∧
      (createBooking (emptyStore [train2]) quietEnv 8
          (validRequest 1 "2025-01-01" [nameless, traveller, traveller])).1.passengers
        = (emptyStore [train2]).passengers ++ rows' ∧
      rows'.map (fun p => (p.seat_number, p.status))
        = rows.map (fun p => (p.seat_number, p.status)) ∧
      rows.map (fun p => (p.name, p.age, p.gender))
        = [traveller, traveller, nameless].map (fun q => (q.name, q.age, q.gender)) ∧
      rows'.map (fun p => (p.name, p.age, p.gender))
        = [nameless, traveller, traveller].map (fun q => (q.name, q.age, q.gender)) :=
  C21_allocation_ignores_attributes (emptyStore [train2]) quietEnv quietEnv 7 8 1 "2025-01-01"
    [traveller, traveller, nameless] [nameless, traveller, traveller] train2
    (by decide) (by decide) (by decide) (by decide) rfl rfl rfl

/-- C29: in every success response, `confirmedPassengers = min(n, availableSeats)`
and `waitingPassengers = max(0, n - availableSeats)` with
`availableSeats = total_seats - confirmed sum` of any sign, `n ≥ 1`, and the two
counts add up to `n`. -/
theorem C29_counts_add_up (s s' : Store) (env : Env) (userId : Nat)
    (req : BookingRequest) (code : Nat) (res : BookingResult)
    (trainId : Nat) (date : String) (ps : List PassengerInput) (train : Train)
    (hsucc : createBooking s env userId req = (s', Response.success code res))
    (hreq : req = validRequest trainId date ps)
    (htrain : (s.selectTrain trainId).head? = some train) :
    1 ≤ ps.length ∧
    res.confirmedPassengers
      = min (ps.length : Int) ((train.total_seats : Int) - (s.bookedSeats trainId date : Int)) ∧
    res.waitingPassengers
      = max 0 ((ps.length : Int)
          - ((train.total_seats : Int) - (s.bookedSeats trainId date : Int))) ∧
    res.confirmedPassengers + res.waitingPassengers = (ps.length : Int) := by
  obtain ⟨_, _, hps, _, hres, _, _, _⟩ :=
    createBooking_success_spec s s' env userId req code res trainId date ps train hsucc hreq
      htrain
  subst hres
  have hpos : 0 < ps.length := List.length_pos.mpr hps
  refine ⟨hpos, rfl, rfl, ?_⟩
  simp only [bookingResult, Store.seatsLeft]
  omega

theorem C29_counts_add_up_witness :
    1 ≤ [traveller].length ∧
    (bookingResult overbooked quietEnv 1 "2025-01-01" [traveller] train3).confirmedPassengers
      = min ([traveller].length : Int)
          ((train3.total_seats : Int) - (overbooked.bookedSeats 1 "2025-01-01" : Int)) ∧
    (bookingResult overbooked quietEnv 1 "2025-01-01" [traveller] train3).waitingPassengers
      = max 0 (([traveller].length : Int)
          - ((train3.total_seats : Int) - (overbooked.bookedSeats 1 "2025-01-01" : Int))) ∧
    (bookingResult overbooked quietEnv 1 "2025-01-01" [traveller] train3).confirmedPassengers
      + (bookingResult overbooked quietEnv 1 "2025-01-01" [traveller] train3).waitingPassengers
      = ([traveller].length : Int) :=
  C29_counts_add_up overbooked (createBooking overbooked quietEnv 9 (request 1)).1 quietEnv 9
    (request 1) 201 (bookingResult overbooked quietEnv 1 "2025-01-01" [traveller] train3)
    1 "2025-01-01" [traveller] train3
    (Prod.ext rfl (createBooking_spec overbooked quietEnv 9 1 "2025-01-01" [traveller] train3
      (by decide) (by decide) (by decide) (by decide) (failAt_none_ne quietEnv rfl _)).1)
    rfl (by decide)

/-- C30: the code at the failing input. With one passenger booked on the
three-seat train the confirmed sum is `b = 1`, within `0 ≤ b ≤ total_seats`. The
next request, for three passengers, reads the sum as the string `"1"` and is
given the seat labels S11 and S12, returned and stored on its first two
passenger rows: the counter values 11 and 12 are above `total_seats = 3`, and
no label issued is `"S" ++ k` with `b + 1 ≤ k ≤ total_seats`. -/
theorem C30_seat_number_beyond_train :
    (bookedOnce.selectTrain 1).head? = some train3 ∧
    bookedOnce.bookedSeats 1 "2025-01-01" = 1 ∧
    train3.total_seats = 3 ∧
    (createBooking bookedOnce quietEnv 8 (request 3)).2.body?.map (fun r => r.seatNumbers)
      = some ["S" ++ toString 11, "S" ++ toString 12] ∧
    ((createBooking bookedOnce quietEnv 8 (request 3)).1.passengers.filter
        (fun p => decide (p.booking_id = 2))).map (fun p => p.seat_number)
      = [some ("S" ++ toString 11), some ("S" ++ toString 12), none] ∧
    ∀ k : Nat, k ≤ train3.total_seats → bookedOnce.bookedSeats 1 "2025-01-01" + 1 ≤ k →
      "S" ++ toString k ∉ ["S" ++ toString 11, "S" ++ toString 12] := by
  refine ⟨by decide, by decide, by decide, by decide, by decide, by decide⟩

/-- Appending a row that is not confirmed, after a seat-number update, leaves
the answer of every `SUM` query as it was. -/
theorem sumConfirmed_of_append (s s' : Store) (bookingId : Nat) (seats : List String)
    (row : Booking)
    (hb : s'.bookings = s.bookings.map (setSeats bookingId seats) ++ [row])
    (hrow : row.status ≠ BookingStatus.confirmed) (tid : Nat) (d : String) :
    s'.sumConfirmed tid d = s.sumConfirmed tid d := by
  have hrows : s'.confirmedRows tid d
      = (s.confirmedRows tid d).map (setSeats bookingId seats) := by
    unfold Store.confirmedRows
    rw [hb, List.filter_append, List.filter_map]
    have hlast : List.filter (fun b : Booking =>
        decide (b.train_id = tid) && decide (b.journey_date = d)
          && decide (b.status = BookingStatus.confirmed)) [row] = [] := by
      simp [List.filter_cons, hrow]
    rw [hlast, List.append_nil]
    congr 1
    apply List.filter_congr
    intro b _
    unfold setSeats
    by_cases h : b.id = bookingId
    · simp [Function.comp, h]
    · simp [Function.comp, h]
  unfold Store.sumConfirmed
  rw [hrows]
  cases h : s.confirmedRows tid d with
  | nil => rfl
  | cons b rest =>
    simp only [List.map_cons, List.map_map, List.sum_cons, Option.some.injEq]
    have h1 : (setSeats bookingId seats b).total_passengers = b.total_passengers := by
      unfold setSeats; split <;> rfl
    have h2 : (fun b : Booking => b.total_passengers) ∘ setSeats bookingId seats
        = fun b : Booking => b.total_passengers := by
      funext x
      simp only [Function.comp]
      unfold setSeats; split <;> rfl
    rw [h1, h2]

/-- C28: a `createBooking` for more passengers than there are seats left is
stored waiting and leaves every confirmed sum and every availability answer as
it was, also when some of its passengers were given seats; the counter start of
the next `createBooking` for any train and date is the same after the call as
before it, and the seat numbers the next request for that train and date is
given are counted from the counter start before both calls. -/
theorem C28_waiting_booking_consumes_nothing (s : Store) (env : Env) (userId trainId : Nat)
    (date : String) (ps : List PassengerInput) (train : Train)
    (htid : trainId ≠ 0) (hdate : date ≠ "") (hps : ps ≠ [])
    (htrain : (s.selectTrain trainId).head? = some train) (hf : env.failAt = none)
    (hwait : (train.total_seats : Int) - (s.bookedSeats trainId date : Int)
      < (ps.length : Int)) :
    (∃ res, (createBooking s env userId (validRequest trainId date ps)).2
        = Response.success 201 res ∧ res.status = BookingStatus.waiting ∧
      (res.seatNumbers.length : Int)
        = max 0 ((train.total_seats : Int) - (s.bookedSeats trainId date : Int))) ∧
    (∀ (tid : Nat) (d : String),
      (createBooking s env userId (validRequest trainId date ps)).1.bookedSeats tid d
        = s.bookedSeats tid d) ∧
    (∀ (tid : Nat) (d : Option String),
      availability (createBooking s env userId (validRequest trainId date ps)).1 none tid d
        = availability s none tid d) ∧
    (∀ (tid : Nat) (d : String),
      (createBooking s env userId (validRequest trainId date ps)).1.seatStart tid d
        = s.seatStart tid d) ∧
    (∀ (env' : Env) (userId' : Nat) (ps' : List PassengerInput),
      ps' ≠ [] → env'.failAt = none →
      ∃ res', (createBooking (createBooking s env userId (validRequest trainId date ps)).1
          env' userId' (validRequest trainId date ps')).2 = Response.success 201 res' ∧
        res'.seatNumbers
          = (List.range (min ps'.length ((train.total_seats : Int)
                - (s.bookedSeats trainId date : Int)).toNat)).map
              (fun j => "S" ++ toString (s.seatStart trainId date + j))) := by
  obtain ⟨h2, _, hbk, _⟩ := createBooking_spec s env userId trainId date ps train htid hdate
    hps htrain (failAt_none_ne env hf _)
  have hsum : ∀ (tid : Nat) (d : String),
      (createBooking s env userId (validRequest trainId date ps)).1.bookedSeats tid d
        = s.bookedSeats tid d := by
    intro tid d
    rw [bookedSeats_after_success s env userId trainId date ps train htid hdate hps htrain
      (failAt_none_ne env hf _), contribution_bookingRow, if_neg, Nat.add_zero]
    rintro ⟨_, _, hle⟩
    simp only [Store.seatsLeft] at hle
    omega
  have hstart : ∀ (tid : Nat) (d : String),
      (createBooking s env userId (validRequest trainId date ps)).1.seatStart tid d
        = s.seatStart tid d := by
    intro tid d
    unfold Store.seatStart
    rw [sumConfirmed_of_append s _ _ _ _ hbk _ tid d]
    simp only [bookingRow, aggregateStatus]
    rw [if_neg (by omega)]
    decide
  have hsel := selectTrain_createBooking s env userId (validRequest trainId date ps) trainId
  refine ⟨⟨_, h2, ?_, ?_⟩, hsum, ?_, hstart, ?_⟩
  · simp only [bookingResult, aggregateStatus, Store.seatsLeft]
    rw [if_neg (by omega)]
  · simp only [bookingResult, issuedSeats_length, Store.seatsLeft]
    omega
  · intro tid d
    exact availability_congr_at _ _ tid d (createBooking_trains _ _ _ _)
      (fun d' _ => hsum tid d')
  · intro env' userId' ps' hps' hf'
    obtain ⟨h2', _, _, _⟩ := createBooking_spec
      (createBooking s env userId (validRequest trainId date ps)).1 env' userId' trainId date
      ps' train htid hdate hps' (by rw [hsel]; exact htrain) (failAt_none_ne env' hf' _)
    refine ⟨_, h2', ?_⟩
    simp only [bookingResult, issuedSeats, seatRange_eq_map_range, Store.seatsLeft, hsum,
      hstart]

theorem C28_waiting_booking_consumes_nothing_witness :
    (∃ res, (createBooking (emptyStore [train2]) quietEnv 7
          (validRequest 1 "2025-01-01" [traveller, traveller, traveller])).2
        = Response.success 201 res ∧ res.status = BookingStatus.waiting ∧
      (res.seatNumbers.length : Int)
        = max 0 ((train2.total_seats : Int)
            - ((emptyStore [train2]).bookedSeats 1 "2025-01-01" : Int))) ∧
    (∀ (tid : Nat) (d : String),
      (createBooking (emptyStore [train2]) quietEnv 7
          (validRequest 1 "2025-01-01" [traveller, traveller, traveller])).1.bookedSeats tid d
        = (emptyStore [train2]).bookedSeats tid d) ∧
    (∀ (tid : Nat) (d : String),
      (createBooking (emptyStore [train2]) quietEnv 7
          (validRequest 1 "2025-01-01" [traveller, traveller, traveller])).1.seatStart tid d
        = (emptyStore [train2]).seatStart tid d) :=
  ⟨(C28_waiting_booking_consumes_nothing (emptyStore [train2]) quietEnv 7 1 "2025-01-01"
      [traveller, traveller, traveller] train2 (by decide) (by decide) (by decide) (by decide)
      rfl (by decide)).1,
   (C28_waiting_booking_consumes_nothing (emptyStore [train2]) quietEnv 7 1 "2025-01-01"
      [traveller, traveller, traveller] train2 (by decide) (by decide) (by decide) (by decide)
      rfl (by decide)).2.1,
   (C28_waiting_booking_consumes_nothing (emptyStore [train2]) quietEnv 7 1 "2025-01-01"
      [traveller, traveller, traveller] train2 (by decide) (by decide) (by decide) (by decide)
      rfl (by decide)).2.2.2.1⟩

/-! ## Claims about status transitions and capacity -/

theorem cancel_store_cases (s : Store) (failAt : Option Nat) (userId bookingId : Nat) :
    (cancel s failAt userId bookingId).1 = s ∨
    (cancel s failAt userId bookingId).1 = s.setCancelled bookingId := by
  unfold cancel
  by_cases h0 : failAt = some 0
  · left; rw [if_pos h0]
  · rw [if_neg h0]
    cases s.selectOwned bookingId userId with
    | nil => left; rfl
    | cons x rest =>
      by_cases h1 : failAt = some 1
      · left; simp only [h1, if_true]
      · right; simp only [h1, if_false]

/-- C22 (counterexample): the owner of a waiting booking cancels it; the call
succeeds and the status goes from waiting to cancelled. -/
theorem C22_waiting_booking_cancelled :
    (cancel fullTrain none 8 2).2 = Response.success 200 () ∧
    fullTrain.bookings.map (fun b => (b.id, b.status))
      = [(1, BookingStatus.confirmed), (2, BookingStatus.waiting)] ∧
    (cancel fullTrain none 8 2).1.bookings.map (fun b => (b.id, b.status))
      = [(1, BookingStatus.confirmed), (2, BookingStatus.cancelled)] := by
  refine ⟨by decide, by decide, by decide⟩

/-- C22 (amended): whenever a `cancel` call changes the status of a booking row,
the row has the id given, its status before the call was confirmed or waiting,
and its status after the call is cancelled. -/
theorem C22_cancel_transitions (s : Store) (failAt : Option Nat) (userId bookingId : Nat)
    (i : Nat) (b b' : Booking)
    (hb : s.bookings[i]? = some b)
    (hb' : (cancel s failAt userId bookingId).1.bookings[i]? = some b')
    (hchange : b'.status ≠ b.status) :
    b.id = bookingId ∧
    (b.status = BookingStatus.confirmed ∨ b.status = BookingStatus.waiting) ∧
    b'.status = BookingStatus.cancelled := by
  rcases cancel_store_cases s failAt userId bookingId with h | h
  · rw [h, hb] at hb'
    simp only [Option.some.injEq] at hb'
    subst hb'
    exact absurd rfl hchange
  · rw [h, setCancelled_bookings, List.getElem?_map, hb] at hb'
    simp only [Option.map_some', Option.some.injEq] at hb'
    subst hb'
    by_cases hid : b.id = bookingId
    · have hst : (cancelRow bookingId b).status = BookingStatus.cancelled := by
        simp [cancelRow, hid]
      refine ⟨hid, ?_, hst⟩
      rw [hst] at hchange
      cases hs : b.status with
      | confirmed => exact Or.inl rfl
      | waiting => exact Or.inr rfl
      | cancelled => rw [hs] at hchange; exact absurd rfl hchange
    · have : cancelRow bookingId b = b := by simp [cancelRow, hid]
      rw [this] at hchange
      exact absurd rfl hchange

theorem C22_cancel_transitions_witness :
    secondBooking.id = 2 ∧
    (secondBooking.status = BookingStatus.confirmed ∨
      secondBooking.status = BookingStatus.waiting) ∧
    ({ secondBooking with status := BookingStatus.cancelled } : Booking).status
      = BookingStatus.cancelled :=
  C22_cancel_transitions fullTrain none 8 2 1 secondBooking
    { secondBooking with status := BookingStatus.cancelled } (by decide) (by decide)
    (by decide)

theorem contribution_cancelRow_le (trainId : Nat) (date : String) (bookingId : Nat)
    (b : Booking) :
    contribution trainId date (cancelRow bookingId b) ≤ contribution trainId date b := by
  rw [contribution_cancelRow]
  by_cases h : b.id = bookingId
  · rw [if_pos h]; exact Nat.zero_le _
  · rw [if_neg h]

theorem bookedSeats_setCancelled_le (s : Store) (bookingId trainId : Nat) (date : String) :
    (s.setCancelled bookingId).bookedSeats trainId date ≤ s.bookedSeats trainId date := by
  rw [bookedSeats_eq_contributions, bookedSeats_eq_contributions, setCancelled_bookings]
  induction s.bookings with
  | nil => exact Nat.le_refl _
  | cons b rest ih =>
    simp only [List.map_cons, List.sum_cons]
    exact Nat.add_le_add (contribution_cancelRow_le _ _ _ _) ih

theorem capacityRespected_createBooking (s : Store) (env : Env) (userId : Nat)
    (req : BookingRequest) (h : CapacityRespected s) :
    CapacityRespected (createBooking s env userId req).1 := by
  intro tid d train htrain
  rw [selectTrain_createBooking] at htrain
  have hcap := h tid d train htrain
  rcases bookedSeats_createBooking s env userId req tid d with
    hsame | ⟨trainId, date, ps, train', _, _, _, _, htrain', hsum⟩
  · rw [hsame]; exact hcap
  · rw [hsum, contribution_bookingRow]
    by_cases hc : trainId = tid ∧ date = d ∧ (ps.length : Int) ≤ s.seatsLeft train' trainId date
    · rw [if_pos hc]
      obtain ⟨e1, e2, hle⟩ := hc
      subst e1 e2
      rw [htrain] at htrain'
      simp only [Option.some.injEq] at htrain'
      subst htrain'
      simp only [Store.seatsLeft] at hle
      omega
    · rw [if_neg hc]; exact hcap

theorem capacityRespected_cancel (s : Store) (failAt : Option Nat) (userId bookingId : Nat)
    (h : CapacityRespected s) :
    CapacityRespected (cancel s failAt userId bookingId).1 := by
  rcases cancel_store_cases s failAt userId bookingId with hs | hs
  · rw [hs]; exact h
  · rw [hs]
    intro tid d train htrain
    have hcap := h tid d train htrain
    exact Nat.le_trans (bookedSeats_setCancelled_le s bookingId tid d) hcap

theorem capacityRespected_run (ops : List Op) :
    ∀ s : Store, CapacityRespected s → CapacityRespected (run s ops) := by
  induction ops with
  | nil => intro s h; exact h
  | cons op rest ih =>
    intro s h
    have hstep : CapacityRespected (step s op) := by
      cases op with
      | create env userId req => exact capacityRespected_createBooking s env userId req h
      | cancel userId bookingId => exact capacityRespected_cancel s none userId bookingId h
    exact ih (step s op) hstep

theorem capacityRespected_emptyStore (trains : List Train) :
    CapacityRespected (emptyStore trains) := by
  intro tid d train _
  rw [bookedSeats_eq_zero (emptyStore trains) tid d (by intro b hb; simp [emptyStore] at hb)]
  exact Nat.zero_le _

/-- C26: if before a `createBooking` or `cancel` call (failing or not) the
confirmed sum of every train and date is at most the train's `total_seats`, the
same holds after it; hence it holds after every sequence of calls made one at a
time from a store with no booking. -/
theorem C26_capacity_never_oversold :
    (∀ (s : Store), CapacityRespected s →
      (∀ (env : Env) (userId : Nat) (req : BookingRequest),
        CapacityRespected (createBooking s env userId req).1) ∧
      (∀ (failAt : Option Nat) (userId bookingId : Nat),
        CapacityRespected (cancel s failAt userId bookingId).1)) ∧
    (∀ (trains : List Train) (ops : List Op) (trainId : Nat) (date : String) (train : Train),
      ((run (emptyStore trains) ops).selectTrain trainId).head? = some train →
      (((run (emptyStore trains) ops).confirmedRows trainId date).map
        (fun b => b.total_passengers)).sum ≤ train.total_seats) := by
  constructor
  · intro s h
    exact ⟨fun env userId req => capacityRespected_createBooking s env userId req h,
      fun failAt userId bookingId => capacityRespected_cancel s failAt userId bookingId h⟩
  · intro trains ops trainId date train htrain
    rw [← bookedSeats_eq_sum]
    exact capacityRespected_run ops _ (capacityRespected_emptyStore trains) trainId date train
      htrain

/-! ## The rows after any call -/

theorem map_setSeats_of_absent (bookingId : Nat) (seats : List String) (l : List Booking)
    (h : ∀ b ∈ l, b.id ≠ bookingId) : l.map (setSeats bookingId seats) = l := by
  induction l with
  | nil => rfl
  | cons b rest ih =>
    have hb : b.id ≠ bookingId := h b (List.mem_cons_self _ _)
    have hrest : ∀ x ∈ rest, x.id ≠ bookingId := fun x hx => h x (List.mem_cons_of_mem _ hx)
    simp [setSeats, hb, ih hrest]

/-- The store after a `createBooking`, whatever its outcome, when the ids in the
table are below the next auto-increment value: either the store given, or that
store with one booking row appended (the row inserted, with or without its seat
list) and the rows of the first `m` passengers appended. -/
theorem createBooking_shape (s : Store) (env : Env) (userId : Nat) (req : BookingRequest)
    (hids : IdsBelowNext s) :
    (createBooking s env userId req).1 = s ∨
    ∃ trainId date ps train m x,
      req = validRequest trainId date ps ∧ trainId ≠ 0 ∧ date ≠ "" ∧ ps ≠ [] ∧
      (s.selectTrain trainId).head? = some train ∧ m ≤ ps.length ∧
      (x = bookingRow s env userId trainId date ps train ∨
        (m = ps.length ∧
          (createBooking s env userId req).2
            = Response.success 201 (bookingResult s env trainId date ps train) ∧
          x = { bookingRow s env userId trainId date ps train with
                seat_numbers := some (issuedSeats s train trainId date ps.length) })) ∧
      (createBooking s env userId req).1.trains = s.trains ∧
      (createBooking s env userId req).1.bookings = s.bookings ++ [x] ∧
      (createBooking s env userId req).1.passengers
        = s.passengers ++ newRows s train trainId date (ps.take m) ∧
      (createBooking s env userId req).1.nextBookingId = s.nextBookingId + 1 ∧
      (createBooking s env userId req).1.nextPassengerId = s.nextPassengerId + m := by
  rcases createBooking_cases s env userId req with
    h | ⟨trainId, date, ps, train, hreq, htid, hdate, hps, htrain, h⟩
  · exact Or.inl h
  · rcases bookOnTrain_cases s env userId trainId date ps train with hb | ⟨m, hm, hb⟩ | hb
    · left; rw [h, hb]
    · right
      refine ⟨trainId, date, ps, train, m, bookingRow s env userId trainId date ps train,
        hreq, htid, hdate, hps, htrain, hm, Or.inl rfl, ?_⟩
      rw [h, hb]
      exact ⟨rfl, rfl, by simp [partialStore, newRows], rfl, rfl⟩
    · right
      refine ⟨trainId, date, ps, train, ps.length, _, hreq, htid, hdate, hps, htrain,
        le_refl _, Or.inr ⟨rfl, by rw [h, hb], rfl⟩, ?_⟩
      rw [h, hb]
      refine ⟨rfl, ?_, by simp [partialStore, newRows, Store.updateSeatNumbers], rfl, rfl⟩
      rw [updateSeatNumbers_partialStore_bookings,
        map_setSeats_of_absent _ _ _ (fun b hb => Nat.ne_of_lt (hids b hb))]

theorem idsBelowNext_createBooking (s : Store) (env : Env) (userId : Nat)
    (req : BookingRequest) (hids : IdsBelowNext s) :
    IdsBelowNext (createBooking s env userId req).1 := by
  rcases createBooking_shape s env userId req hids with
    h | ⟨trainId, date, ps, train, m, x, _, _, _, _, _, _, hx, _, hb, _, hn, _⟩
  · rw [h]; exact hids
  · intro b hbm
    rw [hb] at hbm
    rw [hn]
    rcases List.mem_append.mp hbm with hold | hnew
    · exact Nat.lt_succ_of_lt (hids b hold)
    · simp only [List.mem_singleton] at hnew
      subst hnew
      rcases hx with hx | ⟨_, _, hx⟩ <;> rw [hx] <;> exact Nat.lt_succ_self _

theorem idsBelowNext_cancel (s : Store) (failAt : Option Nat) (userId bookingId : Nat)
    (hids : IdsBelowNext s) :
    IdsBelowNext (cancel s failAt userId bookingId).1 := by
  rcases cancel_store_cases s failAt userId bookingId with h | h
  · rw [h]; exact hids
  · rw [h]
    intro b hb
    rw [setCancelled_bookings] at hb
    obtain ⟨b0, hb0, rfl⟩ := List.mem_map.mp hb
    have : (cancelRow bookingId b0).id = b0.id := by
      by_cases hid : b0.id = bookingId <;> simp [cancelRow, hid]
    rw [this]
    exact hids b0 hb0

theorem rowsKept_refl (s : Store) : RowsKept s s :=
  ⟨fun _ _ h => h, fun _ b h => ⟨b, h, rfl, Or.inl rfl⟩⟩

theorem rowsKept_trans (s₁ s₂ s₃ : Store) (h₁ : RowsKept s₁ s₂) (h₂ : RowsKept s₂ s₃) :
    RowsKept s₁ s₃ := by
  refine ⟨fun i p hp => h₂.1 i p (h₁.1 i p hp), ?_⟩
  intro i b hb
  obtain ⟨b', hb', heq', hst'⟩ := h₁.2 i b hb
  obtain ⟨b'', hb'', heq'', hst''⟩ := h₂.2 i b' hb'
  refine ⟨b'', hb'', ?_, ?_⟩
  · rw [heq'', heq']
  · rcases hst'' with h | h
    · rcases hst' with h' | h'
      · left; rw [h, h']
      · right; rw [h, h']
    · right; exact h

theorem rowsKept_createBooking (s : Store) (env : Env) (userId : Nat) (req : BookingRequest)
    (hids : IdsBelowNext s) : RowsKept s (createBooking s env userId req).1 := by
  rcases createBooking_shape s env userId req hids with
    h | ⟨trainId, date, ps, train, m, x, _, _, _, _, _, _, _, _, hb, hp, _, _⟩
  · rw [h]; exact rowsKept_refl s
  · constructor
    · intro i p hi
      rw [hp, List.getElem?_append_left (List.getElem?_eq_some_iff.mp hi).1]
      exact hi
    · intro i b hi
      refine ⟨b, ?_, rfl, Or.inl rfl⟩
      rw [hb, List.getElem?_append_left (List.getElem?_eq_some_iff.mp hi).1]
      exact hi

theorem rowsKept_cancel (s : Store) (failAt : Option Nat) (userId bookingId : Nat) :
    RowsKept s (cancel s failAt userId bookingId).1 := by
  rcases cancel_store_cases s failAt userId bookingId with h | h
  · rw [h]; exact rowsKept_refl s
  · rw [h]
    refine ⟨fun _ _ hp => hp, ?_⟩
    intro i b hi
    refine ⟨cancelRow bookingId b, by simp [setCancelled_bookings, hi], ?_, ?_⟩
    · by_cases hid : b.id = bookingId <;> simp [cancelRow, hid]
    · by_cases hid : b.id = bookingId <;> simp [cancelRow, hid]

theorem rowsKept_run (ops : List Op) :
    ∀ s : Store, IdsBelowNext s → IdsBelowNext (run s ops) ∧ RowsKept s (run s ops) := by
  induction ops with
  | nil => intro s h; exact ⟨h, rowsKept_refl s⟩
  | cons op rest ih =>
    intro s h
    have hstep : IdsBelowNext (step s op) ∧ RowsKept s (step s op) := by
      cases op with
      | create env userId req =>
        exact ⟨idsBelowNext_createBooking s env userId req h,
          rowsKept_createBooking s env userId req h⟩
      | cancel userId bookingId =>
        exact ⟨idsBelowNext_cancel s none userId bookingId h,
          rowsKept_cancel s none userId bookingId⟩
    obtain ⟨h1, h2⟩ := ih (step s op) hstep.1
    exact ⟨h1, rowsKept_trans _ _ _ hstep.2 h2⟩

/-- C25: in a store whose booking ids are below the next auto-increment value,
`createBooking` (failing or not) only appends rows: the booking and passenger
rows present before are the first rows after, unchanged. After any sequence of
`createBooking` and `cancel` calls every passenger row is still in its place
unchanged and every booking row is still in its place with all fields but the
status unchanged; its status is the one before or cancelled, so a waiting
booking is never confirmed and a cancelled one stays cancelled. -/
theorem C25_existing_rows_kept (s : Store) (hids : ∀ b ∈ s.bookings, b.id < s.nextBookingId) :
    (∀ (env : Env) (userId : Nat) (req : BookingRequest),
      ∃ newBookings newPassengers,
        (createBooking s env userId req).1.bookings = s.bookings ++ newBookings ∧
        (createBooking s env userId req).1.passengers = s.passengers ++ newPassengers) ∧
    (∀ ops : List Op,
      (∀ (i : Nat) (p : Passenger), s.passengers[i]? = some p →
        (run s ops).passengers[i]? = some p) ∧
      (∀ (i : Nat) (b : Booking), s.bookings[i]? = some b →
        ∃ b' : Booking, (run s ops).bookings[i]? = some b' ∧
          b' = { b with status := b'.status } ∧
          (b'.status = b.status ∨ b'.status = BookingStatus.cancelled) ∧
          (b.status = BookingStatus.waiting → b'.status ≠ BookingStatus.confirmed) ∧
          (b.status = BookingStatus.cancelled → b'.status = BookingStatus.cancelled))) := by
  constructor
  · intro env userId req
    rcases createBooking_shape s env userId req hids with
      h | ⟨trainId, date, ps, train, m, x, _, _, _, _, _, _, _, _, hb, hp, _, _⟩
    · exact ⟨[], [], by rw [h]; simp, by rw [h]; simp⟩
    · exact ⟨[x], _, hb, hp⟩
  · intro ops
    obtain ⟨_, hp, hb⟩ := rowsKept_run ops s hids
    refine ⟨hp, ?_⟩
    intro i b hi
    obtain ⟨b', hb', heq, hst⟩ := hb i b hi
    refine ⟨b', hb', heq, hst, ?_, ?_⟩
    · intro hw hc
      rcases hst with h | h
      · rw [h, hw] at hc; exact absurd hc (by decide)
      · rw [h] at hc; exact absurd hc (by decide)
    · intro hc
      rcases hst with h | h
      · rw [h, hc]
      · exact h

theorem C25_existing_rows_kept_witness :
    (∀ (env : Env) (userId : Nat) (req : BookingRequest),
      ∃ newBookings newPassengers,
        (createBooking fullTrain env userId req).1.bookings
          = fullTrain.bookings ++ newBookings ∧
        (createBooking fullTrain env userId req).1.passengers
          = fullTrain.passengers ++ newPassengers) ∧
    (∀ ops : List Op,
      (∀ (i : Nat) (p : Passenger), fullTrain.passengers[i]? = some p →
        (run fullTrain ops).passengers[i]? = some p) ∧
      (∀ (i : Nat) (b : Booking), fullTrain.bookings[i]? = some b →
        ∃ b' : Booking, (run fullTrain ops).bookings[i]? = some b' ∧
          b' = { b with status := b'.status } ∧
          (b'.status = b.status ∨ b'.status = BookingStatus.cancelled) ∧
          (b.status = BookingStatus.waiting → b'.status ≠ BookingStatus.confirmed) ∧
          (b.status = BookingStatus.cancelled → b'.status = BookingStatus.cancelled))) :=
  C25_existing_rows_kept fullTrain (by decide)

/-! ## Passenger counts -/

theorem newRows_booking_id (s : Store) (train : Train) (trainId : Nat) (date : String)
    (ps : List PassengerInput) :
    ∀ p ∈ newRows s train trainId date ps, p.booking_id = s.nextBookingId := by
  intro p hp
  obtain ⟨j, hj⟩ := List.mem_iff_getElem?.mp hp
  obtain ⟨_, _, _, _, hbid, _⟩ := newRows_row _ _ _ _ _ _ _ hj
  exact hbid

theorem passengerCount_append (s s' : Store) (rows : List Passenger) (bookingId : Nat)
    (h : s'.passengers = s.passengers ++ rows) :
    s'.passengerCount bookingId
      = s.passengerCount bookingId
        + (rows.filter (fun p => decide (p.booking_id = bookingId))).length := by
  simp [Store.passengerCount, h]

theorem passengerCount_eq_zero (s : Store) (bookingId : Nat)
    (h : ∀ p ∈ s.passengers, p.booking_id ≠ bookingId) : s.passengerCount bookingId = 0 := by
  simp only [Store.passengerCount, List.length_eq_zero, List.filter_eq_nil_iff,
    decide_eq_true_eq]
  exact h

/-- A successful `createBooking` on a store with matching counts: the new row is
the last one, it carries the id returned and the length of the passenger list,
exactly that many passenger rows reference it, and the counts still match. -/
theorem countsMatch_createBooking (s s' : Store) (env : Env) (userId : Nat)
    (req : BookingRequest) (code : Nat) (res : BookingResult) (hinv : CountsMatch s)
    (hsucc : createBooking s env userId req = (s', Response.success code res)) :
    CountsMatch s' ∧
    ∃ trainId date ps row,
      req = validRequest trainId date ps ∧ s'.bookings.getLast? = some row ∧
      row.id = res.bookingId ∧ row.total_passengers = ps.length ∧
      s'.passengerCount res.bookingId = ps.length := by
  obtain ⟨hpid, hbid, hcount⟩ := hinv
  obtain ⟨trainId, date, ps, train, hreq, htid, hdate, hps, htrain, hf⟩ :=
    createBooking_success_inv s s' env userId req code res hsucc
  obtain ⟨_, _, _, _, hres, _, hb, hp⟩ :=
    createBooking_success_spec s s' env userId req code res trainId date ps train hsucc hreq
      htrain
  have hnext : s'.nextBookingId = s.nextBookingId + 1 := by
    have := createBooking_ok s env userId trainId date ps train htid hdate hps htrain hf
    rw [← hreq, hsucc] at this
    rw [(Prod.mk.inj this).1]
    rfl
  subst hres
  have hmap : s.bookings.map
      (setSeats s.nextBookingId (issuedSeats s train trainId date ps.length)) = s.bookings :=
    map_setSeats_of_absent _ _ _ (fun b hb => Nat.ne_of_lt (hbid b hb))
  rw [hmap] at hb
  have hnew : ∀ id, (newRows s train trainId date ps).filter
      (fun p => decide (p.booking_id = id))
      = if id = s.nextBookingId then newRows s train trainId date ps else [] := by
    intro id
    by_cases hid : id = s.nextBookingId
    · rw [if_pos hid, List.filter_eq_self]
      intro p hp
      simp [newRows_booking_id s train trainId date ps p hp, hid]
    · rw [if_neg hid, List.filter_eq_nil_iff]
      intro p hp
      simp only [decide_eq_true_eq]
      rw [newRows_booking_id s train trainId date ps p hp]
      exact fun e => hid e.symm
  have hcnt : ∀ id, s'.passengerCount id
      = s.passengerCount id + (if id = s.nextBookingId then ps.length else 0) := by
    intro id
    rw [passengerCount_append s s' _ id hp, hnew]
    by_cases hid : id = s.nextBookingId
    · rw [if_pos hid, if_pos hid, newRows_length]
    · rw [if_neg hid, if_neg hid]; rfl
  have hzero : s.passengerCount s.nextBookingId = 0 :=
    passengerCount_eq_zero s _ (fun p hp => Nat.ne_of_lt (hpid p hp))
  refine ⟨⟨?_, ?_, ?_⟩, trainId, date, ps,
    { bookingRow s env userId trainId date ps train with
      seat_numbers := some (issuedSeats s train trainId date ps.length) },
    hreq, by rw [hb]; simp, rfl, rfl, ?_⟩
  · intro p hpm
    rw [hp] at hpm
    rw [hnext]
    rcases List.mem_append.mp hpm with hold | hnewp
    · exact Nat.lt_succ_of_lt (hpid p hold)
    · rw [newRows_booking_id s train trainId date ps p hnewp]
      exact Nat.lt_succ_self _
  · intro b hbm
    rw [hb] at hbm
    rw [hnext]
    rcases List.mem_append.mp hbm with hold | hnewb
    · exact Nat.lt_succ_of_lt (hbid b hold)
    · simp only [List.mem_singleton] at hnewb
      rw [hnewb]
      exact Nat.lt_succ_self _
  · intro b hbm
    rw [hb] at hbm
    rw [hcnt]
    rcases List.mem_append.mp hbm with hold | hnewb
    · rw [if_neg (Nat.ne_of_lt (hbid b hold)), Nat.add_zero]
      exact hcount b hold
    · simp only [List.mem_singleton] at hnewb
      rw [hnewb]
      simp only [bookingRow, if_true]
      rw [hzero, Nat.zero_add]
  · simp only [bookingResult]
    rw [hcnt, if_pos rfl, hzero, Nat.zero_add]

theorem countsMatch_cancel (s : Store) (failAt : Option Nat) (userId bookingId : Nat)
    (hinv : CountsMatch s) : CountsMatch (cancel s failAt userId bookingId).1 := by
  rcases cancel_store_cases s failAt userId bookingId with h | h
  · rw [h]; exact hinv
  · rw [h]
    obtain ⟨hpid, hbid, hcount⟩ := hinv
    have hfield : ∀ b0 : Booking, (cancelRow bookingId b0).id = b0.id ∧
        (cancelRow bookingId b0).total_passengers = b0.total_passengers := by
      intro b0
      by_cases hid : b0.id = bookingId <;> simp [cancelRow, hid]
    refine ⟨hpid, ?_, ?_⟩
    · intro b hb
      rw [setCancelled_bookings] at hb
      obtain ⟨b0, hb0, rfl⟩ := List.mem_map.mp hb
      rw [(hfield b0).1]
      exact hbid b0 hb0
    · intro b hb
      rw [setCancelled_bookings] at hb
      obtain ⟨b0, hb0, rfl⟩ := List.mem_map.mp hb
      rw [(hfield b0).1, (hfield b0).2]
      exact hcount b0 hb0

theorem countsMatch_run (ops : List Op) :
    ∀ s : Store, CountsMatch s → runSucceeds s ops = true → CountsMatch (run s ops) := by
  induction ops with
  | nil => intro s h _; exact h
  | cons op rest ih =>
    intro s h hok
    simp only [runSucceeds, Bool.and_eq_true] at hok
    obtain ⟨hop, hrest⟩ := hok
    have hstep : CountsMatch (step s op) := by
      cases op with
      | create env userId req =>
        simp only [stepSucceeds] at hop
        cases hr : (createBooking s env userId req).2 with
        | failure c m => rw [hr] at hop; simp [Response.isSuccess] at hop
        | success c res =>
          exact (countsMatch_createBooking s (createBooking s env userId req).1 env userId req
            c res h (Prod.ext rfl hr)).1
      | cancel userId bookingId => exact countsMatch_cancel s none userId bookingId h
    exact ih (step s op) hstep hrest

theorem countsMatch_emptyStore (trains : List Train) : CountsMatch (emptyStore trains) := by
  refine ⟨?_, ?_, ?_⟩ <;> intro x hx <;> simp [emptyStore] at hx

/-- C23: in every state reached from a store with no booking by `createBooking`
and `cancel` calls that all succeeded, each booking row has as many passenger
rows referencing it as its `total_passengers` says; and a further successful
`createBooking` stores, as the last booking row, a row with the id returned and
`total_passengers` equal to the length of the submitted list, referenced by
exactly that many passenger rows. -/
theorem C23_passenger_count_matches (trains : List Train) (ops : List Op)
    (hok : runSucceeds (emptyStore trains) ops = true) :
    (∀ b ∈ (run (emptyStore trains) ops).bookings,
      ((run (emptyStore trains) ops).passengers.filter
        (fun p => decide (p.booking_id = b.id))).length = b.total_passengers) ∧
    (∀ (s' : Store) (env : Env) (userId : Nat) (req : BookingRequest) (code : Nat)
        (res : BookingResult),
      createBooking (run (emptyStore trains) ops) env userId req
        = (s', Response.success code res) →
      ∃ trainId date ps row,
        req = validRequest trainId date ps ∧ s'.bookings.getLast? = some row ∧
        row.id = res.bookingId ∧ row.total_passengers = ps.length ∧
        (s'.passengers.filter (fun p => decide (p.booking_id = res.bookingId))).length
          = ps.length) := by
  have hinv := countsMatch_run ops (emptyStore trains) (countsMatch_emptyStore trains) hok
  refine ⟨hinv.2.2, ?_⟩
  intro s' env userId req code res hsucc
  exact (countsMatch_createBooking _ s' env userId req code res hinv hsucc).2

theorem C23_passenger_count_matches_witness :
    (∀ b ∈ (run (emptyStore [train3])
        [Op.create quietEnv 7 (request 2), Op.create quietEnv 8 (request 2),
          Op.cancel 7 1]).bookings,
      ((run (emptyStore [train3])
        [Op.create quietEnv 7 (request 2), Op.create quietEnv 8 (request 2),
          Op.cancel 7 1]).passengers.filter
        (fun p => decide (p.booking_id = b.id))).length = b.total_passengers) ∧
    (∀ (s' : Store) (env : Env) (userId : Nat) (req : BookingRequest) (code : Nat)
        (res : BookingResult),
      createBooking (run (emptyStore [train3])
        [Op.create quietEnv 7 (request 2), Op.create quietEnv 8 (request 2),
          Op.cancel 7 1]) env userId req
        = (s', Response.success code res) →
      ∃ trainId date ps row,
        req = validRequest trainId date ps ∧ s'.bookings.getLast? = some row ∧
        row.id = res.bookingId ∧ row.total_passengers = ps.length ∧
        (s'.passengers.filter (fun p => decide (p.booking_id = res.bookingId))).length
          = ps.length) :=
  C23_passenger_count_matches [train3]
    [Op.create quietEnv 7 (request 2), Op.create quietEnv 8 (request 2), Op.cancel 7 1]
    (by decide)

/-! ## Seat ranges without cancellation -/

/-- C27: the code at the failing input. On the five-seat train with no booking,
a request for two passengers and then a request for three, one call at a time
and no cancellation: both bookings are confirmed, the first holds S1 and S2, and
the second, created after confirmed bookings of 2 passengers in total, reads the
sum as the string `"2"`, starts its counter at `"2" + 1 = "21"` and holds S21,
S22 and S23, not the labels S3, S4, S5 of a range that starts at `1 + 2`. The two
seat lists have no label in common. -/
theorem C27_second_range_not_consecutive :
    (run (emptyStore [train5])
        [Op.create quietEnv 7 (request 2), Op.create quietEnv 8 (request 3)]).bookings.map
        (fun b => (b.id, b.status, b.total_passengers, b.seat_numbers))
      = [(1, BookingStatus.confirmed, 2, some ["S1", "S2"]),
         (2, BookingStatus.confirmed, 3, some ["S21", "S22", "S23"])] ∧
    (run (emptyStore [train5])
        [Op.create quietEnv 7 (request 2), Op.create quietEnv 8 (request 3)]).confirmedBefore
        1 1 "2025-01-01" = 2 ∧
    (List.range 3).map (fun j => "S" ++ toString (2 + 1 + j)) = ["S3", "S4", "S5"] ∧
    ¬ SeatRangesConsecutive (run (emptyStore [train5])
        [Op.create quietEnv 7 (request 2), Op.create quietEnv 8 (request 3)]) ∧
    SeatsUnique (run (emptyStore [train5])
        [Op.create quietEnv 7 (request 2), Op.create quietEnv 8 (request 3)]) := by
  refine ⟨by decide, by decide, by decide, ?_, by decide⟩
  intro h
  have h1 := h 1
    { id := 2, pnr_number := "PNR17000000000007", user_id := 8, train_id := 1,
      journey_date := "2025-01-01", total_passengers := 3,
      total_amount := jsProduct 3 train5.fare, status := BookingStatus.confirmed,
      seat_numbers := some ["S21", "S22", "S23"], booking_date := 0 }
    (by decide) rfl
  revert h1
  decide

/-! ## Interleaved requests -/

/-- Run without interruption, the handler is `bookAfterRead` on the sum read
from the store it writes to. -/
theorem bookOnTrain_eq_bookAfterRead (s : Store) (env : Env) (userId trainId : Nat)
    (date : String) (ps : List PassengerInput) (train : Train) (h1 : env.failAt ≠ some 1) :
    bookOnTrain s env userId trainId date ps train
      = bookAfterRead s env userId trainId date ps train (s.sumConfirmed trainId date) := by
  unfold bookOnTrain bookAfterRead
  rw [if_neg h1]
  rfl

theorem createBooking_eq_bookAfterRead (s : Store) (env : Env) (userId trainId : Nat)
    (date : String) (ps : List PassengerInput) (train : Train)
    (htid : trainId ≠ 0) (hdate : date ≠ "") (hps : ps ≠ [])
    (htrain : (s.selectTrain trainId).head? = some train) (hf : env.failAt = none) :
    createBooking s env userId (validRequest trainId date ps)
      = bookAfterRead s env userId trainId date ps train (s.sumConfirmed trainId date) := by
  rw [createBooking_valid s env userId trainId date ps train htid hdate hps
    (by rw [hf]; simp) htrain]
  exact bookOnTrain_eq_bookAfterRead s env userId trainId date ps train (by rw [hf]; simp)

/-- The handler after the read, with no storage failure: the response and the
booking rows are computed from the sum that was read, whatever the store the
writes go to holds. -/
theorem bookAfterRead_ok (s : Store) (env : Env) (userId trainId : Nat) (date : String)
    (ps : List PassengerInput) (train : Train) (totalBooked : Option Nat)
    (hf : env.failAt = none) :
    (bookAfterRead s env userId trainId date ps train totalBooked).2
      = Response.success 201
          { pnrNumber := "PNR" ++ toString env.now ++ toString env.random.val,
            bookingId := s.nextBookingId,
            status := aggregateStatus
              ((train.total_seats : Int) - ((totalBooked.getD 0 : Nat) : Int)) ps.length,
            confirmedPassengers := min (ps.length : Int)
              ((train.total_seats : Int) - ((totalBooked.getD 0 : Nat) : Int)),
            waitingPassengers := max 0 ((ps.length : Int)
              - ((train.total_seats : Int) - ((totalBooked.getD 0 : Nat) : Int))),
            seatNumbers := seatRange (seatCounterStart totalBooked)
              (min ps.length
                ((train.total_seats : Int) - ((totalBooked.getD 0 : Nat) : Int)).toNat),
            totalAmount := jsProduct ps.length train.fare } ∧
    (bookAfterRead s env userId trainId date ps train totalBooked).1.bookings
      = s.bookings.map (setSeats s.nextBookingId
          (seatRange (seatCounterStart totalBooked)
            (min ps.length
              ((train.total_seats : Int) - ((totalBooked.getD 0 : Nat) : Int)).toNat))) ++
        [{ id := s.nextBookingId,
           pnr_number := "PNR" ++ toString env.now ++ toString env.random.val,
           user_id := userId, train_id := trainId, journey_date := date,
           total_passengers := ps.length,
           total_amount := jsProduct ps.length train.fare,
           status := aggregateStatus
             ((train.total_seats : Int) - ((totalBooked.getD 0 : Nat) : Int)) ps.length,
           seat_numbers := some (seatRange (seatCounterStart totalBooked)
             (min ps.length
               ((train.total_seats : Int) - ((totalBooked.getD 0 : Nat) : Int)).toNat)),
           booking_date := env.timestamp }] := by
  have h2 : env.failAt ≠ some 2 := by rw [hf]; simp
  have h3 : env.failAt ≠ some (3 + ps.length) := by rw [hf]; simp
  have hl : ∀ m, m < ps.length → env.failAt ≠ some (3 + (0 + m)) := by
    intro m _; rw [hf]; simp
  unfold bookAfterRead
  simp only [h2, h3, if_false]
  rw [addPassengers_ok _ _ _ _ _ _ _ _ hl]
  simp [Store.insertBooking, Store.updateSeatNumbers, setSeats]

/-- After a seat-number update and the insert of one row, each confirmed sum has
grown by the contribution of that row. -/
theorem bookedSeats_of_append (s s' : Store) (bookingId : Nat) (seats : List String)
    (row : Booking)
    (hb : s'.bookings = s.bookings.map (setSeats bookingId seats) ++ [row])
    (tid : Nat) (d : String) :
    s'.bookedSeats tid d = s.bookedSeats tid d + contribution tid d row := by
  rw [bookedSeats_eq_contributions, bookedSeats_eq_contributions, hb]
  simp only [List.map_append, List.map_map, List.sum_append, List.map_cons, List.map_nil,
    List.sum_cons, List.sum_nil, Nat.add_zero]
  congr 1
  congr 1
  apply List.map_congr_left
  intro b _
  exact contribution_setSeats _ _ _ _ _

/-- C24 (counterexample): two requests for one passenger each on a one-seat
train, interleaved so that both read the confirmed sum (`NULL`) before either
writes: both are answered 201 with status confirmed and seat S1, the store ends
with two confirmed bookings of the same train and date that share S1, and the
confirmed sum is 2 on a train of 1 seat. -/
theorem C24_interleaved_requests_share_seat :
    (bothReadThenWrite (emptyStore [train1]) quietEnv quietEnv 7 8 1 "2025-01-01"
        [traveller] [traveller] train1).1.body?.map (fun r => (r.status, r.seatNumbers))
      = some (BookingStatus.confirmed, ["S1"]) ∧
    (bothReadThenWrite (emptyStore [train1]) quietEnv quietEnv 7 8 1 "2025-01-01"
        [traveller] [traveller] train1).2.1.body?.map (fun r => (r.status, r.seatNumbers))
      = some (BookingStatus.confirmed, ["S1"]) ∧
    (bothReadThenWrite (emptyStore [train1]) quietEnv quietEnv 7 8 1 "2025-01-01"
        [traveller] [traveller] train1).2.2.bookings.map
        (fun b => (b.id, b.train_id, b.journey_date, b.status, b.seat_numbers))
      = [(1, 1, "2025-01-01", BookingStatus.confirmed, some ["S1"]),
         (2, 1, "2025-01-01", BookingStatus.confirmed, some ["S1"])] ∧
    (bothReadThenWrite (emptyStore [train1]) quietEnv quietEnv 7 8 1 "2025-01-01"
        [traveller] [traveller] train1).2.2.bookedSeats 1 "2025-01-01" = 2 ∧
    train1.total_seats = 1 ∧
    ¬ SeatsUnique (bothReadThenWrite (emptyStore [train1]) quietEnv quietEnv 7 8 1
        "2025-01-01" [traveller] [traveller] train1).2.2 := by
  refine ⟨by decide, by decide, by decide, by decide, by decide, by decide⟩

/-- C24 (amended): the handlers are not serialized. When two requests for the
same train and date both read the confirmed sum before either writes, the first
is answered as if it ran alone, and the second gets the status, the two counts,
the seat numbers and the amount it would get if it ran alone on the store before
both. So when a seat is left both are given the same first seat number, and when
each request alone fits the seats left both are stored confirmed and the
confirmed sum grows by both passenger counts, beyond the capacity when the two
together do not fit. -/
theorem C24_stale_read_allocates_alike (s : Store) (envA envB : Env)
    (userA userB trainId : Nat) (date : String) (psA psB : List PassengerInput)
    (train : Train)
    (htid : trainId ≠ 0) (hdate : date ≠ "") (hA : psA ≠ []) (hB : psB ≠ [])
    (htrain : (s.selectTrain trainId).head? = some train)
    (hfA : envA.failAt = none) (hfB : envB.failAt = none) :
    ∃ resA resB resB',
      (bothReadThenWrite s envA envB userA userB trainId date psA psB train).1
        = Response.success 201 resA ∧
      (bothReadThenWrite s envA envB userA userB trainId date psA psB train).2.1
        = Response.success 201 resB ∧
      (createBooking s envA userA (validRequest trainId date psA)).2
        = Response.success 201 resA ∧
      (createBooking s envB userB (validRequest trainId date psB)).2
        = Response.success 201 resB' ∧
      resB.status = resB'.status ∧
      resB.confirmedPassengers = resB'.confirmedPassengers ∧
      resB.waitingPassengers = resB'.waitingPassengers ∧
      resB.seatNumbers = resB'.seatNumbers ∧
      resB.totalAmount = resB'.totalAmount ∧
      ((0 : Int) < (train.total_seats : Int) - (s.bookedSeats trainId date : Int) →
        ∃ x, x ∈ resA.seatNumbers ∧ x ∈ resB.seatNumbers) ∧
      ((psA.length : Int) ≤ (train.total_seats : Int) - (s.bookedSeats trainId date : Int) →
        (psB.length : Int) ≤ (train.total_seats : Int) - (s.bookedSeats trainId date : Int) →
        resA.status = BookingStatus.confirmed ∧ resB.status = BookingStatus.confirmed ∧
        (bothReadThenWrite s envA envB userA userB trainId date psA psB
            train).2.2.bookedSeats trainId date
          = s.bookedSeats trainId date + psA.length + psB.length) := by
  have hcA := createBooking_eq_bookAfterRead s envA userA trainId date psA train htid hdate hA
    htrain hfA
  obtain ⟨hrA, hbA⟩ := bookAfterRead_ok s envA userA trainId date psA train
    (s.sumConfirmed trainId date) hfA
  obtain ⟨hrB, hbB⟩ := bookAfterRead_ok
    (bookAfterRead s envA userA trainId date psA train (s.sumConfirmed trainId date)).1
    envB userB trainId date psB train (s.sumConfirmed trainId date) hfB
  obtain ⟨hrB', _, _, _⟩ := createBooking_spec s envB userB trainId date psB train htid hdate
    hB htrain (failAt_none_ne envB hfB _)
  have hposA : 0 < psA.length := List.length_pos.mpr hA
  have hposB : 0 < psB.length := List.length_pos.mpr hB
  refine ⟨_, _, _, hrA, hrB, by rw [hcA]; exact hrA, hrB', rfl, rfl, rfl, rfl, rfl, ?_, ?_⟩
  · intro hleft
    refine ⟨seatLabel (seatCounterStart (s.sumConfirmed trainId date)), ?_, ?_⟩
    · rw [mem_seatRange]
      refine ⟨_, le_rfl, ?_, rfl⟩
      have : ((s.sumConfirmed trainId date).getD 0 : Nat) = s.bookedSeats trainId date := rfl
      rw [this]
      omega
    · rw [mem_seatRange]
      refine ⟨_, le_rfl, ?_, rfl⟩
      have : ((s.sumConfirmed trainId date).getD 0 : Nat) = s.bookedSeats trainId date := rfl
      rw [this]
      omega
  · intro hleA hleB
    have hb : ((s.sumConfirmed trainId date).getD 0 : Nat) = s.bookedSeats trainId date := rfl
    have hsA : aggregateStatus ((train.total_seats : Int)
        - (((s.sumConfirmed trainId date).getD 0 : Nat) : Int)) psA.length
        = BookingStatus.confirmed := by
      rw [hb]; unfold aggregateStatus; rw [if_pos (by omega)]
    have hsB : aggregateStatus ((train.total_seats : Int)
        - (((s.sumConfirmed trainId date).getD 0 : Nat) : Int)) psB.length
        = BookingStatus.confirmed := by
      rw [hb]; unfold aggregateStatus; rw [if_pos (by omega)]
    refine ⟨hsA, hsB, ?_⟩
    show (bookAfterRead
        (bookAfterRead s envA userA trainId date psA train (s.sumConfirmed trainId date)).1
        envB userB trainId date psB train (s.sumConfirmed trainId date)).1.bookedSeats
        trainId date = _
    rw [bookedSeats_of_append _ _ _ _ _ hbB trainId date,
      bookedSeats_of_append _ _ _ _ _ hbA trainId date]
    simp only [contribution, hsA, hsB, and_self, if_true]

theorem C24_stale_read_allocates_alike_witness :
    ∃ resA resB resB',
      (bothReadThenWrite (emptyStore [train1]) quietEnv quietEnv 7 8 1 "2025-01-01"
          [traveller] [traveller] train1).1 = Response.success 201 resA ∧
      (bothReadThenWrite (emptyStore [train1]) quietEnv quietEnv 7 8 1 "2025-01-01"
          [traveller] [traveller] train1).2.1 = Response.success 201 resB ∧
      (createBooking (emptyStore [train1]) quietEnv 7
          (validRequest 1 "2025-01-01" [traveller])).2 = Response.success 201 resA ∧
      (createBooking (emptyStore [train1]) quietEnv 8
          (validRequest 1 "2025-01-01" [traveller])).2 = Response.success 201 resB' ∧
      resB.status = resB'.status ∧
      resB.confirmedPassengers = resB'.confirmedPassengers ∧
      resB.waitingPassengers = resB'.waitingPassengers ∧
      resB.seatNumbers = resB'.seatNumbers ∧
      resB.totalAmount = resB'.totalAmount ∧
      ((0 : Int) < (train1.total_seats : Int)
          - ((emptyStore [train1]).bookedSeats 1 "2025-01-01" : Int) →
        ∃ x, x ∈ resA.seatNumbers ∧ x ∈ resB.seatNumbers) ∧
      (([traveller].length : Int) ≤ (train1.total_seats : Int)
          - ((emptyStore [train1]).bookedSeats 1 "2025-01-01" : Int) →
        ([traveller].length : Int) ≤ (train1.total_seats : Int)
          - ((emptyStore [train1]).bookedSeats 1 "2025-01-01" : Int) →
        resA.status = BookingStatus.confirmed ∧ resB.status = BookingStatus.confirmed ∧
        (bothReadThenWrite (emptyStore [train1]) quietEnv quietEnv 7 8 1 "2025-01-01"
            [traveller] [traveller] train1).2.2.bookedSeats 1 "2025-01-01"
          = (emptyStore [train1]).bookedSeats 1 "2025-01-01" + [traveller].length
            + [traveller].length) :=
  C24_stale_read_allocates_alike (emptyStore [train1]) quietEnv quietEnv 7 8 1 "2025-01-01"
    [traveller] [traveller] train1 (by decide) (by decide) (by decide) (by decide) (by decide)
    rfl rfl

end RailwaySystem
